import Mathlib

/-!
# Distributed notification system: gateway middleware, publisher and push worker

A shallow embedding of the dispatch pipeline of the repository:

* `api_gateway_service/src/middleware/rate-limit.middleware.js`
* `api_gateway_service/src/middleware/idempotency.middleware.js`
* `api_gateway_service/src/utils/redis.js`
* `api_gateway_service/src/services/notification.service.js`
* `push_service/src/index.js`

Times are milliseconds since the epoch (`Date.now()`), natural numbers.  The
Redis commands and the AMQP channel are the environment of the code; they are
modelled by explicit state passing.  Awaited calls are taken to be
instantaneous: one run of a middleware happens at one time `now`.
-/

namespace NotificationSystem

/-! ## Redis sorted sets, as used by the rate limiter -/

/-- The member written by the rate limiter, `${now}:${Math.random()}`: the time
of the request and the random draw. -/
structure RequestId where
  stamp : Nat
  rnd : Nat
deriving DecidableEq, Repr

/-- One entry of a sorted set: a score and a member value. -/
structure ZEntry where
  score : Nat
  value : RequestId
deriving DecidableEq, Repr

/-- A sorted-set key: its entries and the time (ms) at which the key expires,
when a time to live has been set. A key without entries does not exist. -/
structure ZKey where
  entries : List ZEntry
  expire_at : Option Nat
deriving DecidableEq, Repr

/-- The sorted-set part of the store: every key name to its set. -/
abbrev ZStore := String → ZKey

/-- The key that does not exist. -/
def ZKey.absent : ZKey := ⟨[], none⟩

/-- Whether the time to live of the key has run out at time `now`. -/
def ZKey.expired (k : ZKey) (now : Nat) : Bool :=
  match k.expire_at with
  | some t => decide (t ≤ now)
  | none => false

/-- What a command issued at time `now` finds under the key: an expired key
is gone, with its entries and its time to live. -/
def ZKey.at (k : ZKey) (now : Nat) : ZKey :=
  if k.expired now then ZKey.absent else k

/-- The entries of `key` that exist at time `now`. -/
def window_entries (store : ZStore) (now : Nat) (key : String) : List ZEntry :=
  ((store key).at now).entries

/-- Redis `ZREMRANGEBYSCORE key min max`: removes the entries whose score lies
in `[min, max]`; a set left without entries is deleted. -/
def zRemRangeByScore (store : ZStore) (now : Nat) (key : String) (min max : Int) : ZStore :=
  let k := (store key).at now
  let kept := k.entries.filter (fun e => !(decide (min ≤ (e.score : Int)) && decide ((e.score : Int) ≤ max)))
  Function.update store key (if kept = [] then ZKey.absent else ⟨kept, k.expire_at⟩)

/-- Redis `ZCARD key`: the number of entries of the set. -/
def zCard (store : ZStore) (now : Nat) (key : String) : Nat :=
  ((store key).at now).entries.length

/-- Redis `ZADD key score value`: a member already present only has its score
replaced; otherwise the entry is added. The time to live is not touched. -/
def zAdd (store : ZStore) (now : Nat) (key : String) (score : Nat) (value : RequestId) : ZStore :=
  let k := (store key).at now
  Function.update store key ⟨k.entries.filter (fun e => decide (e.value ≠ value)) ++ [⟨score, value⟩], k.expire_at⟩

/-- Redis `EXPIRE key seconds`: sets the time to live of an existing key. -/
def expire (store : ZStore) (now : Nat) (key : String) (seconds : Nat) : ZStore :=
  let k := (store key).at now
  Function.update store key (if k.entries = [] then ZKey.absent else ⟨k.entries, some (now + seconds * 1000)⟩)

/-! ## rate-limit.middleware.js -/

/-- The two settings of the limiter, `RATE_LIMIT_MAX_REQUESTS` (default 100)
and `RATE_LIMIT_WINDOW_MS` (default 60000). -/
structure RateLimitConfig where
  max_requests : Nat
  window_ms : Nat
deriving DecidableEq, Repr

/-- The default settings of `rate_limit_middleware`. -/
def default_rate_limit : RateLimitConfig := ⟨100, 60000⟩

/-- `Math.ceil(x / 1000)` for a natural number `x`. -/
def ceil_div_1000 (x : Nat) : Nat := (x + 999) / 1000

/-- The `error` object of the 429 body. -/
structure RateLimitError where
  code : String
  limit : Nat
  window_ms : Nat
  retry_after_seconds : Nat
deriving DecidableEq, Repr

/-- The JSON body sent with status 429. -/
structure RateLimitBody where
  success : Bool
  message : String
  error : RateLimitError
deriving DecidableEq, Repr

/-- How a middleware ends: it calls `next()` or it sends a response. -/
inductive RateLimitOutcome where
  | next
  | respond (status : Nat) (body : RateLimitBody)
deriving DecidableEq, Repr

/-- The effects of one run of the limiter: the store afterwards, the response
headers set (in order) and the outcome. -/
structure RateLimitResult where
  store : ZStore
  headers : List (String × Int)
  outcome : RateLimitOutcome

/-- The key of a client in the store. -/
def rate_limit_key (client_id : String) : String := "rate_limit:" ++ client_id

/-- The function `rate_limit_middleware`, for the client `client_id` returned by
`get_client_identifier(req)`, at time `now = Date.now()`, with `rnd` the value
of `Math.random()`.  `fail_at = some i` makes the `i`-th store operation throw
(0 `get_redis_client`, 1 `zRemRangeByScore`, 2 `zCard`, 3 `zAdd`, 4 `expire`);
the `catch` block then calls `next()`. -/
def rate_limit_middleware (cfg : RateLimitConfig) (store : ZStore) (client_id : String)
    (now rnd : Nat) (fail_at : Option Nat) : RateLimitResult :=
  if fail_at = some 0 then ⟨store, [], .next⟩ else
  let key := rate_limit_key client_id
  let window_start : Int := (now : Int) - (cfg.window_ms : Int)
  if fail_at = some 1 then ⟨store, [], .next⟩ else
  let s1 := zRemRangeByScore store now key 0 window_start
  if fail_at = some 2 then ⟨s1, [], .next⟩ else
  let current_count := zCard s1 now key
  let remaining : Int := max 0 ((cfg.max_requests : Int) - (current_count : Int))
  let reset_time := ceil_div_1000 (now + cfg.window_ms)
  let headers : List (String × Int) :=
    [("X-RateLimit-Limit", (cfg.max_requests : Int)),
     ("X-RateLimit-Remaining", remaining),
     ("X-RateLimit-Reset", (reset_time : Int))]
  if current_count ≥ cfg.max_requests then
    let retry_after := ceil_div_1000 cfg.window_ms
    ⟨s1, headers ++ [("Retry-After", (retry_after : Int))],
      .respond 429
        { success := false
          message := "Too many requests. Please try again later."
          error := ⟨"RATE_LIMIT_EXCEEDED", cfg.max_requests, cfg.window_ms, retry_after⟩ }⟩
  else
    if fail_at = some 3 then ⟨s1, headers, .next⟩ else
    let s2 := zAdd s1 now key now ⟨now, rnd⟩
    if fail_at = some 4 then ⟨s2, headers, .next⟩ else
    let s3 := expire s2 now key (ceil_div_1000 cfg.window_ms + 1)
    ⟨s3, headers, .next⟩

/-- Whether the outcome is a response with status 429. -/
def RateLimitOutcome.is_429 : RateLimitOutcome → Bool
  | .respond 429 _ => true
  | _ => false

/-- The entries of a window that lie inside the window at `now`: those with
`score > now - window_ms`. -/
def not_expired (cfg : RateLimitConfig) (now : Nat) (es : List ZEntry) : List ZEntry :=
  es.filter (fun e => decide (¬ ((e.score : Int) ≤ (now : Int) - (cfg.window_ms : Int))))

/-- The response of the limiter to a request it denies. -/
def too_many_requests (cfg : RateLimitConfig) : RateLimitOutcome :=
  .respond 429
    { success := false
      message := "Too many requests. Please try again later."
      error := ⟨"RATE_LIMIT_EXCEEDED", cfg.max_requests, cfg.window_ms,
        ceil_div_1000 cfg.window_ms⟩ }

/-- The requests `(now, rnd)` of one client handled one after the other,
without store failure: the outcomes, in order. -/
def rate_limit_runs (cfg : RateLimitConfig) (client_id : String) :
    ZStore → List (Nat × Nat) → List RateLimitOutcome
  | _, [] => []
  | store, (now, rnd) :: rest =>
    (rate_limit_middleware cfg store client_id now rnd none).outcome ::
      rate_limit_runs cfg client_id
        (rate_limit_middleware cfg store client_id now rnd none).store rest

/-- A store in which the client `ip:10.0.0.1` has two entries, at 1000 ms and at
61500 ms. -/
def sample_zstore : ZStore := fun key =>
  if key = "rate_limit:ip:10.0.0.1" then
    ⟨[⟨1000, ⟨1000, 7⟩⟩, ⟨61500, ⟨61500, 3⟩⟩], some 123000⟩
  else ZKey.absent

/-- The key of a client under a route-specific limiter. -/
def custom_rate_limit_key (client_id : String) : String := "rate_limit:custom:" ++ client_id

/-- The middleware returned by `create_rate_limiter(max_requests, window_ms)`,
with the same arguments as `rate_limit_middleware`. -/
def create_rate_limiter (max_requests window_ms : Nat) (store : ZStore) (client_id : String)
    (now rnd : Nat) (fail_at : Option Nat) : RateLimitResult :=
  if fail_at = some 0 then ⟨store, [], .next⟩ else
  let key := custom_rate_limit_key client_id
  let window_start : Int := (now : Int) - (window_ms : Int)
  if fail_at = some 1 then ⟨store, [], .next⟩ else
  let s1 := zRemRangeByScore store now key 0 window_start
  if fail_at = some 2 then ⟨s1, [], .next⟩ else
  let current_count := zCard s1 now key
  let remaining : Int := max 0 ((max_requests : Int) - (current_count : Int))
  let reset_time := ceil_div_1000 (now + window_ms)
  let headers : List (String × Int) :=
    [("X-RateLimit-Limit", (max_requests : Int)),
     ("X-RateLimit-Remaining", remaining),
     ("X-RateLimit-Reset", (reset_time : Int))]
  if current_count ≥ max_requests then
    let retry_after := ceil_div_1000 window_ms
    ⟨s1, headers ++ [("Retry-After", (retry_after : Int))],
      .respond 429
        { success := false
          message := "Too many requests. Please try again later."
          error := ⟨"RATE_LIMIT_EXCEEDED", max_requests, window_ms, retry_after⟩ }⟩
  else
    if fail_at = some 3 then ⟨s1, headers, .next⟩ else
    let s2 := zAdd s1 now key now ⟨now, rnd⟩
    if fail_at = some 4 then ⟨s2, headers, .next⟩ else
    let s3 := expire s2 now key (ceil_div_1000 window_ms + 1)
    ⟨s3, headers, .next⟩

/-- Whether the store operation `fail_at` is reached by a run of a limiter that
counts `current_count` requests after the purge: the operations 0 to 2 always
are, `zAdd` (3) and `expire` (4) only when the request is not denied. -/
def fault_reached (max_requests current_count : Nat) (fail_at : Option Nat) : Bool :=
  match fail_at with
  | some 0 => true
  | some 1 => true
  | some 2 => true
  | some 3 => decide (current_count < max_requests)
  | some 4 => decide (current_count < max_requests)
  | _ => false

/-- The parts of a request that `get_client_identifier` reads: the headers
`x-client-id` and `x-forwarded-for` (`none` when absent), `req.ip` and
`req.connection.remoteAddress` (`none` when undefined). -/
structure ClientRequest where
  x_client_id : Option String
  x_forwarded_for : Option String
  ip : Option String
  remote_address : Option String
deriving DecidableEq, Repr

/-- The characters that `String.prototype.trim` removes: the white space and
the line terminators of ECMAScript, by code point. -/
def js_whitespace (c : Char) : Bool :=
  let n := c.toNat
  n = 9 || n = 10 || n = 11 || n = 12 || n = 13 || n = 32 || n = 160 || n = 5760 ||
  (8192 ≤ n && n ≤ 8202) || n = 8232 || n = 8233 || n = 8239 || n = 8287 || n = 12288 ||
  n = 65279

/-- The method `trim` on the characters of a string: the white space at both
ends is dropped. -/
def js_trim (cs : List Char) : List Char :=
  ((cs.dropWhile js_whitespace).reverse.dropWhile js_whitespace).reverse

/-- The expression `s.split(',')[0].trim()`: what stands before the first comma,
without the white space around it. -/
def first_hop (s : String) : String :=
  String.mk (js_trim (s.toList.takeWhile (fun c => decide (c ≠ ','))))

/-- The function `get_client_identifier`. An undefined address is rendered
`undefined` by the template string. -/
def get_client_identifier (req : ClientRequest) : String :=
  let by_ip : String :=
    "ip:" ++
      (match req.x_forwarded_for with
        | some forwarded_for =>
          if forwarded_for ≠ "" then first_hop forwarded_for
          else
            (match req.ip with
              | some a => if a ≠ "" then a else req.remote_address.getD "undefined"
              | none => req.remote_address.getD "undefined")
        | none =>
          (match req.ip with
            | some a => if a ≠ "" then a else req.remote_address.getD "undefined"
            | none => req.remote_address.getD "undefined"))
  match req.x_client_id with
  | some custom_id => if custom_id ≠ "" then "client:" ++ custom_id else by_ip
  | none => by_ip

/-! ## redis.js: the idempotency records -/

/-- A response body passed to `res.json` by the controller: `{success, message}`. -/
structure JsonBody where
  success : Bool
  message : String
deriving DecidableEq, Repr

/-- The value stored under an idempotency key: `{status, timestamp}` for a
request being processed and `{status, timestamp, response}` once it is
completed. `timestamp` is the time of `new Date()`. -/
structure IdemRecord where
  status : String
  timestamp : Nat
  response : Option JsonBody
deriving DecidableEq, Repr

/-- A string key of the store: the stored record and the time (ms) at which
the key expires. -/
structure IdemEntry where
  value : IdemRecord
  expire_at : Nat
deriving DecidableEq, Repr

/-- The string part of the store. -/
abbrev IdemStore := String → Option IdemEntry

/-- What a command issued at time `now` finds under `key`: nothing when the key
was never set or its time to live has run out. -/
def idem_lookup (store : IdemStore) (now : Nat) (key : String) : Option IdemEntry :=
  match store key with
  | some e => if e.expire_at ≤ now then none else some e
  | none => none

/-- The function `check_idempotency_key`: `EXISTS key`, and `false` when the
store fails (`fails`). -/
def check_idempotency_key (store : IdemStore) (now : Nat) (key : String) (fails : Bool) : Bool :=
  if fails then false else (idem_lookup store now key).isSome

/-- The function `set_idempotency_key`: `SETEX key ttl_seconds value`; returns
the store and `true`, or the store unchanged and `false` when the store fails. -/
def set_idempotency_key (store : IdemStore) (now : Nat) (key : String) (value : IdemRecord)
    (ttl_seconds : Nat) (fails : Bool) : IdemStore × Bool :=
  if fails then (store, false)
  else (Function.update store key (some ⟨value, now + ttl_seconds * 1000⟩), true)

/-- The function `get_idempotency_value`: `GET key` parsed, `null` (here `none`)
when there is no value or the store fails. -/
def get_idempotency_value (store : IdemStore) (now : Nat) (key : String) (fails : Bool) :
    Option IdemRecord :=
  if fails then none else (idem_lookup store now key).map (fun e => e.value)

/-! ## idempotency.middleware.js -/

/-- Which of the three store functions fail during one run. -/
structure IdemFaults where
  check_fails : Bool
  get_fails : Bool
  set_fails : Bool
deriving DecidableEq, Repr

/-- No store failure. -/
def IdemFaults.none : IdemFaults := ⟨false, false, false⟩

/-- The body of the response sent for a duplicate request. -/
structure DuplicateBody where
  success : Bool
  message : String
  data : IdemRecord
  idempotent : Bool
deriving DecidableEq, Repr

/-- How the guard ends: `next()` is called, with `res.json` wrapped to cache the
response under `intercept` when a key was given, or a response is sent. -/
inductive IdemOutcome where
  | next (intercept : Option String)
  | respond (status : Nat) (body : DuplicateBody)
deriving DecidableEq, Repr

/-- The store key of an idempotency key. -/
def idempotency_store_key (idempotency_key : String) : String := "idempotency:" ++ idempotency_key

/-- The function `idempotency_middleware` at time `now`, for the value of the
`idempotency-key` header (`none` when the header is absent). -/
def idempotency_middleware (store : IdemStore) (idempotency_key : Option String) (now : Nat)
    (faults : IdemFaults) : IdemStore × IdemOutcome :=
  match idempotency_key with
  | none => (store, .next none)
  | some k =>
    if k = "" then (store, .next none) else
    let key := idempotency_store_key k
    let proceed : IdemStore × IdemOutcome :=
      ((set_idempotency_key store now key ⟨"processing", now, none⟩ 86400 faults.set_fails).1,
        .next (some k))
    if check_idempotency_key store now key faults.check_fails then
      match get_idempotency_value store now key faults.get_fails with
      | some cached_response =>
        (store, .respond 200
          { success := true
            message := "Request already processed (idempotent)"
            data := cached_response
            idempotent := true })
      | none => proceed
    else proceed

/-- The wrapper installed on `res.json` by the guard: the body sent by the
controller at time `now` is cached as a `completed` record, for 24 hours. -/
def res_json (store : IdemStore) (idempotency_key : String) (now : Nat) (body : JsonBody)
    (fails : Bool) : IdemStore :=
  (set_idempotency_key store now (idempotency_store_key idempotency_key)
    ⟨"completed", now, some body⟩ 86400 fails).1

/-- A run of the guard for each of the times `times`, one after the other, all
with the same key and without store failure: the final store and the outcomes. -/
def idempotency_runs (store : IdemStore) (k : String) : List Nat → IdemStore × List IdemOutcome
  | [] => (store, [])
  | now :: rest =>
    let r := idempotency_middleware store (some k) now IdemFaults.none
    let rs := idempotency_runs r.1 k rest
    (rs.1, r.2 :: rs.2)

/-- A store in which the key `k1` holds a `processing` record written at
1000 ms. -/
def sample_idem_store : IdemStore := fun key =>
  if key = "idempotency:k1" then some ⟨⟨"processing", 1000, none⟩, 86401000⟩ else none

/-! ## AMQP messages -/

/-- A value of a message header. -/
inductive HVal where
  | num (n : Nat)
  | str (s : String)
deriving DecidableEq, Repr

/-- The header table of a message. -/
abbrev Headers := List (String × HVal)

/-- Reading `headers[name]`. -/
def Headers.get : Headers → String → Option HVal
  | [], _ => none
  | (k, v) :: rest, name => if k = name then some v else Headers.get rest name

/-- Writing `name: v` into a header object, as in `{...hs, name: v}`: the value
of an existing property is replaced, a new property comes last. -/
def Headers.set : Headers → String → HVal → Headers
  | [], name, v => [(name, v)]
  | (k, v0) :: rest, name, v =>
    if k = name then (k, v) :: rest else (k, v0) :: Headers.set rest name v

/-- The payload of an email envelope (`vars` is the field `variables`). -/
structure EmailMessage where
  correlation_id : String
  user_email : String
  user_first_name : String
  template_subject : String
  template_body : String
  vars : List (String × String)
deriving DecidableEq, Repr

/-- The payload of a push envelope (`vars` is the field `variables`). -/
structure PushMessage where
  correlation_id : String
  token : String
  title : String
  body : String
  vars : List (String × String)
deriving DecidableEq, Repr

/-- The content buffer of a message: the JSON text of an email or of a push
payload, or bytes that `JSON.parse` rejects. -/
inductive Content where
  | email (m : EmailMessage)
  | push (m : PushMessage)
  | garbage (text : String)
deriving DecidableEq, Repr

/-- The properties of a message (the options of `channel.publish`). -/
structure Properties where
  persistent : Bool
  contentType : Option String
  messageId : Option String
  correlationId : Option String
  timestamp : Option Nat
  headers : Option Headers
deriving DecidableEq, Repr

/-- One call `channel.publish(exchange, routingKey, content, options)`. -/
structure Publish where
  exchange : String
  routingKey : String
  content : Content
  options : Properties
deriving DecidableEq, Repr

/-- A message delivered to a consumer. -/
structure Message where
  content : Content
  properties : Properties
deriving DecidableEq, Repr

/-- The message a consumer receives for a published envelope. -/
def Publish.delivered (p : Publish) : Message := ⟨p.content, p.options⟩

/-- The name of the main exchange. -/
def EXCHANGE_NAME : String := "notifications.direct"
/-- The name of the email queue. -/
def EMAIL_QUEUE : String := "email.queue"
/-- The name of the push queue. -/
def PUSH_QUEUE : String := "push.queue"


/-! ## notification.service.js -/

/-- A JavaScript value, as found in a preference field of a user profile. -/
inductive JsVal where
  | undefined
  | null
  | bool (b : Bool)
  | num (n : Int)
  | str (s : String)
deriving DecidableEq, Repr

/-- The test `v !== false`. -/
def JsVal.not_false (v : JsVal) : Bool := !(decide (v = JsVal.bool false))

/-- The preferences of a user. -/
structure NotificationPreference where
  email_enabled : JsVal
  push_enabled : JsVal
deriving DecidableEq, Repr

/-- A registered device. -/
structure PushToken where
  token : String
deriving DecidableEq, Repr

/-- The profile returned by the user service. -/
structure User where
  email : String
  first_name : String
  notification_preference : Option NotificationPreference
  push_tokens : Option (List PushToken)
deriving DecidableEq, Repr

/-- The template returned by the template service. -/
structure Template where
  type : String
  subject : String
  body : String
deriving DecidableEq, Repr

/-- The request data `{user_id, template_name, variables}`. -/
structure NotificationRequest where
  user_id : String
  template_name : String
  vars : List (String × String)
deriving DecidableEq, Repr

/-- The value returned by `process_notification_request`. -/
structure DispatchResult where
  success : Bool
  message : String
deriving DecidableEq, Repr

/-- How an asynchronous function ends: it returns a value or it throws an
error with a message. -/
inductive Completion (α : Type) where
  | returned (value : α)
  | thrown (message : String)
deriving DecidableEq, Repr

/-- What the function finds around it during one run: the `uuidv4()` minted,
what the two breakers answer (an error thrown, or `response.data.data`),
whether the module holds a channel and a connection, what the `i`-th call of
`channel.publish` returns and the `Date.now()` of the `i`-th call. -/
structure DispatchEnv where
  correlation_id : String
  user_response : Completion (Option User)
  template_response : Completion (Option Template)
  channel : Bool
  connection : Bool
  accepted : Nat → Bool
  clock : Nat → Nat

/-- The function `get_channel` of `rabbitmq.js`: the error it throws, if any. -/
def get_channel (channel connection : Bool) : Option String :=
  if !channel then some "RabbitMQ channel is not available. Connect first."
  else if !connection then some "RabbitMQ connection is not available. Please reconnect."
  else none

/-- The effects of one run of `process_notification_request`: the calls of
`channel.publish` in order, each with the value it returned, and the end. -/
structure DispatchRun where
  published : List (Publish × Bool)
  result : Completion DispatchResult
deriving DecidableEq, Repr

/-- The envelope published for an EMAIL template. -/
def email_envelope (correlation_id : String) (user : User) (template : Template)
    (vars : List (String × String)) (timestamp : Nat) : Publish :=
  { exchange := EXCHANGE_NAME
    routingKey := EMAIL_QUEUE
    content := .email
      { correlation_id := correlation_id
        user_email := user.email
        user_first_name := user.first_name
        template_subject := template.subject
        template_body := template.body
        vars := vars }
    options :=
      { persistent := true
        contentType := some "application/json"
        messageId := some correlation_id
        correlationId := some correlation_id
        timestamp := some timestamp
        headers := some [("x-retry-count", .num 0)] } }

/-- The envelope published for one device token of a PUSH template
(`substring(0, 8)` is taken on characters). -/
def push_envelope (correlation_id : String) (template : Template)
    (vars : List (String × String)) (pushToken : PushToken) (timestamp : Nat) : Publish :=
  { exchange := EXCHANGE_NAME
    routingKey := PUSH_QUEUE
    content := .push
      { correlation_id := correlation_id
        token := pushToken.token
        title := template.subject
        body := template.body
        vars := vars }
    options :=
      { persistent := true
        contentType := some "application/json"
        messageId := some (correlation_id ++ "-" ++ pushToken.token.take 8)
        correlationId := some correlation_id
        timestamp := some timestamp
        headers := some [("x-retry-count", .num 0)] } }

/-- The loop `for (const pushToken of user.push_tokens)`: one publish per
token, the `i`-th call being answered by `accepted i`. -/
def fan_out (env : DispatchEnv) (template : Template) (vars : List (String × String)) :
    List PushToken → Nat → List (Publish × Bool)
  | [], _ => []
  | pushToken :: rest, i =>
    (push_envelope env.correlation_id template vars pushToken (env.clock i), env.accepted i)
      :: fan_out env template vars rest (i + 1)

/-- The number of calls that returned `true` (`publishedCount`). -/
def published_count (calls : List (Publish × Bool)) : Nat :=
  (calls.filter (fun c => c.2)).length

/-- The function `process_notification_request`. -/
def process_notification_request (env : DispatchEnv) (requestData : NotificationRequest) :
    DispatchRun :=
  match env.user_response with
  | .thrown e => ⟨[], .thrown e⟩
  | .returned none => ⟨[], .thrown "User not found in response"⟩
  | .returned (some user) =>
    match env.template_response with
    | .thrown e => ⟨[], .thrown e⟩
    | .returned none => ⟨[], .thrown "Template not found in response"⟩
    | .returned (some template) =>
      let emailEnabled :=
        (match user.notification_preference with
          | some p => p.email_enabled
          | none => JsVal.undefined).not_false
      let pushEnabled :=
        (match user.notification_preference with
          | some p => p.push_enabled
          | none => JsVal.undefined).not_false
      if template.type = "EMAIL" ∧ emailEnabled = true then
        match get_channel env.channel env.connection with
        | some e => ⟨[], .thrown e⟩
        | none =>
          ⟨[(email_envelope env.correlation_id user template requestData.vars (env.clock 0),
              env.accepted 0)],
            .returned ⟨true, "Email notification queued successfully."⟩⟩
      else if template.type = "PUSH" ∧ pushEnabled = true then
        match user.push_tokens with
        | none => ⟨[], .returned ⟨true, "User has no push tokens; request skipped."⟩⟩
        | some [] => ⟨[], .returned ⟨true, "User has no push tokens; request skipped."⟩⟩
        | some (t :: ts) =>
          match get_channel env.channel env.connection with
          | some e => ⟨[], .thrown e⟩
          | none =>
            let calls := fan_out env template requestData.vars (t :: ts) 0
            let publishedCount := published_count calls
            if publishedCount > 0 then
              ⟨calls, .returned ⟨true, "Push notifications queued successfully (" ++
                toString publishedCount ++ " device(s))."⟩⟩
            else ⟨calls, .thrown "Failed to publish any push notification messages"⟩
      else ⟨[], .returned ⟨false, "Notification type not enabled or not supported."⟩⟩

/-! ## notification.controller.js -/

/-- A JSON value of the request body. -/
inductive JsonVal where
  | null
  | bool (b : Bool)
  | num (n : Int)
  | str (s : String)
  | arr (items : List String)
  | obj (fields : List (String × String))
deriving DecidableEq, Repr

/-- The parsed body `req.body`: each of the three fields is absent (`none`,
JavaScript `undefined`) or a JSON value (`vars` is the field `variables`). -/
structure RequestBody where
  user_id : Option JsonVal
  template_name : Option JsonVal
  vars : Option JsonVal
deriving DecidableEq, Repr

/-- The test `!v` on a field of the body: true for `undefined`, `null`, `false`,
`0` and the empty string; an object or an array, empty or not, is not falsy. -/
def js_not : Option JsonVal → Bool
  | none => true
  | some .null => true
  | some (.bool b) => !b
  | some (.num n) => decide (n = 0)
  | some (.str s) => decide (s = "")
  | some (.arr _) => false
  | some (.obj _) => false

/-- What the controller does, in order: it sends a response, it calls
`process_notification_request(req.body)`, it logs the error of a rejected
dispatch. -/
inductive ControllerEvent where
  | respond (status : Nat) (body : JsonBody)
  | dispatch (requestData : RequestBody)
  | log_error (message : String)
deriving DecidableEq, Repr

/-- The effects of one run of the controller: its events and how the call of
the controller itself ends. -/
structure ControllerRun where
  events : List ControllerEvent
  completion : Completion Unit
deriving DecidableEq, Repr

/-- The function `send_notification` for the body `body`; `dispatch` is how the
call `process_notification_request(req.body)` ends. -/
def send_notification (body : RequestBody) (dispatch : RequestBody → Completion DispatchResult) :
    ControllerRun :=
  if js_not body.user_id || js_not body.template_name || js_not body.vars then
    ⟨[.respond 400 ⟨false, "user_id, template_name, and variables are required"⟩],
      .returned ()⟩
  else
    ⟨[.respond 202 ⟨true, "Notification request accepted and is being processed."⟩,
        .dispatch body] ++
      (match dispatch body with
        | .returned _ => []
        | .thrown message => [.log_error message]),
      .returned ()⟩

/-- The response sent during a run, if any: its status and body. -/
def ControllerRun.response (run : ControllerRun) : Option (Nat × JsonBody) :=
  run.events.findSome? (fun e =>
    match e with
    | .respond status body => some (status, body)
    | _ => none)

/-- Whether the dispatch was started during a run. -/
def ControllerRun.dispatched (run : ControllerRun) : Bool :=
  run.events.any (fun e =>
    match e with
    | .dispatch _ => true
    | _ => false)

/-! ## circuit-breaker.js

The file sets the options of two breakers of the library `opossum`; the class
of the breaker itself is not part of the sources. -/

/-- The options passed to the breaker. -/
structure BreakerOptions where
  timeout : Nat
  errorThresholdPercentage : Nat
  resetTimeout : Nat
  rollingCountTimeout : Nat
  rollingCountBuckets : Nat
  name : String
deriving DecidableEq, Repr

/-- The options set by `createHttpCircuitBreaker(serviceName)`. -/
def createHttpCircuitBreaker (serviceName : String) : BreakerOptions :=
  { timeout := 5000
    errorThresholdPercentage := 50
    resetTimeout := 30000
    rollingCountTimeout := 10000
    rollingCountBuckets := 10
    name := serviceName ++ "CircuitBreaker" }

/-- The three modes of a breaker. -/
inductive BreakerMode where
  | CLOSED
  | OPEN
  | HALF_OPEN
deriving DecidableEq, Repr

/-- Modelled from the spec: the state of a breaker (the class `CircuitBreaker`
of `opossum` is missing). The mode, the completions recorded in the rolling
window (time and whether the call failed), the time of the last opening, and
whether the probe of the half-open mode is under way. -/
structure BreakerState where
  mode : BreakerMode
  window : List (Nat × Bool)
  opened_at : Nat
  probe_in_flight : Bool
deriving DecidableEq, Repr

/-- Modelled from the spec: a breaker at process start (the constructor of
`CircuitBreaker` is missing): closed, with an empty window. -/
def BreakerState.initial : BreakerState := ⟨.CLOSED, [], 0, false⟩

/-- The state shown by `get_all_circuit_breaker_stats`:
`opened ? 'OPEN' : halfOpen ? 'HALF_OPEN' : 'CLOSED'`. -/
def breaker_state_name (s : BreakerState) : String :=
  match s.mode with
  | .OPEN => "OPEN"
  | .HALF_OPEN => "HALF_OPEN"
  | .CLOSED => "CLOSED"

/-- Modelled from the spec: the records of the rolling window that count at time
`now` (the window of `opossum` is missing): those of the last
`rollingCountBuckets` buckets, a bucket lasting
`rollingCountTimeout / rollingCountBuckets` ms. -/
def trailing_window (o : BreakerOptions) (window : List (Nat × Bool)) (now : Nat) :
    List (Nat × Bool) :=
  let bucket_ms := o.rollingCountTimeout / o.rollingCountBuckets
  window.filter (fun r => decide (now / bucket_ms < r.1 / bucket_ms + o.rollingCountBuckets))

/-- Modelled from the spec: whether the failure percentage of the records
exceeds the threshold (the error-rate test of `opossum` is missing). -/
def exceeds_threshold (o : BreakerOptions) (records : List (Nat × Bool)) : Bool :=
  decide ((records.filter (fun r => r.2)).length * 100
    > o.errorThresholdPercentage * records.length)

/-- Modelled from the spec: whether a call that took `duration` ms and ended
well or not (`ok`) counts as a failure (the deadline of `opossum` is missing):
any error or deadline overrun does. -/
def call_failed (o : BreakerOptions) (ok : Bool) (duration : Nat) : Bool :=
  !ok || decide (o.timeout < duration)

/-- Modelled from the spec: the start of a call at time `now` (the method `fire`
of `opossum` is missing). The result tells whether the wrapped call is
attempted. Closed: it is. Open: it is not, until `resetTimeout` has elapsed
since the opening; then the breaker becomes half-open and this call is the
probe. Half-open: only the probe is let through. -/
def breaker_fire (o : BreakerOptions) (s : BreakerState) (now : Nat) : BreakerState × Bool :=
  match s.mode with
  | .CLOSED => (s, true)
  | .OPEN =>
    if s.opened_at + o.resetTimeout ≤ now then
      ({ s with mode := .HALF_OPEN, probe_in_flight := true }, true)
    else (s, false)
  | .HALF_OPEN =>
    if s.probe_in_flight then (s, false)
    else ({ s with probe_in_flight := true }, true)

/-- Modelled from the spec: the completion at time `now` of a call that was
attempted (the success and failure handlers of `opossum` are missing).
Half-open: a successful probe closes the breaker and resets the window, a
failed probe opens it again and stamps the time. Closed: the completion is
recorded, and the breaker opens when the failure percentage of the trailing
window exceeds the threshold. Open: the completion is only recorded. -/
def breaker_settle (o : BreakerOptions) (s : BreakerState) (now : Nat) (failed : Bool) :
    BreakerState :=
  match s.mode with
  | .HALF_OPEN =>
    if failed then { s with mode := .OPEN, opened_at := now, probe_in_flight := false }
    else { mode := .CLOSED, window := [], opened_at := s.opened_at, probe_in_flight := false }
  | .CLOSED =>
    let window := (now, failed) :: s.window
    if exceeds_threshold o (trailing_window o window now) then
      { s with mode := .OPEN, window := window, opened_at := now }
    else { s with window := window }
  | .OPEN => { s with window := (now, failed) :: s.window }

/-- Modelled from the spec: calls started one after the other at the times
`times`, none of which completes meanwhile; for each, whether the wrapped call
is attempted. -/
def breaker_fires (o : BreakerOptions) : BreakerState → List Nat → List Bool
  | _, [] => []
  | s, now :: rest => (breaker_fire o s now).2 :: breaker_fires o (breaker_fire o s now).1 rest

/-! ## push_service/src/index.js: the consumer -/

/-- Total attempts: the initial one and 3 retries. -/
def MAX_RETRIES : Nat := 4
/-- The delay before the first retry, in ms. -/
def INITIAL_RETRY_DELAY_MS : Nat := 1000
/-- The factor between two successive delays. -/
def BACKOFF_MULTIPLIER : Nat := 5

/-- What the worker does on the channel, and its waiting. -/
inductive Action where
  | ack
  | nack (allUpTo : Bool) (requeue : Bool)
  | sleep (ms : Nat)
  | publish (p : Publish)
deriving DecidableEq, Repr

/-- The expression `a || b` for an optional string `a`: `b` when `a` is
undefined or empty. -/
def or_else (a : Option String) (b : String) : String :=
  match a with
  | some s => if s = "" then b else s
  | none => b

/-- The field `correlation_id` of the parsed content, when `JSON.parse` accepts it. -/
def Content.parsed_correlation_id : Content → Option String
  | .email m => some m.correlation_id
  | .push m => some m.correlation_id
  | .garbage _ => none

/-- Whether `JSON.parse(msg.content.toString())` succeeds. -/
def Content.parses : Content → Bool
  | .garbage _ => false
  | _ => true

/-- The expression `msg.properties.headers?.['x-retry-count'] || 0`, for a header
that is absent or a number (or the empty string); `none` for a non-empty
string, whose arithmetic is not modelled. -/
def read_retry_count (msg : Message) : Option Nat :=
  match msg.properties.headers with
  | none => some 0
  | some hs =>
    match hs.get "x-retry-count" with
    | none => some 0
    | some (.num n) => some n
    | some (.str s) => if s = "" then some 0 else none

/-- What the worker finds around it while it handles one message: the message
of the error `JSON.parse` throws on bytes it rejects, the error thrown by
`handle_message` (`none` when the delivery succeeds), and at the time of the
republish `new Date().toISOString()` and `Date.now()`. -/
structure WorkerEnv where
  parse_error : String
  delivery : Option String
  retry_timestamp : String
  publish_time : Nat
deriving DecidableEq, Repr

/-- The headers of the republished message (`substring(0, 200)` is taken on
characters). -/
def retry_headers (existingHeaders : Headers) (retryCount attemptNumber : Nat)
    (error_message retry_timestamp : String) : Headers :=
  (((existingHeaders.set "x-retry-count" (.num (retryCount + 1))).set
    "x-original-error" (.str (error_message.take 200))).set
    "x-retry-timestamp" (.str retry_timestamp)).set
    "x-retry-attempt" (.num (attemptNumber + 1))

/-- The callback of `channel.consume` for one message `msg`: the actions of the
worker, in order. -/
def consume (env : WorkerEnv) (msg : Message) : Option (List Action) :=
  match read_retry_count msg with
  | none => none
  | some header_count =>
    -- the `try` block: parse, read the retry count, deliver
    let parsed := msg.content.parses
    let correlationId_try :=
      if parsed then or_else msg.content.parsed_correlation_id "unknown" else "unknown"
    let retryCount_try := if parsed then header_count else 0
    let attemptNumber_try := if parsed then header_count + 1 else 1
    let failure : Option String := if parsed then env.delivery else some env.parse_error
    match failure with
    | none => some [.ack]
    | some error_message =>
      -- the `catch` block
      let correlationId :=
        if correlationId_try = "unknown" then
          (if parsed then or_else msg.content.parsed_correlation_id "unknown"
           else or_else msg.properties.correlationId (or_else msg.properties.messageId "unknown"))
        else correlationId_try
      let reread := retryCount_try = 0 ∧ attemptNumber_try = 1
      let retryCount := if reread then header_count else retryCount_try
      let attemptNumber := if reread then header_count + 1 else attemptNumber_try
      if attemptNumber < MAX_RETRIES then
        let delayMs := INITIAL_RETRY_DELAY_MS * BACKOFF_MULTIPLIER ^ retryCount
        let existingHeaders := msg.properties.headers.getD []
        let newHeaders :=
          retry_headers existingHeaders retryCount attemptNumber error_message env.retry_timestamp
        let publishCorrelationId :=
          if correlationId = "unknown" then
            or_else msg.properties.correlationId (or_else msg.properties.messageId "unknown")
          else correlationId
        some [.ack, .sleep delayMs,
          .publish
            { exchange := EXCHANGE_NAME
              routingKey := PUSH_QUEUE
              content := msg.content
              options :=
                { persistent := true
                  contentType := some (or_else msg.properties.contentType "application/json")
                  messageId := some (or_else msg.properties.messageId publishCorrelationId)
                  correlationId := some publishCorrelationId
                  timestamp := some env.publish_time
                  headers := some newHeaders } }]
      else some [.nack false false]

/-- The message that reaches `push.queue` again after a run of the worker: the
one it published to the main exchange with the routing key of the queue. -/
def republished : List Action → Option Message
  | [] => none
  | .publish p :: rest =>
    if p.exchange = EXCHANGE_NAME ∧ p.routingKey = PUSH_QUEUE then some p.delivered
    else republished rest
  | _ :: rest => republished rest

/-- The life of one message in `push.queue`: the worker handles it, and handles
again every message it republishes; `envs i` is what it finds at the `i`-th
handling. The result lists the actions of each handling; `none` when `fuel`
handlings do not end the chain. -/
def retry_chain (envs : Nat → WorkerEnv) : Nat → Nat → Message → Option (List (List Action))
  | 0, _, _ => none
  | fuel + 1, i, msg =>
    match consume (envs i) msg with
    | none => none
    | some actions =>
      match republished actions with
      | none => some [actions]
      | some again => (retry_chain envs fuel (i + 1) again).map (fun rest => actions :: rest)

/-- The waits of a run, in order. -/
def delays : List Action → List Nat
  | [] => []
  | .sleep ms :: rest => ms :: delays rest
  | _ :: rest => delays rest

/-- The envelopes published during a run, in order. -/
def publishes : List Action → List Publish
  | [] => []
  | .publish p :: rest => p :: publishes rest
  | _ :: rest => publishes rest


/-- The waits of a retry chain, in order. -/
def chain_delays : List (List Action) → List Nat
  | [] => []
  | actions :: rest => delays actions ++ chain_delays rest

/-- The envelopes published along a retry chain, in order. -/
def chain_publishes : List (List Action) → List Publish
  | [] => []
  | actions :: rest => publishes actions ++ chain_publishes rest

/-! ## rabbitmq.js: the topology

The broker is the environment of `connect_rabbitmq`: its exchanges, its queues
with their options and unconsumed messages, and its bindings. -/

/-- The name of the dead-letter exchange. -/
def DLX_NAME : String := "notifications.dlx"
/-- The name of the dead-letter queue. -/
def FAILED_QUEUE : String := "failed.queue"

/-- The options of `assertQueue`: `durable` and the two dead-letter arguments
`x-dead-letter-exchange` and `x-dead-letter-routing-key`. -/
structure QueueOptions where
  durable : Bool
  dead_letter_exchange : Option String
  dead_letter_routing_key : Option String
deriving DecidableEq, Repr

/-- A queue of the broker: the options it was declared with and the messages
that wait in it. -/
structure QueueState where
  options : QueueOptions
  messages : List Message
deriving DecidableEq, Repr

/-- A binding of a queue to an exchange. -/
structure Binding where
  queue : String
  exchange : String
  routing_key : String
deriving DecidableEq, Repr

/-- The state of the broker: the type of every declared exchange, every
declared queue, and the bindings. -/
structure Broker where
  exchanges : String → Option String
  queues : String → Option QueueState
  bindings : List Binding

/-- The broker without any exchange or queue. -/
def Broker.empty : Broker := ⟨fun _ => none, fun _ => none, []⟩

/-- The call `channel.assertExchange(name, type, {durable: true})`: declares the
exchange when it is absent; fails with 406 when it exists with another type. -/
def assertExchange (b : Broker) (name type : String) : Except Nat Broker :=
  match b.exchanges name with
  | some t => if t = type then .ok b else .error 406
  | none => .ok { b with exchanges := Function.update b.exchanges name (some type) }

/-- The call `channel.assertQueue(name, options)`: declares the queue, empty,
when it is absent; fails with 406 when it exists with other options. -/
def assertQueue (b : Broker) (name : String) (options : QueueOptions) : Except Nat Broker :=
  match b.queues name with
  | some q => if q.options = options then .ok b else .error 406
  | none => .ok { b with queues := Function.update b.queues name (some ⟨options, []⟩) }

/-- The call `channel.bindQueue(queue, exchange, routing_key)`: fails with 404
when the queue or the exchange is absent; a binding is recorded once. -/
def bindQueue (b : Broker) (queue exchange routing_key : String) : Except Nat Broker :=
  if (b.queues queue).isNone || (b.exchanges exchange).isNone then .error 404
  else if ⟨queue, exchange, routing_key⟩ ∈ b.bindings then .ok b
  else .ok { b with bindings := b.bindings ++ [⟨queue, exchange, routing_key⟩] }

/-- The call `channel.deleteQueue(name)` when it goes through: the queue goes
with its messages and its bindings, whatever its options and whether or not
it is empty. -/
def deleteQueue (b : Broker) (name : String) : Broker :=
  { b with
    queues := Function.update b.queues name none
    bindings := b.bindings.filter (fun x => decide (x.queue ≠ name)) }

/-- The topology part of `connect_rabbitmq` (steps 1 to 7), run on the broker
`b` once the connection and the channel exist. `delete_throws q` tells that
the call `deleteQueue(q)` throws (the queue is absent, or another error): the
`catch` block logs and the run goes on. An error of another call is thrown
again by the function. -/
def connect_rabbitmq (b : Broker) (delete_throws : String → Bool) : Except Nat Broker :=
  (assertExchange b DLX_NAME "direct").bind fun b1 =>
  (assertExchange b1 EXCHANGE_NAME "direct").bind fun b2 =>
  (assertQueue b2 FAILED_QUEUE ⟨true, none, none⟩).bind fun b3 =>
  (bindQueue b3 FAILED_QUEUE DLX_NAME FAILED_QUEUE).bind fun b4 =>
  let b5 := if delete_throws EMAIL_QUEUE then b4 else deleteQueue b4 EMAIL_QUEUE
  (assertQueue b5 EMAIL_QUEUE ⟨true, some DLX_NAME, some FAILED_QUEUE⟩).bind fun b6 =>
  let b7 := if delete_throws PUSH_QUEUE then b6 else deleteQueue b6 PUSH_QUEUE
  (assertQueue b7 PUSH_QUEUE ⟨true, some DLX_NAME, some PUSH_QUEUE⟩).bind fun b8 =>
  (bindQueue b8 EMAIL_QUEUE EXCHANGE_NAME EMAIL_QUEUE).bind fun b9 =>
  (bindQueue b9 PUSH_QUEUE EXCHANGE_NAME PUSH_QUEUE).bind fun b10 =>
  bindQueue b10 FAILED_QUEUE DLX_NAME PUSH_QUEUE

/-- The queues that receive a message published to a direct exchange with a
routing key: those bound to the exchange with that key. -/
def route (b : Broker) (exchange routing_key : String) : List String :=
  if b.exchanges exchange = some "direct" then
    (b.bindings.filter
      (fun x => decide (x.exchange = exchange) && decide (x.routing_key = routing_key))).map
      (fun x => x.queue)
  else []

/-- The queues that receive a message rejected without requeue from `queue`: it
is published to the dead-letter exchange of the queue with its dead-letter
routing key (the key of the message, `routing_key`, when the queue has none);
without dead-letter exchange the message is dropped. -/
def dead_letter_route (b : Broker) (queue routing_key : String) : List String :=
  match b.queues queue with
  | none => []
  | some q =>
    match q.options.dead_letter_exchange with
    | none => []
    | some x => route b x (q.options.dead_letter_routing_key.getD routing_key)

/-- The messages that wait in a queue (`none` when the queue does not exist). -/
def Broker.messages (b : Broker) (queue : String) : Option (List Message) :=
  (b.queues queue).map (fun q => q.messages)

/-- The options of a queue (`none` when the queue does not exist). -/
def Broker.options (b : Broker) (queue : String) : Option QueueOptions :=
  (b.queues queue).map (fun q => q.options)

/-! ## Observations on the runs of the publisher -/

/-- The device tokens of the push payloads of a list of publish calls, in order. -/
def published_tokens : List (Publish × Bool) → List String
  | [] => []
  | (p, _) :: rest =>
    match p.content with
    | .push m => m.token :: published_tokens rest
    | _ => published_tokens rest

/-- The message ids of a list of publish calls, in order. -/
def published_message_ids (calls : List (Publish × Bool)) : List (Option String) :=
  calls.map (fun c => c.1.options.messageId)

/-! ## notification.routes.js -/

/-- The reply of the route `POST /notify`: the duplicate response of the guard,
or the run of the controller. -/
inductive RouteReply where
  | duplicate (status : Nat) (body : DuplicateBody)
  | handled (run : ControllerRun)
deriving DecidableEq, Repr

/-- The store after the responses of a controller run went through the wrapper
that the guard installed on `res.json` for the key `k`. -/
def cache_responses (store : IdemStore) (k : String) (now : Nat) (fails : Bool) :
    List ControllerEvent → IdemStore
  | [] => store
  | .respond _ body :: rest => cache_responses (res_json store k now body fails) k now fails rest
  | _ :: rest => cache_responses store k now fails rest

/-- The route `router.post('/notify', idempotency_middleware, send_notification)`
for one request at time `now`: the guard, then the controller when the guard
calls `next()`, its response being cached by the wrapper when the guard
installed it. -/
def notify_route (store : IdemStore) (idempotency_key : Option String) (body : RequestBody)
    (dispatch : RequestBody → Completion DispatchResult) (now : Nat) (faults : IdemFaults) :
    IdemStore × RouteReply :=
  match idempotency_middleware store idempotency_key now faults with
  | (store1, .respond status duplicate) => (store1, .duplicate status duplicate)
  | (store1, .next intercept) =>
    let run := send_notification body dispatch
    match intercept with
    | some k => (cache_responses store1 k now faults.set_fails run.events, .handled run)
    | none => (store1, .handled run)

/-- Whether the dispatch was started while the route handled a request. -/
def RouteReply.dispatched : RouteReply → Bool
  | .duplicate _ _ => false
  | .handled run => run.dispatched

/-! ## message_handler.js and fcm_client.js of the push service, message_handler.js
of the email service -/

/-- The message handed to Firebase: `{notification: {title, body}, token}`. -/
structure FcmMessage where
  title : String
  body : String
  token : String
deriving DecidableEq, Repr

/-- The function `send_push_notification`: the message it hands to the breaker
of Firebase. -/
def send_push_notification (deviceToken title body : String) : FcmMessage :=
  { title := title, body := body, token := deviceToken }

/-- The function `handle_message` of the push service, for the parsed payload of
a push envelope: the message it sends. -/
def handle_message (messageData : PushMessage) : FcmMessage :=
  send_push_notification messageData.token messageData.title messageData.body

/-- The mail handed to the transport: `{to, subject, html}` (`recipient` is the
field `to`). -/
structure MailOptions where
  recipient : String
  subject : String
  html : String
deriving DecidableEq, Repr

/-- The object `{ ...user, ...variables }`: the fields of the user of the
envelope, overridden by the variables of the request. -/
def email_view (m : EmailMessage) : List (String × String) :=
  m.vars.foldl (fun view kv => (view.filter (fun p => decide (p.1 ≠ kv.1))) ++ [kv])
    [("email", m.user_email), ("first_name", m.user_first_name)]

/-- The function `handle_message` of the email service, for the parsed payload
of an email envelope; `render` stands for `mustache.render`. -/
def handle_email_message (render : String → List (String × String) → String)
    (messageData : EmailMessage) : MailOptions :=
  { recipient := messageData.user_email
    subject := render messageData.template_subject (email_view messageData)
    html := render messageData.template_body (email_view messageData) }

/-- The notification that the push worker sends for a message of its queue, when
the content is a push payload. -/
def delivered_notification (msg : Message) : Option FcmMessage :=
  match msg.content with
  | .push m => some (handle_message m)
  | _ => none

/-! ## Observations on the runs of the worker -/

/-- The acknowledgements and rejections of a run, in order. -/
def settlements : List Action → List Action
  | [] => []
  | .ack :: rest => .ack :: settlements rest
  | .nack allUpTo requeue :: rest => .nack allUpTo requeue :: settlements rest
  | _ :: rest => settlements rest

/-- The value of a response header set by a limiter. -/
def header_value (headers : List (String × Int)) (name : String) : Option Int :=
  (headers.find? (fun h => h.1 == name)).map (fun h => h.2)

/-- The field `retry_after_seconds` of a 429 response. -/
def RateLimitOutcome.retry_after_seconds : RateLimitOutcome → Option Nat
  | .respond _ body => some body.error.retry_after_seconds
  | .next => none

/-- The number of `next()` outcomes in a list of outcomes. -/
def count_next (outcomes : List RateLimitOutcome) : Nat :=
  (outcomes.filter (fun o => decide (o = RateLimitOutcome.next))).length

/-- The store after the requests `(now, rnd, fail_at)` of one client have gone
through `rate_limit_middleware`, one after the other. -/
def rate_limit_store_after (cfg : RateLimitConfig) (client_id : String) :
    ZStore → List (Nat × Nat × Option Nat) → ZStore
  | store, [] => store
  | store, (now, rnd, fail_at) :: rest =>
    rate_limit_store_after cfg client_id
      (rate_limit_middleware cfg store client_id now rnd fail_at).store rest

/-- The store after the requests `(now, rnd, fail_at)` of one client have gone
through a limiter made by `create_rate_limiter`, one after the other. -/
def custom_limit_store_after (max_requests window_ms : Nat) (client_id : String) :
    ZStore → List (Nat × Nat × Option Nat) → ZStore
  | store, [] => store
  | store, (now, rnd, fail_at) :: rest =>
    custom_limit_store_after max_requests window_ms client_id
      (create_rate_limiter max_requests window_ms store client_id now rnd fail_at).store rest

/-! ## Sample data -/

/-- A PUSH template. -/
def sample_template : Template := ⟨"PUSH", "Hello", "You have a new message"⟩

/-- The message that reaches the push worker for a device token, as published
by the gateway. -/
def sample_push_message : Message :=
  (push_envelope "c-1" sample_template [("name", "Ada")] ⟨"tok-abcdef-123"⟩ 1700000000000).delivered

/-- A worker whose delivery fails. -/
def failing_env : WorkerEnv :=
  ⟨"Unexpected token", some "FCM unavailable", "2025-01-01T00:00:00.000Z", 1700000001000⟩

/-- A message that was already retried once and carries a header of its own. -/
def sample_retried_message : Message :=
  { content := sample_push_message.content
    properties :=
      { persistent := true
        contentType := some "application/json"
        messageId := some "c-1-tok-abcd"
        correlationId := some "c-1"
        timestamp := some 1700000000000
        headers := some [("x-tenant", .str "acme"), ("x-retry-count", .num 1)] } }

/-- An EMAIL template. -/
def sample_email_template : Template := ⟨"EMAIL", "Welcome", "Hello and welcome"⟩

/-- A user who disabled push, left the email preference unset and registered
two devices. -/
def sample_user : User :=
  { email := "ada@example.org"
    first_name := "Ada"
    notification_preference := some ⟨.undefined, .bool false⟩
    push_tokens := some [⟨"tok-abcdef-123"⟩, ⟨"tok-abcdef-456"⟩] }

/-- The same user with push enabled and email disabled. -/
def sample_push_user : User :=
  { sample_user with notification_preference := some ⟨.bool false, .bool true⟩ }

/-- A run in which both services answer, the channel is open and the broker
accepts the first publish only. -/
def sample_env (user : User) (template : Template) : DispatchEnv :=
  { correlation_id := "c-1"
    user_response := .returned (some user)
    template_response := .returned (some template)
    channel := true
    connection := true
    accepted := fun i => decide (i = 0)
    clock := fun i => 1700000000000 + i }

/-- A request. -/
def sample_request : NotificationRequest := ⟨"u-1", "welcome", [("name", "Ada")]⟩

/-- The run of `sample_env` with a broker that accepts no publish. -/
def rejecting_env (user : User) (template : Template) : DispatchEnv :=
  { sample_env user template with accepted := fun _ => false }

/-- A request body with an empty `variables` object. -/
def sample_body : RequestBody :=
  ⟨some (.str "u-1"), some (.str "welcome"), some (.obj [])⟩

/-- A request body without `template_name`. -/
def sample_bad_body : RequestBody :=
  ⟨some (.str "u-1"), none, some (.obj [("name", "Ada")])⟩

/-- A broker in which `email.queue` already exists with the options that
`connect_rabbitmq` declares, and holds one message; `failed.queue` holds one
message too. -/
def sample_broker : Broker :=
  { exchanges := fun name =>
      if name = "notifications.dlx" ∨ name = "notifications.direct" then some "direct" else none
    queues := fun name =>
      if name = "email.queue" then
        some ⟨⟨true, some "notifications.dlx", some "failed.queue"⟩, [sample_push_message]⟩
      else if name = "failed.queue" then some ⟨⟨true, none, none⟩, [sample_retried_message]⟩
      else none
    bindings :=
      [⟨"failed.queue", "notifications.dlx", "failed.queue"⟩,
       ⟨"email.queue", "notifications.direct", "email.queue"⟩] }

/-- A breaker of the user service that recorded two failures and one success
in the last seconds before 20000 ms. -/
def sample_breaker : BreakerState :=
  ⟨.CLOSED, [(19500, true), (19000, false), (18000, true)], 0, false⟩

/-- A request whose header `x-forwarded-for` is present and empty. -/
def sample_client_request : ClientRequest := ⟨none, some "", some "10.0.0.9", none⟩

/-- A request that came through two proxies. -/
def sample_forwarded_request : ClientRequest :=
  ⟨some "", some " 203.0.113.7 , 10.0.0.1", some "10.0.0.9", none⟩

/-- The store `sample_zstore` with the set of the client moved under the key of
the route-specific limiters. -/
def sample_custom_zstore : ZStore := fun key =>
  if key = "rate_limit:custom:ip:10.0.0.1" then
    ⟨[⟨1000, ⟨1000, 7⟩⟩, ⟨61500, ⟨61500, 3⟩⟩], some 123000⟩
  else ZKey.absent

/-- The payload of an email envelope whose variables bind `first_name`. -/
def sample_email_message : EmailMessage :=
  ⟨"c-1", "ada@example.org", "Ada", "Welcome", "Hello and welcome", [("first_name", "Countess")]⟩

/-! ## Lemmas on the store commands -/

theorem ZKey.at_absent (now : Nat) : ZKey.absent.at now = ZKey.absent := by
  simp [ZKey.at, ZKey.absent, ZKey.expired]

theorem ZKey.at_of_expired (k : ZKey) (now : Nat) (h : k.expired now = true) :
    k.at now = ZKey.absent := by
  simp [ZKey.at, h]

theorem ZKey.at_of_not_expired (k : ZKey) (now : Nat) (h : k.expired now = false) :
    k.at now = k := by
  simp [ZKey.at, h]

theorem ZKey.at_expire_at (k : ZKey) (now : Nat) (es : List ZEntry) :
    (ZKey.mk es (k.at now).expire_at).at now = ⟨es, (k.at now).expire_at⟩ := by
  cases h : k.expired now
  · rw [ZKey.at_of_not_expired k now h]
    apply ZKey.at_of_not_expired
    simpa [ZKey.expired] using h
  · rw [ZKey.at_of_expired k now h]
    apply ZKey.at_of_not_expired
    simp [ZKey.expired, ZKey.absent]

theorem window_entries_zRemRangeByScore (cfg : RateLimitConfig) (store : ZStore) (now : Nat)
    (key : String) :
    window_entries (zRemRangeByScore store now key 0 ((now : Int) - (cfg.window_ms : Int))) now key
      = not_expired cfg now (window_entries store now key) := by
  have hf : (fun e : ZEntry => !(decide ((0 : Int) ≤ (e.score : Int)) &&
        decide ((e.score : Int) ≤ (now : Int) - (cfg.window_ms : Int))))
      = (fun e : ZEntry => decide (¬ ((e.score : Int) ≤ (now : Int) - (cfg.window_ms : Int)))) := by
    funext e
    have h0 : (0 : Int) ≤ (e.score : Int) := Int.ofNat_nonneg _
    simp only [h0, decide_True, Bool.true_and, decide_not]
  unfold window_entries zRemRangeByScore not_expired
  simp only [Function.update_same, hf]
  split
  · rename_i h
    rw [ZKey.at_absent, h]
    rfl
  · rw [ZKey.at_expire_at]

theorem window_entries_zAdd (store : ZStore) (now : Nat) (key : String) (score : Nat)
    (value : RequestId) :
    window_entries (zAdd store now key score value) now key
      = (window_entries store now key).filter (fun e => decide (e.value ≠ value))
          ++ [⟨score, value⟩] := by
  unfold window_entries zAdd
  simp only [Function.update_same]
  rw [ZKey.at_expire_at]

theorem window_entries_expire (store : ZStore) (now : Nat) (key : String) (seconds : Nat)
    (hs : 0 < seconds) :
    window_entries (expire store now key seconds) now key = window_entries store now key := by
  unfold window_entries expire
  simp only [Function.update_same]
  split
  · rename_i h
    rw [ZKey.at_absent, h]
    rfl
  · rw [ZKey.at_of_not_expired]
    simp only [ZKey.expired, decide_eq_false_iff_not, not_le]
    have : 0 < seconds * 1000 := by omega
    omega

theorem zCard_eq_length (store : ZStore) (now : Nat) (key : String) :
    zCard store now key = (window_entries store now key).length := rfl


/-! ## The rate limiter -/

/-- The store after the purge of `rate_limit_middleware`. -/
theorem count_after_purge (cfg : RateLimitConfig) (store : ZStore) (client_id : String)
    (now : Nat) :
    zCard (zRemRangeByScore store now (rate_limit_key client_id) 0
        ((now : Int) - (cfg.window_ms : Int))) now (rate_limit_key client_id)
      = (not_expired cfg now (window_entries store now (rate_limit_key client_id))).length := by
  rw [zCard_eq_length, window_entries_zRemRangeByScore]

/-- A run without store failure that finds the window full: 429, and the store
is the purged one. -/
theorem rate_limit_full (cfg : RateLimitConfig) (store : ZStore) (client_id : String)
    (now rnd : Nat)
    (h : cfg.max_requests ≤
      (not_expired cfg now (window_entries store now (rate_limit_key client_id))).length) :
    (rate_limit_middleware cfg store client_id now rnd none).outcome.is_429 = true ∧
    (rate_limit_middleware cfg store client_id now rnd none).outcome ≠ .next ∧
    (rate_limit_middleware cfg store client_id now rnd none).store
      = zRemRangeByScore store now (rate_limit_key client_id) 0
          ((now : Int) - (cfg.window_ms : Int)) := by
  have hc := count_after_purge cfg store client_id now
  unfold rate_limit_middleware
  simp only [reduceCtorEq, if_false, hc, ge_iff_le, h, if_true]
  simp [RateLimitOutcome.is_429]

/-- A run without store failure that finds room in the window: `next()`, and the
store is the purged one with the new entry and the new time to live. -/
theorem rate_limit_room (cfg : RateLimitConfig) (store : ZStore) (client_id : String)
    (now rnd : Nat)
    (h : (not_expired cfg now (window_entries store now (rate_limit_key client_id))).length
      < cfg.max_requests) :
    (rate_limit_middleware cfg store client_id now rnd none).outcome = .next ∧
    (rate_limit_middleware cfg store client_id now rnd none).store
      = expire (zAdd (zRemRangeByScore store now (rate_limit_key client_id) 0
          ((now : Int) - (cfg.window_ms : Int))) now (rate_limit_key client_id) now ⟨now, rnd⟩)
          now (rate_limit_key client_id) (ceil_div_1000 cfg.window_ms + 1) := by
  have hc := count_after_purge cfg store client_id now
  have h2 : ¬ cfg.max_requests ≤
      (not_expired cfg now (window_entries store now (rate_limit_key client_id))).length := by
    omega
  unfold rate_limit_middleware
  simp only [reduceCtorEq, if_false, hc, ge_iff_le, h2]
  simp

/-- The window of the client after a run that found room. -/
theorem window_after_room (cfg : RateLimitConfig) (store : ZStore) (client_id : String)
    (now rnd : Nat)
    (h : (not_expired cfg now (window_entries store now (rate_limit_key client_id))).length
      < cfg.max_requests) :
    window_entries (rate_limit_middleware cfg store client_id now rnd none).store now
        (rate_limit_key client_id)
      = (not_expired cfg now (window_entries store now (rate_limit_key client_id))).filter
          (fun e => decide (e.value ≠ ⟨now, rnd⟩)) ++ [⟨now, ⟨now, rnd⟩⟩] := by
  rw [(rate_limit_room cfg store client_id now rnd h).2,
    window_entries_expire _ _ _ _ (Nat.succ_pos _), window_entries_zAdd,
    window_entries_zRemRangeByScore]

/-- The window of the client after a run that found the window full. -/
theorem window_after_full (cfg : RateLimitConfig) (store : ZStore) (client_id : String)
    (now rnd : Nat)
    (h : cfg.max_requests ≤
      (not_expired cfg now (window_entries store now (rate_limit_key client_id))).length) :
    window_entries (rate_limit_middleware cfg store client_id now rnd none).store now
        (rate_limit_key client_id)
      = not_expired cfg now (window_entries store now (rate_limit_key client_id)) := by
  rw [(rate_limit_full cfg store client_id now rnd h).2.2, window_entries_zRemRangeByScore]

/-- C1. `rate_limit_middleware`, store operations succeeding: with `remaining` the
entries of the client left once those with timestamp `≤ now - window_ms` are
purged, the run ends in `next()` iff `remaining` has fewer than `max_requests`
entries and in a 429 iff it has at least `max_requests`; when the request is let
through the window becomes `remaining` with the entry stamped `now` written by
`ZADD` (one entry more when the request id is not yet a member), and when it
is denied the window is `remaining`, with no entry added. -/
theorem rate_limit_admission (cfg : RateLimitConfig) (store : ZStore) (client_id : String)
    (now rnd : Nat) :
    let key := rate_limit_key client_id
    let remaining := not_expired cfg now (window_entries store now key)
    let r := rate_limit_middleware cfg store client_id now rnd none
    (∀ e, e ∈ remaining ↔ e ∈ window_entries store now key ∧
        ¬ ((e.score : Int) ≤ (now : Int) - (cfg.window_ms : Int))) ∧
    (r.outcome = .next ↔ remaining.length < cfg.max_requests) ∧
    (r.outcome.is_429 = true ↔ cfg.max_requests ≤ remaining.length) ∧
    (remaining.length < cfg.max_requests →
      window_entries r.store now key
        = remaining.filter (fun e => decide (e.value ≠ ⟨now, rnd⟩)) ++ [⟨now, ⟨now, rnd⟩⟩]) ∧
    (remaining.length < cfg.max_requests →
      (∀ e ∈ window_entries store now key, e.value ≠ ⟨now, rnd⟩) →
      window_entries r.store now key = remaining ++ [⟨now, ⟨now, rnd⟩⟩]) ∧
    (cfg.max_requests ≤ remaining.length → window_entries r.store now key = remaining) := by
  intro key remaining r
  refine ⟨?_, ?_, ?_, ?_, ?_, ?_⟩
  · intro e
    simp [remaining, not_expired, List.mem_filter]
  · constructor
    · intro hn
      by_contra hlt
      exact (rate_limit_full cfg store client_id now rnd (not_lt.mp hlt)).2.1 hn
    · intro hlt
      exact (rate_limit_room cfg store client_id now rnd hlt).1
  · constructor
    · intro h4
      by_contra hge
      have hn := (rate_limit_room cfg store client_id now rnd (not_le.mp hge)).1
      have h4b : r.outcome.is_429 = true := h4
      have hnb : r.outcome = .next := hn
      rw [hnb] at h4b
      simp [RateLimitOutcome.is_429] at h4b
    · intro hge
      exact (rate_limit_full cfg store client_id now rnd hge).1
  · intro hlt
    exact window_after_room cfg store client_id now rnd hlt
  · intro hlt hfresh
    have hw := window_after_room cfg store client_id now rnd hlt
    have hfil : remaining.filter (fun e => decide (e.value ≠ ⟨now, rnd⟩)) = remaining := by
      apply List.filter_eq_self.mpr
      intro e he
      have hmem : e ∈ window_entries store now key := (List.mem_filter.mp he).1
      simpa using hfresh e hmem
    show window_entries r.store now key = remaining ++ [⟨now, ⟨now, rnd⟩⟩]
    rw [← hfil]
    exact hw
  · intro hge
    exact window_after_full cfg store client_id now rnd hge


/-- Witness of C1: with two requests allowed per minute, the client of
`sample_zstore` asks at 62000 ms; the entry of 1000 ms is purged, one entry
remains, the request passes and the window holds two entries. -/
theorem rate_limit_admission_witness :
    (rate_limit_middleware ⟨2, 60000⟩ sample_zstore "ip:10.0.0.1" 62000 5 none).outcome = .next ∧
    window_entries (rate_limit_middleware ⟨2, 60000⟩ sample_zstore "ip:10.0.0.1" 62000 5 none).store
      62000 (rate_limit_key "ip:10.0.0.1")
      = [⟨61500, ⟨61500, 3⟩⟩, ⟨62000, ⟨62000, 5⟩⟩] :=
  ⟨(rate_limit_admission ⟨2, 60000⟩ sample_zstore "ip:10.0.0.1" 62000 5).2.1.mpr (by decide),
   (rate_limit_admission ⟨2, 60000⟩ sample_zstore "ip:10.0.0.1" 62000 5).2.2.2.2.1
      (by decide) (by decide)⟩

/-- A denied request is answered with `too_many_requests`. -/
theorem rate_limit_full_outcome (cfg : RateLimitConfig) (store : ZStore) (client_id : String)
    (now rnd : Nat)
    (h : cfg.max_requests ≤
      (not_expired cfg now (window_entries store now (rate_limit_key client_id))).length) :
    (rate_limit_middleware cfg store client_id now rnd none).outcome = too_many_requests cfg := by
  have hc := count_after_purge cfg store client_id now
  unfold rate_limit_middleware too_many_requests
  simp only [reduceCtorEq, if_false, hc, ge_iff_le, h, if_true]

/-- The key of the client after a run that found room: the new window, with the
time to live set by the run. -/
theorem key_after_room (cfg : RateLimitConfig) (store : ZStore) (client_id : String)
    (now rnd : Nat)
    (h : (not_expired cfg now (window_entries store now (rate_limit_key client_id))).length
      < cfg.max_requests) :
    (rate_limit_middleware cfg store client_id now rnd none).store (rate_limit_key client_id)
      = ⟨(not_expired cfg now (window_entries store now (rate_limit_key client_id))).filter
          (fun e => decide (e.value ≠ ⟨now, rnd⟩)) ++ [⟨now, ⟨now, rnd⟩⟩],
        some (now + (ceil_div_1000 cfg.window_ms + 1) * 1000)⟩ := by
  rw [(rate_limit_room cfg store client_id now rnd h).2]
  have hw := window_entries_zAdd (zRemRangeByScore store now (rate_limit_key client_id) 0
    ((now : Int) - (cfg.window_ms : Int))) now (rate_limit_key client_id) now ⟨now, rnd⟩
  rw [window_entries_zRemRangeByScore] at hw
  unfold window_entries at hw
  unfold expire
  simp only [Function.update_same]
  rw [hw]
  simp [window_entries]

/-- The key of the client after a run that found the window full. -/
theorem key_after_full (cfg : RateLimitConfig) (store : ZStore) (client_id : String)
    (now rnd : Nat)
    (h : cfg.max_requests ≤
      (not_expired cfg now (window_entries store now (rate_limit_key client_id))).length) :
    (rate_limit_middleware cfg store client_id now rnd none).store (rate_limit_key client_id)
      = if not_expired cfg now (window_entries store now (rate_limit_key client_id)) = []
        then ZKey.absent
        else ⟨not_expired cfg now (window_entries store now (rate_limit_key client_id)),
          ((store (rate_limit_key client_id)).at now).expire_at⟩ := by
  rw [(rate_limit_full cfg store client_id now rnd h).2.2]
  have hf : (fun e : ZEntry => !(decide ((0 : Int) ≤ (e.score : Int)) &&
        decide ((e.score : Int) ≤ (now : Int) - (cfg.window_ms : Int))))
      = (fun e : ZEntry => decide (¬ ((e.score : Int) ≤ (now : Int) - (cfg.window_ms : Int)))) := by
    funext e
    have h0 : (0 : Int) ≤ (e.score : Int) := Int.ofNat_nonneg _
    simp only [h0, decide_True, Bool.true_and, decide_not]
  unfold zRemRangeByScore window_entries not_expired
  simp only [Function.update_same, hf]

/-- The expiry set by the limiter lies beyond the window. -/
theorem window_le_expiry (w : Nat) : w + 1000 ≤ (ceil_div_1000 w + 1) * 1000 := by
  unfold ceil_div_1000
  omega


/-- During a burst that started at `t0`, a key whose time to live ends after the
burst is seen the same at every time of the burst. -/
theorem ZKey.at_during_burst (k : ZKey) (w t0 now : Nat) (h1 : t0 ≤ now) (h2 : now < t0 + w)
    (httl : ∀ x, (k.at t0).expire_at = some x → t0 + w ≤ x) : k.at now = k.at t0 := by
  cases h : k.expired t0
  · rw [ZKey.at_of_not_expired k t0 h] at httl ⊢
    apply ZKey.at_of_not_expired
    unfold ZKey.expired
    cases hx : k.expire_at with
    | none => rfl
    | some x =>
      have := httl x hx
      simp only [decide_eq_false_iff_not, not_le]
      omega
  · rw [ZKey.at_of_expired k t0 h]
    apply ZKey.at_of_expired
    unfold ZKey.expired at h ⊢
    cases hx : k.expire_at with
    | none => rw [hx] at h; simp at h
    | some x =>
      rw [hx] at h
      simp only [decide_eq_true_eq] at h ⊢
      omega

/-- The outcomes of a burst: all requests lie in `[t0, t0 + window_ms)`, the
request ids are pairwise distinct and new, and the window holds `c` entries
that are not older than `t0`; then the first `max_requests - c` requests get
`next()` and the others a 429. -/
theorem burst_outcomes (cfg : RateLimitConfig) (client_id : String) (t0 : Nat) :
    ∀ (reqs : List (Nat × Nat)) (store : ZStore),
    (∀ p ∈ reqs, t0 ≤ p.1 ∧ p.1 < t0 + cfg.window_ms) →
    reqs.Nodup →
    (∀ e ∈ ((store (rate_limit_key client_id)).at t0).entries, t0 ≤ e.score) →
    (∀ x, ((store (rate_limit_key client_id)).at t0).expire_at = some x →
      t0 + cfg.window_ms ≤ x) →
    (∀ e ∈ ((store (rate_limit_key client_id)).at t0).entries, ∀ p ∈ reqs,
      e.value ≠ ⟨p.1, p.2⟩) →
    rate_limit_runs cfg client_id store reqs
      = List.replicate (min reqs.length
          (cfg.max_requests - ((store (rate_limit_key client_id)).at t0).entries.length))
          RateLimitOutcome.next
        ++ List.replicate (reqs.length - min reqs.length
          (cfg.max_requests - ((store (rate_limit_key client_id)).at t0).entries.length))
          (too_many_requests cfg) := by
  intro reqs
  induction reqs with
  | nil => intro store _ _ _ _ _; simp [rate_limit_runs]
  | cons q rest ih =>
    obtain ⟨now, rnd⟩ := q
    intro store hwin hnd hsc httl hfresh
    have hnow := hwin (now, rnd) (List.mem_cons_self _ _)
    have hat : (store (rate_limit_key client_id)).at now
        = (store (rate_limit_key client_id)).at t0 :=
      ZKey.at_during_burst _ cfg.window_ms t0 now hnow.1 hnow.2 httl
    have hwe : window_entries store now (rate_limit_key client_id)
        = ((store (rate_limit_key client_id)).at t0).entries := by
      unfold window_entries; rw [hat]
    have hne : not_expired cfg now (window_entries store now (rate_limit_key client_id))
        = ((store (rate_limit_key client_id)).at t0).entries := by
      rw [hwe]
      unfold not_expired
      apply List.filter_eq_self.mpr
      intro e he
      have := hsc e he
      simp only [decide_eq_true_eq]
      omega
    have hwin2 : ∀ p ∈ rest, t0 ≤ p.1 ∧ p.1 < t0 + cfg.window_ms :=
      fun p hp => hwin p (List.mem_cons_of_mem _ hp)
    have hnd2 : rest.Nodup := (List.nodup_cons.mp hnd).2
    have hnotin : (now, rnd) ∉ rest := (List.nodup_cons.mp hnd).1
    simp only [rate_limit_runs, List.length_cons]
    by_cases hc : ((store (rate_limit_key client_id)).at t0).entries.length < cfg.max_requests
    · -- the request is let through
      have hroom : (not_expired cfg now
          (window_entries store now (rate_limit_key client_id))).length < cfg.max_requests := by
        rw [hne]; exact hc
      have hkey := key_after_room cfg store client_id now rnd hroom
      rw [hne] at hkey
      have hfil : (((store (rate_limit_key client_id)).at t0).entries.filter
          (fun e => decide (e.value ≠ ⟨now, rnd⟩)))
          = ((store (rate_limit_key client_id)).at t0).entries := by
        apply List.filter_eq_self.mpr
        intro e he
        simpa using hfresh e he (now, rnd) (List.mem_cons_self _ _)
      rw [hfil] at hkey
      have hlive : ((rate_limit_middleware cfg store client_id now rnd none).store
          (rate_limit_key client_id)).at t0
          = ⟨((store (rate_limit_key client_id)).at t0).entries ++ [⟨now, ⟨now, rnd⟩⟩],
              some (now + (ceil_div_1000 cfg.window_ms + 1) * 1000)⟩ := by
        rw [hkey]
        apply ZKey.at_of_not_expired
        simp only [ZKey.expired, decide_eq_false_iff_not, not_le]
        have := window_le_expiry cfg.window_ms
        omega
      have hrec := ih (rate_limit_middleware cfg store client_id now rnd none).store hwin2 hnd2
        (by
          rw [hlive]
          intro e he
          rcases List.mem_append.mp he with h | h
          · exact hsc e h
          · rw [List.mem_singleton.mp h]; exact hnow.1)
        (by
          rw [hlive]
          intro x hx
          have := window_le_expiry cfg.window_ms
          simp only [Option.some.injEq] at hx
          omega)
        (by
          rw [hlive]
          intro e he p hp
          rcases List.mem_append.mp he with h | h
          · exact hfresh e h p (List.mem_cons_of_mem _ hp)
          · rw [List.mem_singleton.mp h]
            intro heq
            apply hnotin
            have h1 : now = p.1 := congrArg RequestId.stamp heq
            have h2 : rnd = p.2 := congrArg RequestId.rnd heq
            have : (now, rnd) = p := Prod.ext h1 h2
            rw [this]; exact hp)
      rw [hrec, hlive, (rate_limit_room cfg store client_id now rnd hroom).1]
      simp only [List.length_append, List.length_singleton]
      have e1 : min (rest.length + 1)
          (cfg.max_requests - ((store (rate_limit_key client_id)).at t0).entries.length)
          = min rest.length (cfg.max_requests -
            (((store (rate_limit_key client_id)).at t0).entries.length + 1)) + 1 := by
        omega
      rw [e1, List.replicate_succ, Nat.add_sub_add_right, List.cons_append]
    · -- the request is denied
      have hfull : cfg.max_requests ≤ (not_expired cfg now
          (window_entries store now (rate_limit_key client_id))).length := by
        rw [hne]; omega
      have hkey := key_after_full cfg store client_id now rnd hfull
      rw [hne, hat] at hkey
      have hlive : (((rate_limit_middleware cfg store client_id now rnd none).store
            (rate_limit_key client_id)).at t0).entries
            = ((store (rate_limit_key client_id)).at t0).entries ∧
          ((((rate_limit_middleware cfg store client_id now rnd none).store
            (rate_limit_key client_id)).at t0).expire_at = none ∨
           (((rate_limit_middleware cfg store client_id now rnd none).store
            (rate_limit_key client_id)).at t0).expire_at
            = ((store (rate_limit_key client_id)).at t0).expire_at) := by
        rw [hkey]
        split
        · rename_i hnil
          rw [ZKey.at_absent, hnil]
          exact ⟨rfl, Or.inl rfl⟩
        · rw [ZKey.at_expire_at]
          exact ⟨rfl, Or.inr rfl⟩
      have hrec := ih (rate_limit_middleware cfg store client_id now rnd none).store hwin2 hnd2
        (by rw [hlive.1]; exact hsc)
        (by
          intro x hx
          rcases hlive.2 with h | h
          · rw [h] at hx; simp at hx
          · rw [h] at hx; exact httl x hx)
        (by
          rw [hlive.1]
          intro e he p hp
          exact hfresh e he p (List.mem_cons_of_mem _ hp))
      rw [hrec, hlive.1, rate_limit_full_outcome cfg store client_id now rnd hfull]
      have e0 : cfg.max_requests - ((store (rate_limit_key client_id)).at t0).entries.length
          = 0 := by omega
      rw [e0]
      simp [List.replicate_succ]


/-- C2. Starting from an empty window (the key of the client does not exist when
the first request arrives), for every list of `N ≥ 0` requests of the client
handled one after the other at non-decreasing times that all lie less than
`window_ms` after the first one, with pairwise distinct request ids and no
store failure: the first `min N max_requests` requests get `next()` and all
the others are answered 429. -/
theorem rate_limit_burst (cfg : RateLimitConfig) (client_id : String) (store : ZStore)
    (reqs : List (Nat × Nat))
    (hempty : ∀ q ∈ reqs.head?, (store (rate_limit_key client_id)).at q.1 = ZKey.absent)
    (hsorted : (reqs.map Prod.fst).Pairwise (fun a b => a ≤ b))
    (hwin : ∀ q ∈ reqs.head?, ∀ p ∈ reqs, p.1 < q.1 + cfg.window_ms)
    (huniq : reqs.Nodup) :
    rate_limit_runs cfg client_id store reqs
      = List.replicate (min reqs.length cfg.max_requests) RateLimitOutcome.next
        ++ List.replicate (reqs.length - min reqs.length cfg.max_requests)
            (too_many_requests cfg) := by
  cases reqs with
  | nil => simp [rate_limit_runs]
  | cons q rest =>
    have h0 : (store (rate_limit_key client_id)).at q.1 = ZKey.absent :=
      hempty q (by simp)
    have hlo : ∀ p ∈ q :: rest, q.1 ≤ p.1 ∧ p.1 < q.1 + cfg.window_ms := by
      intro p hp
      refine ⟨?_, hwin q (by simp) p hp⟩
      rcases List.mem_cons.mp hp with h | h
      · rw [h]
      · have hs : (q.1 :: rest.map Prod.fst).Pairwise (fun a b => a ≤ b) := hsorted
        exact (List.pairwise_cons.mp hs).1 p.1 (List.mem_map_of_mem Prod.fst h)
    have hb := burst_outcomes cfg client_id q.1 (q :: rest) store hlo huniq
      (by rw [h0]; intro e he; simp [ZKey.absent] at he)
      (by rw [h0]; intro x hx; simp [ZKey.absent] at hx)
      (by rw [h0]; intro e he; simp [ZKey.absent] at he)
    rw [h0] at hb
    simpa [ZKey.absent] using hb

/-- Witness of C2: four requests of a new client inside one minute, two allowed:
the first two pass and the last two are answered 429. -/
theorem rate_limit_burst_witness :
    rate_limit_runs ⟨2, 60000⟩ "ip:10.0.0.2" sample_zstore
        [(1000, 1), (1000, 2), (30000, 1), (60999, 5)]
      = [.next, .next, too_many_requests ⟨2, 60000⟩, too_many_requests ⟨2, 60000⟩] :=
  rate_limit_burst ⟨2, 60000⟩ "ip:10.0.0.2" sample_zstore
    [(1000, 1), (1000, 2), (30000, 1), (60999, 5)]
    (by decide) (by decide) (by decide) (by decide)

/-- C3. For every client, every `max_requests ≥ 1` and every store state: when
every entry of the client has a timestamp `≤ t` (the most recent one is at
`t`) and the request comes at `now ≥ t + window_ms`, the purge leaves no entry
to count, the request gets `next()`, and the window afterwards holds the new
entry alone. -/
theorem rate_limit_after_wait (cfg : RateLimitConfig) (store : ZStore) (client_id : String)
    (t now rnd : Nat) (hmax : 1 ≤ cfg.max_requests)
    (hrecent : ∀ e ∈ window_entries store now (rate_limit_key client_id), e.score ≤ t)
    (hwait : t + cfg.window_ms ≤ now) :
    not_expired cfg now (window_entries store now (rate_limit_key client_id)) = [] ∧
    zCard (zRemRangeByScore store now (rate_limit_key client_id) 0
        ((now : Int) - (cfg.window_ms : Int))) now (rate_limit_key client_id) = 0 ∧
    (rate_limit_middleware cfg store client_id now rnd none).outcome = .next ∧
    window_entries (rate_limit_middleware cfg store client_id now rnd none).store now
        (rate_limit_key client_id) = [⟨now, ⟨now, rnd⟩⟩] := by
  have hnil : not_expired cfg now (window_entries store now (rate_limit_key client_id)) = [] := by
    unfold not_expired
    apply List.filter_eq_nil_iff.mpr
    intro e he
    have := hrecent e he
    simp only [decide_eq_true_eq, not_not]
    omega
  have hroom : (not_expired cfg now
      (window_entries store now (rate_limit_key client_id))).length < cfg.max_requests := by
    rw [hnil]; simpa using hmax
  refine ⟨hnil, ?_, (rate_limit_room cfg store client_id now rnd hroom).1, ?_⟩
  · rw [count_after_purge, hnil]; rfl
  · rw [window_after_room cfg store client_id now rnd hroom, hnil]; rfl


/-- Witness of C3: the last entry of the client is at 61500 ms and the request
comes exactly 60000 ms later, with one request allowed per minute. -/
theorem rate_limit_after_wait_witness :
    61500 + 60000 ≤ 121500 ∧
    (rate_limit_middleware ⟨1, 60000⟩ sample_zstore "ip:10.0.0.1" 121500 9 none).outcome = .next :=
  ⟨by decide, (rate_limit_after_wait ⟨1, 60000⟩ sample_zstore "ip:10.0.0.1" 61500 121500 9
    (by decide) (by decide) (by decide)).2.2.1⟩

/-! ## The idempotency guard -/

/-- A run of the guard that finds a record under the key, whatever the record:
the record is sent back and the store is left as it is. -/
theorem idempotency_hit (store : IdemStore) (k : String) (now : Nat) (e : IdemEntry)
    (hk : k ≠ "") (hfound : idem_lookup store now (idempotency_store_key k) = some e) :
    idempotency_middleware store (some k) now IdemFaults.none
      = (store, .respond 200
          { success := true
            message := "Request already processed (idempotent)"
            data := e.value
            idempotent := true }) := by
  simp [idempotency_middleware, hk, check_idempotency_key, get_idempotency_value,
    IdemFaults.none, hfound]

/-- A run of the guard that finds no record under the key: a `processing` record
is written for 86400 s and `next()` is called. -/
theorem idempotency_miss (store : IdemStore) (k : String) (now : Nat)
    (hk : k ≠ "") (hfound : idem_lookup store now (idempotency_store_key k) = none) :
    idempotency_middleware store (some k) now IdemFaults.none
      = (Function.update store (idempotency_store_key k)
          (some ⟨⟨"processing", now, none⟩, now + 86400 * 1000⟩), .next (some k)) := by
  simp [idempotency_middleware, hk, check_idempotency_key, set_idempotency_key,
    IdemFaults.none, hfound]

/-- Duplicates of a key whose record stays alive are all answered with that
record, and the store does not change. -/
theorem idempotency_runs_hit (store : IdemStore) (k : String) (e : IdemEntry) (hk : k ≠ "")
    (hstored : store (idempotency_store_key k) = some e) :
    ∀ times : List Nat, (∀ t ∈ times, t < e.expire_at) →
    idempotency_runs store k times
      = (store, List.replicate times.length
          (.respond 200
            { success := true
              message := "Request already processed (idempotent)"
              data := e.value
              idempotent := true })) := by
  intro times
  induction times with
  | nil => intro _; rfl
  | cons t rest ih =>
    intro hlive
    have hfound : idem_lookup store t (idempotency_store_key k) = some e := by
      have := hlive t (List.mem_cons_self _ _)
      simp only [idem_lookup, hstored]
      rw [if_neg (by omega)]
    have hrest := ih (fun u hu => hlive u (List.mem_cons_of_mem _ hu))
    simp only [idempotency_runs, idempotency_hit store k t e hk hfound, hrest,
      List.length_cons, List.replicate_succ]

/-- C4, amended. Store operations succeeding: once the `completed` record of key
`K` has been written (by the wrapper of `res.json`, at time `t0`, with a time to
live of 86400 s), every later request carrying `K` before the record expires
is answered from the store, with `idempotent: true` and with the stored record
as `data`, the same for all of them; none reaches the controller (no `next()`)
and the store is never written. -/
theorem idempotency_completed_stable (store : IdemStore) (k : String) (body : JsonBody)
    (t0 : Nat) (times : List Nat) (hk : k ≠ "")
    (hlater : ∀ t ∈ times, t0 ≤ t ∧ t < t0 + 86400 * 1000) :
    (res_json store k t0 body false) (idempotency_store_key k)
      = some ⟨⟨"completed", t0, some body⟩, t0 + 86400 * 1000⟩ ∧
    idempotency_runs (res_json store k t0 body false) k times
      = (res_json store k t0 body false, List.replicate times.length
          (.respond 200
            { success := true
              message := "Request already processed (idempotent)"
              data := ⟨"completed", t0, some body⟩
              idempotent := true })) ∧
    (∀ t ∈ times,
      idempotency_middleware (res_json store k t0 body false) (some k) t IdemFaults.none
        = (res_json store k t0 body false, .respond 200
            { success := true
              message := "Request already processed (idempotent)"
              data := ⟨"completed", t0, some body⟩
              idempotent := true })) := by
  have hstored : (res_json store k t0 body false) (idempotency_store_key k)
      = some ⟨⟨"completed", t0, some body⟩, t0 + 86400 * 1000⟩ := by
    simp [res_json, set_idempotency_key]
  refine ⟨hstored, ?_, ?_⟩
  · exact idempotency_runs_hit _ k _ hk hstored times (fun t ht => (hlater t ht).2)
  · intro t ht
    refine idempotency_hit _ k t ⟨⟨"completed", t0, some body⟩, t0 + 86400 * 1000⟩ hk ?_
    have := (hlater t ht).2
    simp only [idem_lookup, hstored]
    rw [if_neg (by omega)]

/-- Witness of C4: the response `{success: true, message: "ok"}` is cached for key
`k1` at 5000 ms; three later requests with that key get the cached record. -/
theorem idempotency_completed_stable_witness :
    idempotency_runs (res_json sample_idem_store "k1" 5000 ⟨true, "ok"⟩ false) "k1"
        [5000, 6000, 86404999]
      = (res_json sample_idem_store "k1" 5000 ⟨true, "ok"⟩ false, List.replicate 3
          (.respond 200
            { success := true
              message := "Request already processed (idempotent)"
              data := ⟨"completed", 5000, some ⟨true, "ok"⟩⟩
              idempotent := true })) :=
  (idempotency_completed_stable sample_idem_store "k1" ⟨true, "ok"⟩ 5000 [5000, 6000, 86404999]
    (by decide) (by decide)).2.1

/-- Counterexample to C4: the response `{success: true, message: "ok"}` is cached
as a `completed` record for key `k1` at 5000 ms. On the request with that key
at 6000 ms the command `EXISTS` fails: the guard calls `next()`, the request
reaches the controller and is dispatched, and the record is overwritten (by
the `processing` record of the guard, then by the `completed` record of the
new response); the request with that key at 7000 ms, store operations
succeeding, is answered with a record that is not the one of 5000 ms. A
failing `GET` does the same, and when every store operation fails the request
proceeds as well, the store being left as it is. -/
theorem completed_record_lost_on_store_failure :
    (res_json sample_idem_store "k1" 5000 ⟨true, "ok"⟩ false) (idempotency_store_key "k1")
      = some ⟨⟨"completed", 5000, some ⟨true, "ok"⟩⟩, 5000 + 86400 * 1000⟩ ∧
    idempotency_middleware (res_json sample_idem_store "k1" 5000 ⟨true, "ok"⟩ false)
        (some "k1") 6000 ⟨true, false, false⟩
      = (Function.update (res_json sample_idem_store "k1" 5000 ⟨true, "ok"⟩ false)
          (idempotency_store_key "k1")
          (some ⟨⟨"processing", 6000, none⟩, 6000 + 86400 * 1000⟩), .next (some "k1")) ∧
    (idempotency_middleware (res_json sample_idem_store "k1" 5000 ⟨true, "ok"⟩ false)
        (some "k1") 6000 ⟨false, true, false⟩).2 = .next (some "k1") ∧
    idempotency_middleware (res_json sample_idem_store "k1" 5000 ⟨true, "ok"⟩ false)
        (some "k1") 6000 ⟨true, true, true⟩
      = (res_json sample_idem_store "k1" 5000 ⟨true, "ok"⟩ false, .next (some "k1")) ∧
    (idempotency_middleware
        (idempotency_middleware (res_json sample_idem_store "k1" 5000 ⟨true, "ok"⟩ false)
          (some "k1") 6000 ⟨true, false, false⟩).1
        (some "k1") 7000 IdemFaults.none).2
      = .respond 200
          { success := true
            message := "Request already processed (idempotent)"
            data := ⟨"processing", 6000, none⟩
            idempotent := true } ∧
    (notify_route (res_json sample_idem_store "k1" 5000 ⟨true, "ok"⟩ false) (some "k1")
        sample_body (fun _ => .returned ⟨true, "queued"⟩) 6000 ⟨true, false, false⟩).2.dispatched
      = true ∧
    (notify_route
        (notify_route (res_json sample_idem_store "k1" 5000 ⟨true, "ok"⟩ false) (some "k1")
          sample_body (fun _ => .returned ⟨true, "queued"⟩) 6000 ⟨true, false, false⟩).1
        (some "k1") sample_body (fun _ => .returned ⟨true, "queued"⟩) 7000 IdemFaults.none).2
      = .duplicate 200
          { success := true
            message := "Request already processed (idempotent)"
            data := ⟨"completed", 6000,
              some ⟨true, "Notification request accepted and is being processed."⟩⟩
            idempotent := true } := by
  refine ⟨by decide, ?_, by decide, ?_, by decide, by decide, by decide⟩
  · simp [idempotency_middleware, check_idempotency_key, set_idempotency_key]
  · simp [idempotency_middleware, check_idempotency_key, set_idempotency_key]

/-- Counterexample to C5: the key `k1` holds a live `processing` record; the
request with that key at 2000 ms is answered as a duplicate, with the
`processing` record as data, it does not proceed to the controller, and the
record is not rewritten. -/
theorem idempotency_processing_is_duplicate :
    idempotency_middleware sample_idem_store (some "k1") 2000 IdemFaults.none
      = (sample_idem_store, .respond 200
          { success := true
            message := "Request already processed (idempotent)"
            data := ⟨"processing", 1000, none⟩
            idempotent := true }) ∧
    (idempotency_middleware sample_idem_store (some "k1") 2000 IdemFaults.none).2
      ≠ .next (some "k1") ∧
    (idempotency_middleware sample_idem_store (some "k1") 2000 IdemFaults.none).1
        (idempotency_store_key "k1")
      ≠ some ⟨⟨"processing", 2000, none⟩, 2000 + 86400 * 1000⟩ := by
  have h : idempotency_middleware sample_idem_store (some "k1") 2000 IdemFaults.none
      = (sample_idem_store, .respond 200
          { success := true
            message := "Request already processed (idempotent)"
            data := ⟨"processing", 1000, none⟩
            idempotent := true }) :=
    idempotency_hit sample_idem_store "k1" 2000 ⟨⟨"processing", 1000, none⟩, 86401000⟩
      (by decide) (by decide)
  refine ⟨h, ?_, ?_⟩
  · rw [h]; simp
  · rw [h]; decide

/-- C5, amended. Without store failure and for a non-empty key: when a record for
the key exists and has not expired, whatever its status (`processing` as well
as `completed`), the request is reported as a duplicate (status 200,
`idempotent: true`, the stored record as `data`), the store is not written
and `next()` is not called; when no live record exists the guard writes a
`processing` record with a time to live of 86400 s and calls `next()`. -/
theorem idempotency_guard_cases (store : IdemStore) (k : String) (now : Nat) (hk : k ≠ "") :
    (∀ e, idem_lookup store now (idempotency_store_key k) = some e →
      idempotency_middleware store (some k) now IdemFaults.none
        = (store, .respond 200
            { success := true
              message := "Request already processed (idempotent)"
              data := e.value
              idempotent := true })) ∧
    (idem_lookup store now (idempotency_store_key k) = none →
      idempotency_middleware store (some k) now IdemFaults.none
        = (Function.update store (idempotency_store_key k)
            (some ⟨⟨"processing", now, none⟩, now + 86400 * 1000⟩), .next (some k))) :=
  ⟨fun e he => idempotency_hit store k now e hk he, idempotency_miss store k now hk⟩

/-- Witness of C5 amended: a request with the new key `k2` at 2000 ms proceeds. -/
theorem idempotency_guard_cases_witness :
    (idempotency_middleware sample_idem_store (some "k2") 2000 IdemFaults.none).2
      = .next (some "k2") :=
  congrArg Prod.snd
    ((idempotency_guard_cases sample_idem_store "k2" 2000 (by decide)).2 (by decide))


/-! ## The push worker -/

theorem Headers.get_set_self (hs : Headers) (k : String) (v : HVal) :
    Headers.get (Headers.set hs k v) k = some v := by
  induction hs with
  | nil => simp [Headers.get, Headers.set]
  | cons a tl ih =>
    obtain ⟨a1, a2⟩ := a
    by_cases h : a1 = k
    · simp [Headers.get, Headers.set, h]
    · simp [Headers.get, Headers.set, h, ih]

theorem Headers.get_set_of_ne (hs : Headers) (k name : String) (v : HVal) (h : name ≠ k) :
    Headers.get (Headers.set hs k v) name = Headers.get hs name := by
  induction hs with
  | nil => simp [Headers.get, Headers.set, Ne.symm h]
  | cons a tl ih =>
    obtain ⟨a1, a2⟩ := a
    by_cases h1 : a1 = k
    · have h2 : ¬ k = name := Ne.symm h
      simp [Headers.get, Headers.set, h1, h2]
    · by_cases h2 : a1 = name
      · subst h2
        simp [Headers.get, Headers.set, h1]
      · simp [Headers.get, Headers.set, h1, h2, ih]

/-- What the worker does with a message whose handling fails (the content is
rejected by `JSON.parse` or the delivery throws), for a retry count `r`. -/
theorem consume_failure (env : WorkerEnv) (msg : Message) (r : Nat) (err : String)
    (hr : read_retry_count msg = some r)
    (hfail : (if msg.content.parses then env.delivery else some env.parse_error) = some err) :
    ∃ publishCorrelationId : String,
    consume env msg =
      if r + 1 < MAX_RETRIES then
        some [.ack, .sleep (INITIAL_RETRY_DELAY_MS * BACKOFF_MULTIPLIER ^ r),
          .publish
            { exchange := EXCHANGE_NAME
              routingKey := PUSH_QUEUE
              content := msg.content
              options :=
                { persistent := true
                  contentType := some (or_else msg.properties.contentType "application/json")
                  messageId := some (or_else msg.properties.messageId publishCorrelationId)
                  correlationId := some publishCorrelationId
                  timestamp := some env.publish_time
                  headers := some (retry_headers (msg.properties.headers.getD []) r (r + 1)
                    err env.retry_timestamp) } }]
      else some [.nack false false] := by
  cases hp : msg.content.parses
  · rw [hp] at hfail
    simp only [Bool.false_eq_true, if_false, Option.some.injEq] at hfail
    refine ⟨or_else msg.properties.correlationId (or_else msg.properties.messageId "unknown"), ?_⟩
    unfold consume
    simp only [hr, hp, hfail, Bool.false_eq_true, if_false, and_self, if_true, ite_self]
  · rw [hp] at hfail
    simp only [if_true] at hfail
    refine ⟨if or_else msg.content.parsed_correlation_id "unknown" = "unknown" then
        or_else msg.properties.correlationId (or_else msg.properties.messageId "unknown")
      else or_else msg.content.parsed_correlation_id "unknown", ?_⟩
    unfold consume
    simp only [hr, hp, hfail, if_true, ite_self]

/-- The headers of the republished message: the four retry headers are
written, every other header is the one of the received message. -/
theorem retry_headers_get (hs : Headers) (r a : Nat) (err ts : String) :
    Headers.get (retry_headers hs r a err ts) "x-retry-count" = some (.num (r + 1)) ∧
    Headers.get (retry_headers hs r a err ts) "x-original-error" = some (.str (err.take 200)) ∧
    Headers.get (retry_headers hs r a err ts) "x-retry-timestamp" = some (.str ts) ∧
    Headers.get (retry_headers hs r a err ts) "x-retry-attempt" = some (.num (a + 1)) ∧
    (∀ name : String, name ≠ "x-retry-count" → name ≠ "x-original-error" →
      name ≠ "x-retry-timestamp" → name ≠ "x-retry-attempt" →
      Headers.get (retry_headers hs r a err ts) name = Headers.get hs name) := by
  unfold retry_headers
  refine ⟨?_, ?_, ?_, ?_, ?_⟩
  · rw [Headers.get_set_of_ne _ _ _ _ (by decide), Headers.get_set_of_ne _ _ _ _ (by decide),
      Headers.get_set_of_ne _ _ _ _ (by decide), Headers.get_set_self]
  · rw [Headers.get_set_of_ne _ _ _ _ (by decide), Headers.get_set_of_ne _ _ _ _ (by decide),
      Headers.get_set_self]
  · rw [Headers.get_set_of_ne _ _ _ _ (by decide), Headers.get_set_self]
  · rw [Headers.get_set_self]
  · intro name h1 h2 h3 h4
    rw [Headers.get_set_of_ne _ _ _ _ h4, Headers.get_set_of_ne _ _ _ _ h3,
      Headers.get_set_of_ne _ _ _ _ h2, Headers.get_set_of_ne _ _ _ _ h1]

/-- C6. Push worker, on a failure of the handling of a message (the delivery
throws, or the content is not JSON), with `r` the retry count read from the
header `x-retry-count` (0 when there are no headers or no such header) and
`r + 1` the attempt number: if `r + 1 < 4` the worker acknowledges the
message, waits `1000 * 5 ^ r` ms and then publishes to `notifications.direct`
with routing key `push.queue` a message with `x-retry-count = r + 1`; if
`r + 1 = 4` it only rejects the message, with `requeue = false`. -/
theorem push_retry_decision (env : WorkerEnv) (msg : Message) (r : Nat) (err : String)
    (hr : read_retry_count msg = some r)
    (hfail : (if msg.content.parses then env.delivery else some env.parse_error) = some err) :
    (msg.properties.headers = none → r = 0) ∧
    (∀ hs, msg.properties.headers = some hs → Headers.get hs "x-retry-count" = none → r = 0) ∧
    (∀ hs n, msg.properties.headers = some hs →
      Headers.get hs "x-retry-count" = some (.num n) → r = n) ∧
    (r + 1 < 4 → ∃ p hs,
      consume env msg = some [.ack, .sleep (1000 * 5 ^ r), .publish p] ∧
      p.exchange = "notifications.direct" ∧ p.routingKey = "push.queue" ∧
      p.options.headers = some hs ∧
      Headers.get hs "x-retry-count" = some (.num (r + 1))) ∧
    (r + 1 = 4 → consume env msg = some [.nack false false]) := by
  obtain ⟨pcid, hc⟩ := consume_failure env msg r err hr hfail
  refine ⟨?_, ?_, ?_, ?_, ?_⟩
  · intro hn
    simp only [read_retry_count, hn, Option.some.injEq] at hr
    exact hr.symm
  · intro hs hh hg
    simp only [read_retry_count, hh, hg, Option.some.injEq] at hr
    exact hr.symm
  · intro hs n hh hg
    simp only [read_retry_count, hh, hg, Option.some.injEq] at hr
    exact hr.symm
  · intro hlt
    have hlt2 : r + 1 < MAX_RETRIES := hlt
    rw [if_pos hlt2] at hc
    exact ⟨_, _, hc, rfl, rfl, rfl, (retry_headers_get _ r (r + 1) err env.retry_timestamp).1⟩
  · intro heq
    have hge : ¬ r + 1 < MAX_RETRIES := by simp [MAX_RETRIES, heq]
    rw [if_neg hge] at hc
    exact hc


/-- Witness of C6: the first delivery of a message of the gateway fails; the
worker acknowledges it, waits 1000 ms and republishes it with
`x-retry-count = 1`. -/
theorem push_retry_decision_witness :
    ∃ p hs,
      consume failing_env sample_push_message = some [.ack, .sleep (1000 * 5 ^ 0), .publish p] ∧
      p.exchange = "notifications.direct" ∧ p.routingKey = "push.queue" ∧
      p.options.headers = some hs ∧
      Headers.get hs "x-retry-count" = some (.num (0 + 1)) :=
  (push_retry_decision failing_env sample_push_message 0 "FCM unavailable"
    (by decide) (by decide)).2.2.2.1 (by decide)

/-- A failed handling that is not the last attempt: the message that comes back
to the queue has the same content and the next retry count. -/
theorem consume_failure_retry (env : WorkerEnv) (msg : Message) (r : Nat) (err : String)
    (hr : read_retry_count msg = some r)
    (hfail : (if msg.content.parses then env.delivery else some env.parse_error) = some err)
    (hlt : r + 1 < 4) :
    ∃ actions again, consume env msg = some actions ∧ republished actions = some again ∧
      again.content = msg.content ∧ read_retry_count again = some (r + 1) ∧
      delays actions = [1000 * 5 ^ r] ∧ (publishes actions).length = 1 := by
  obtain ⟨pcid, hc⟩ := consume_failure env msg r err hr hfail
  have hlt2 : r + 1 < MAX_RETRIES := hlt
  rw [if_pos hlt2] at hc
  refine ⟨_, Publish.delivered
    { exchange := EXCHANGE_NAME
      routingKey := PUSH_QUEUE
      content := msg.content
      options :=
        { persistent := true
          contentType := some (or_else msg.properties.contentType "application/json")
          messageId := some (or_else msg.properties.messageId pcid)
          correlationId := some pcid
          timestamp := some env.publish_time
          headers := some (retry_headers (msg.properties.headers.getD []) r (r + 1)
            err env.retry_timestamp) } }, hc, ?_, ?_, ?_, ?_, ?_⟩
  · simp only [republished, and_self, if_true]
  · rfl
  · simp only [read_retry_count, Publish.delivered,
      (retry_headers_get _ r (r + 1) err env.retry_timestamp).1]
  · rfl
  · rfl

/-- A failed handling at the last attempt or beyond: the message is rejected and
nothing comes back to the queue. -/
theorem consume_failure_last (env : WorkerEnv) (msg : Message) (r : Nat) (err : String)
    (hr : read_retry_count msg = some r)
    (hfail : (if msg.content.parses then env.delivery else some env.parse_error) = some err)
    (hge : 4 ≤ r + 1) :
    consume env msg = some [.nack false false] ∧ republished [Action.nack false false] = none := by
  obtain ⟨pcid, hc⟩ := consume_failure env msg r err hr hfail
  have hge2 : ¬ r + 1 < MAX_RETRIES := by simp only [MAX_RETRIES]; omega
  rw [if_neg hge2] at hc
  exact ⟨hc, rfl⟩

/-- The retry chain of a message with retry count `r` and `d = 3 - r` retries
left whose handling fails every time: `d + 1` handlings, the waits
`1000 * 5 ^ j` for `j = r, ..., 2`, `d` republishes and a final reject. -/
theorem retry_chain_fails (envs : Nat → WorkerEnv) (c : Content)
    (hfail : ∀ i, ∃ err,
      (if c.parses then (envs i).delivery else some (envs i).parse_error) = some err) :
    ∀ (d r : Nat) (msg : Message) (i fuel : Nat), d = 3 - r → d + 1 ≤ fuel →
    msg.content = c → read_retry_count msg = some r →
    ∃ trace, retry_chain envs fuel i msg = some trace ∧ trace.length = d + 1 ∧
      trace.getLast? = some [.nack false false] ∧
      chain_delays trace = (List.range' r d).map (fun j => 1000 * 5 ^ j) ∧
      (chain_publishes trace).length = d := by
  intro d
  induction d with
  | zero =>
    intro r msg i fuel hrd hfuel hcont hr
    obtain ⟨err, he⟩ := hfail i
    rw [← hcont] at he
    have hl := consume_failure_last (envs i) msg r err hr he (by omega)
    obtain ⟨f, rfl⟩ : ∃ f, fuel = f + 1 := ⟨fuel - 1, by omega⟩
    refine ⟨[[.nack false false]], ?_, rfl, rfl, rfl, rfl⟩
    simp only [retry_chain, hl.1, hl.2]
  | succ d ih =>
    intro r msg i fuel hrd hfuel hcont hr
    obtain ⟨err, he⟩ := hfail i
    rw [← hcont] at he
    obtain ⟨actions, again, hc, hrep, hsame, hnext, hdel, hpub⟩ :=
      consume_failure_retry (envs i) msg r err hr he (by omega)
    obtain ⟨f, rfl⟩ : ∃ f, fuel = f + 1 := ⟨fuel - 1, by omega⟩
    obtain ⟨rest, hrest, hlen, hlast, hdelays, hpubs⟩ :=
      ih (r + 1) again (i + 1) f (by omega) (by omega) (hsame.trans hcont) hnext
    refine ⟨actions :: rest, ?_, ?_, ?_, ?_, ?_⟩
    · simp only [retry_chain, hc, hrep, hrest, Option.map_some']
    · simp [hlen]
    · cases rest with
      | nil => simp at hlen
      | cons a tl => rw [List.getLast?_cons_cons]; exact hlast
    · simp only [chain_delays, hdel, hdelays, List.range'_succ, List.map_cons,
        List.singleton_append]
    · simp only [chain_publishes, List.length_append, hpub, hpubs]
      omega


/-- C7. A message whose delivery fails at every attempt goes through a finite
retry chain. For a message published by the gateway (`x-retry-count = 0`):
with fuel for 4 handlings or more the chain ends; it has exactly 4 attempts
and 3 republishes, after waits of 1000, 5000 and 25000 ms in that order, and
its last attempt only rejects the message without requeue (nothing is
published after it). For a message with any retry count `r`: the chain ends
after `max 1 (4 - r)` attempts, the last of which is the reject. -/
theorem push_retry_chain (envs : Nat → WorkerEnv)
    (hfail : ∀ i, ∃ err, (envs i).delivery = some err) :
    (∀ (correlation_id : String) (template : Template) (vars : List (String × String))
      (pushToken : PushToken) (timestamp fuel : Nat), 4 ≤ fuel →
      ∃ trace,
        retry_chain envs fuel 0
          (push_envelope correlation_id template vars pushToken timestamp).delivered
          = some trace ∧
        trace.length = 4 ∧ chain_delays trace = [1000, 5000, 25000] ∧
        (chain_publishes trace).length = 3 ∧
        trace.getLast? = some [.nack false false]) ∧
    (∀ (r : Nat) (msg : Message) (i fuel : Nat), read_retry_count msg = some r →
      max 1 (4 - r) ≤ fuel →
      ∃ trace,
        retry_chain envs fuel i msg = some trace ∧
        trace.length = max 1 (4 - r) ∧
        (chain_publishes trace).length = 3 - r ∧
        trace.getLast? = some [.nack false false]) := by
  have hall : ∀ c : Content, ∀ i, ∃ err,
      (if c.parses then (envs i).delivery else some (envs i).parse_error) = some err := by
    intro c i
    obtain ⟨err, he⟩ := hfail i
    cases c.parses
    · exact ⟨_, rfl⟩
    · exact ⟨err, by simpa using he⟩
  constructor
  · intro correlation_id template vars pushToken timestamp fuel hfuel
    obtain ⟨trace, h1, h2, h3, h4, h5⟩ :=
      retry_chain_fails envs _ (hall _) 3 0
        (push_envelope correlation_id template vars pushToken timestamp).delivered 0 fuel
        rfl (by omega) rfl rfl
    exact ⟨trace, h1, h2, h4, h5, h3⟩
  · intro r msg i fuel hr hfuel
    have hm : max 1 (4 - r) = (3 - r) + 1 := by
      rcases Nat.lt_or_ge r 3 with h | h
      · rw [Nat.max_def]; split <;> omega
      · rw [Nat.max_def]; split <;> omega
    obtain ⟨trace, h1, h2, h3, _, h5⟩ :=
      retry_chain_fails envs _ (hall _) (3 - r) r msg i fuel rfl (by omega) rfl hr
    exact ⟨trace, h1, by rw [h2, hm], h5, h3⟩

/-- Witness of C7: the chain of `sample_push_message` under a delivery that
always fails, run with fuel 10. -/
theorem push_retry_chain_witness :
    ∃ trace,
      retry_chain (fun _ => failing_env) 10 0 sample_push_message = some trace ∧
      trace.length = 4 ∧ chain_delays trace = [1000, 5000, 25000] ∧
      (chain_publishes trace).length = 3 ∧
      trace.getLast? = some [.nack false false] :=
  (push_retry_chain (fun _ => failing_env) (fun _ => ⟨"FCM unavailable", rfl⟩)).1
    "c-1" sample_template [("name", "Ada")] ⟨"tok-abcdef-123"⟩ 1700000000000 10 (by decide)


/-- C8. The message republished for a retry: its content is the content of the
received message, it goes to the exchange `notifications.direct` with routing
key `push.queue`, every header other than the retry headers (`x-retry-count`,
`x-original-error`, `x-retry-timestamp`, `x-retry-attempt`) is the one of the
received message, the message id is the received one when there is one (a
non-empty string), and it carries `x-retry-count = r + 1`, `x-original-error`
(the first 200 characters of the error message) and `x-retry-timestamp`. -/
theorem push_republish_frame (env : WorkerEnv) (msg : Message) (r : Nat) (err : String)
    (hr : read_retry_count msg = some r)
    (hfail : (if msg.content.parses then env.delivery else some env.parse_error) = some err)
    (hlt : r + 1 < 4) :
    ∃ d p hs,
      consume env msg = some [.ack, .sleep d, .publish p] ∧
      p.content = msg.content ∧
      p.exchange = "notifications.direct" ∧ p.routingKey = "push.queue" ∧
      p.options.headers = some hs ∧
      (∀ name : String, name ≠ "x-retry-count" → name ≠ "x-original-error" →
        name ≠ "x-retry-timestamp" → name ≠ "x-retry-attempt" →
        Headers.get hs name = Headers.get (msg.properties.headers.getD []) name) ∧
      (∀ m, msg.properties.messageId = some m → m ≠ "" → p.options.messageId = some m) ∧
      Headers.get hs "x-retry-count" = some (.num (r + 1)) ∧
      Headers.get hs "x-original-error" = some (.str (err.take 200)) ∧
      Headers.get hs "x-retry-timestamp" = some (.str env.retry_timestamp) := by
  obtain ⟨pcid, hc⟩ := consume_failure env msg r err hr hfail
  have hlt2 : r + 1 < MAX_RETRIES := hlt
  rw [if_pos hlt2] at hc
  have hh := retry_headers_get (msg.properties.headers.getD []) r (r + 1) err env.retry_timestamp
  refine ⟨_, _, _, hc, rfl, rfl, rfl, rfl, hh.2.2.2.2, ?_, hh.1, hh.2.1, hh.2.2.1⟩
  intro m hm hne
  simp [hm, or_else, hne]

/-- Witness of C8: `sample_retried_message` fails again; the republished
message keeps the content, the header `x-tenant` and the message id. -/
theorem push_republish_frame_witness :
    ∃ d p hs,
      consume failing_env sample_retried_message = some [.ack, .sleep d, .publish p] ∧
      p.content = sample_retried_message.content ∧
      p.options.headers = some hs ∧
      Headers.get hs "x-tenant" = some (.str "acme") ∧
      p.options.messageId = some "c-1-tok-abcd" ∧
      Headers.get hs "x-retry-count" = some (.num 2) := by
  obtain ⟨d, p, hs, h1, h2, _, _, h5, h6, h7, h8, _, _⟩ :=
    push_republish_frame failing_env sample_retried_message 1 "FCM unavailable"
      (by decide) (by decide) (by decide)
  exact ⟨d, p, hs, h1, h2, h5,
    (h6 "x-tenant" (by decide) (by decide) (by decide) (by decide)).trans (by decide),
    h7 "c-1-tok-abcd" rfl (by decide), h8⟩


/-! ## The publisher -/

/-- The run for an EMAIL template and a recipient whose email preference is not
`false`, with the channel available: one publish, to `email.queue`. -/
theorem email_run_enabled (env : DispatchEnv) (requestData : NotificationRequest) (user : User)
    (template : Template) (hu : env.user_response = .returned (some user))
    (ht : env.template_response = .returned (some template)) (htype : template.type = "EMAIL")
    (hpref : (match user.notification_preference with
      | some p => p.email_enabled
      | none => JsVal.undefined) ≠ JsVal.bool false)
    (hch : get_channel env.channel env.connection = none) :
    process_notification_request env requestData
      = ⟨[(email_envelope env.correlation_id user template requestData.vars (env.clock 0),
            env.accepted 0)],
          .returned ⟨true, "Email notification queued successfully."⟩⟩ := by
  unfold process_notification_request
  simp only [hu, ht, htype, JsVal.not_false, hpref, decide_False, Bool.not_false, and_self,
    if_true, hch]

/-- The run for an EMAIL template and a recipient whose email preference is
`false`: nothing is published and the result is `success: false`. -/
theorem email_run_disabled (env : DispatchEnv) (requestData : NotificationRequest) (user : User)
    (template : Template) (hu : env.user_response = .returned (some user))
    (ht : env.template_response = .returned (some template)) (htype : template.type = "EMAIL")
    (hpref : (match user.notification_preference with
      | some p => p.email_enabled
      | none => JsVal.undefined) = JsVal.bool false) :
    process_notification_request env requestData
      = ⟨[], .returned ⟨false, "Notification type not enabled or not supported."⟩⟩ := by
  have hne : ¬ ("EMAIL" = "PUSH") := by decide
  unfold process_notification_request
  simp only [hu, ht, htype, JsVal.not_false, hpref, decide_True, Bool.not_true,
    Bool.false_eq_true, and_false, if_false, hne, false_and]

/-- C9. `process_notification_request` with an EMAIL template, the profile and the
template fetched and the broker channel available: exactly one envelope is
published, to `email.queue`, if and only if the `email_enabled` preference of
the recipient is not the value `false` (unset, `undefined`, `null` and `true`
count as enabled), whatever the push preference; when `email_enabled` is
`false` nothing is published and the function returns, without throwing, a
result with `success = false`. -/
theorem email_dispatch (env : DispatchEnv) (requestData : NotificationRequest) (user : User)
    (template : Template) (hu : env.user_response = .returned (some user))
    (ht : env.template_response = .returned (some template)) (htype : template.type = "EMAIL")
    (hch : get_channel env.channel env.connection = none) :
    ((∃ p ok, (process_notification_request env requestData).published = [(p, ok)] ∧
        p.exchange = "notifications.direct" ∧ p.routingKey = "email.queue") ↔
      (match user.notification_preference with
        | some p => p.email_enabled
        | none => JsVal.undefined) ≠ JsVal.bool false) ∧
    ((match user.notification_preference with
        | some p => p.email_enabled
        | none => JsVal.undefined) = JsVal.bool false →
      (process_notification_request env requestData).published = [] ∧
      ∃ result, (process_notification_request env requestData).result = .returned result ∧
        result.success = false) := by
  constructor
  · constructor
    · rintro ⟨p, ok, hp, _⟩ hfalse
      rw [email_run_disabled env requestData user template hu ht htype hfalse] at hp
      simp at hp
    · intro hpref
      rw [email_run_enabled env requestData user template hu ht htype hpref hch]
      exact ⟨_, _, rfl, rfl, rfl⟩
  · intro hfalse
    rw [email_run_disabled env requestData user template hu ht htype hfalse]
    exact ⟨rfl, _, rfl, rfl⟩

/-- Witness of C9: `sample_user` disabled push and left the email preference
unset; the EMAIL template is dispatched to `email.queue`. -/
theorem email_dispatch_witness :
    ∃ p ok, (process_notification_request (sample_env sample_user sample_email_template)
        sample_request).published = [(p, ok)] ∧
      p.exchange = "notifications.direct" ∧ p.routingKey = "email.queue" :=
  (email_dispatch (sample_env sample_user sample_email_template) sample_request sample_user
    sample_email_template rfl rfl rfl rfl).1.mpr (by decide)


theorem fan_out_length (env : DispatchEnv) (template : Template) (vars : List (String × String)) :
    ∀ (tokens : List PushToken) (k : Nat),
    (fan_out env template vars tokens k).length = tokens.length := by
  intro tokens
  induction tokens with
  | nil => intro k; rfl
  | cons t ts ih => intro k; simp [fan_out, ih]

theorem fan_out_get (env : DispatchEnv) (template : Template) (vars : List (String × String)) :
    ∀ (tokens : List PushToken) (k j : Nat) (t : PushToken), tokens[j]? = some t →
    (fan_out env template vars tokens k)[j]?
      = some (push_envelope env.correlation_id template vars t (env.clock (k + j)),
          env.accepted (k + j)) := by
  intro tokens
  induction tokens with
  | nil => intro k j t h; simp at h
  | cons a ts ih =>
    intro k j t h
    cases j with
    | zero =>
      simp only [List.getElem?_cons_zero, Option.some.injEq] at h
      simp [fan_out, h]
    | succ j =>
      simp only [List.getElem?_cons_succ] at h
      have := ih (k + 1) j t h
      simp only [fan_out, List.getElem?_cons_succ, this]
      rw [Nat.add_assoc, Nat.add_comm 1 j]

/-- The publish calls of a run for a PUSH template, push not disabled, with the
channel available: the calls of the loop over the tokens. -/
theorem push_run_published (env : DispatchEnv) (requestData : NotificationRequest) (user : User)
    (template : Template) (tokens : List PushToken)
    (hu : env.user_response = .returned (some user))
    (ht : env.template_response = .returned (some template)) (htype : template.type = "PUSH")
    (hpref : (match user.notification_preference with
      | some p => p.push_enabled
      | none => JsVal.undefined) ≠ JsVal.bool false)
    (htok : user.push_tokens = some tokens)
    (hch : get_channel env.channel env.connection = none) :
    (process_notification_request env requestData).published
      = fan_out env template requestData.vars tokens 0 := by
  have hne : ¬ ("PUSH" = "EMAIL") := by decide
  unfold process_notification_request
  simp only [hu, ht, htype, hne, false_and, if_false, JsVal.not_false, hpref, decide_False,
    Bool.not_false, and_self, if_true, htok]
  cases tokens with
  | nil => rfl
  | cons t ts =>
    simp only [hch]
    split <;> rfl

/-- The run for a PUSH template, push not disabled, and a recipient without
device token: nothing is published and the result is a success. -/
theorem push_run_no_token (env : DispatchEnv) (requestData : NotificationRequest) (user : User)
    (template : Template) (hu : env.user_response = .returned (some user))
    (ht : env.template_response = .returned (some template)) (htype : template.type = "PUSH")
    (hpref : (match user.notification_preference with
      | some p => p.push_enabled
      | none => JsVal.undefined) ≠ JsVal.bool false)
    (htok : user.push_tokens = none ∨ user.push_tokens = some []) :
    process_notification_request env requestData
      = ⟨[], .returned ⟨true, "User has no push tokens; request skipped."⟩⟩ := by
  have hne : ¬ ("PUSH" = "EMAIL") := by decide
  unfold process_notification_request
  rcases htok with h | h <;>
    simp only [hu, ht, htype, hne, false_and, if_false, JsVal.not_false, hpref, decide_False,
      Bool.not_false, and_self, if_true, h]

/-- C10. `process_notification_request` with a PUSH template and push not
disabled, for a recipient with the device tokens `tokens` (`n ≥ 0` of them),
the broker channel being available: exactly `n` publishes are attempted, the
`j`-th one goes to `push.queue` with the `j`-th token in its payload, and all
carry the correlation id minted for the request; with no token (an empty or a
missing list) nothing is published and the function returns a success result,
it does not throw. -/
theorem push_fan_out (env : DispatchEnv) (requestData : NotificationRequest) (user : User)
    (template : Template) (hu : env.user_response = .returned (some user))
    (ht : env.template_response = .returned (some template)) (htype : template.type = "PUSH")
    (hpref : (match user.notification_preference with
      | some p => p.push_enabled
      | none => JsVal.undefined) ≠ JsVal.bool false) :
    (∀ tokens, user.push_tokens = some tokens →
      get_channel env.channel env.connection = none →
      (process_notification_request env requestData).published.length = tokens.length ∧
      ∀ (j : Nat) (t : PushToken), tokens[j]? = some t →
        ∃ p, (process_notification_request env requestData).published[j]?
            = some (p, env.accepted j) ∧
          p.exchange = "notifications.direct" ∧ p.routingKey = "push.queue" ∧
          p.content = .push ⟨env.correlation_id, t.token, template.subject, template.body,
            requestData.vars⟩ ∧
          p.options.correlationId = some env.correlation_id) ∧
    (user.push_tokens = none ∨ user.push_tokens = some [] →
      (process_notification_request env requestData).published = [] ∧
      (process_notification_request env requestData).result
        = .returned ⟨true, "User has no push tokens; request skipped."⟩) := by
  constructor
  · intro tokens htok hch
    rw [push_run_published env requestData user template tokens hu ht htype hpref htok hch]
    refine ⟨fan_out_length env template requestData.vars tokens 0, ?_⟩
    intro j t hj
    have := fan_out_get env template requestData.vars tokens 0 j t hj
    rw [Nat.zero_add] at this
    exact ⟨_, this, rfl, rfl, rfl, rfl⟩
  · intro htok
    rw [push_run_no_token env requestData user template hu ht htype hpref htok]
    exact ⟨rfl, rfl⟩

/-- Witness of C10: `sample_push_user` has two devices; two envelopes are
published, the second one with the second token. -/
theorem push_fan_out_witness :
    (process_notification_request (sample_env sample_push_user sample_template)
        sample_request).published.length = 2 ∧
    ∃ p, (process_notification_request (sample_env sample_push_user sample_template)
          sample_request).published[1]? = some (p, false) ∧
      p.exchange = "notifications.direct" ∧ p.routingKey = "push.queue" ∧
      p.content = .push ⟨"c-1", "tok-abcdef-456", "Hello", "You have a new message",
        [("name", "Ada")]⟩ ∧
      p.options.correlationId = some "c-1" :=
  ⟨((push_fan_out (sample_env sample_push_user sample_template) sample_request sample_push_user
      sample_template rfl rfl rfl (by decide)).1 _ rfl rfl).1,
   ((push_fan_out (sample_env sample_push_user sample_template) sample_request sample_push_user
      sample_template rfl rfl rfl (by decide)).1 _ rfl rfl).2 1 ⟨"tok-abcdef-456"⟩ rfl⟩


/-- C11 (code bug). The message id of a push envelope is the correlation id
followed by the first 8 characters of the token only: for the two distinct
tokens `tok-abcdef-123` and `tok-abcdef-456` of `sample_push_user` the two
envelopes of one request carry the same `messageId`. -/
theorem push_message_ids_collide :
    sample_push_user.push_tokens = some [⟨"tok-abcdef-123"⟩, ⟨"tok-abcdef-456"⟩] ∧
    "tok-abcdef-123" ≠ "tok-abcdef-456" ∧
    published_message_ids (process_notification_request
        (sample_env sample_push_user sample_template) sample_request).published
      = [some "c-1-tok-abcd", some "c-1-tok-abcd"] := by
  decide

theorem published_tokens_fan_out (env : DispatchEnv) (template : Template)
    (vars : List (String × String)) :
    ∀ (tokens : List PushToken) (k : Nat),
    published_tokens (fan_out env template vars tokens k) = tokens.map (fun t => t.token) := by
  intro tokens
  induction tokens with
  | nil => intro k; rfl
  | cons t ts ih => intro k; simp [fan_out, published_tokens, push_envelope, ih]

theorem fan_out_answers (env : DispatchEnv) (template : Template)
    (vars : List (String × String)) :
    ∀ (tokens : List PushToken) (k : Nat),
    (fan_out env template vars tokens k).map Prod.snd
      = (List.range' k tokens.length).map env.accepted := by
  intro tokens
  induction tokens with
  | nil => intro k; rfl
  | cons t ts ih => intro k; simp [fan_out, ih, List.range'_succ]

theorem fan_out_envelopes (env : DispatchEnv) (accepted : Nat → Bool) (template : Template)
    (vars : List (String × String)) :
    ∀ (tokens : List PushToken) (k : Nat),
    (fan_out { env with accepted := accepted } template vars tokens k).map Prod.fst
      = (fan_out env template vars tokens k).map Prod.fst := by
  intro tokens
  induction tokens with
  | nil => intro k; rfl
  | cons t ts ih => intro k; simp [fan_out, ih]

/-- C12. In a PUSH fan-out over the tokens `t1..tn` (push not disabled, channel
available), whatever the broker answers to each publish: the payload tokens of
the publish calls are exactly `t1..tn`, each once and in order, the `j`-th
call gets the answer `accepted j` (the loop goes on after a refused publish),
and the envelopes published are the same for any other answers of the broker. -/
theorem push_fan_out_continues (env : DispatchEnv) (requestData : NotificationRequest)
    (user : User) (template : Template) (tokens : List PushToken)
    (hu : env.user_response = .returned (some user))
    (ht : env.template_response = .returned (some template)) (htype : template.type = "PUSH")
    (hpref : (match user.notification_preference with
      | some p => p.push_enabled
      | none => JsVal.undefined) ≠ JsVal.bool false)
    (htok : user.push_tokens = some tokens)
    (hch : get_channel env.channel env.connection = none) :
    published_tokens (process_notification_request env requestData).published
      = tokens.map (fun t => t.token) ∧
    (process_notification_request env requestData).published.map Prod.snd
      = (List.range' 0 tokens.length).map env.accepted ∧
    ∀ accepted : Nat → Bool,
      (process_notification_request { env with accepted := accepted } requestData).published.map
          Prod.fst
        = (process_notification_request env requestData).published.map Prod.fst := by
  have h := push_run_published env requestData user template tokens hu ht htype hpref htok hch
  refine ⟨?_, ?_, ?_⟩
  · rw [h]; exact published_tokens_fan_out env template requestData.vars tokens 0
  · rw [h]; exact fan_out_answers env template requestData.vars tokens 0
  · intro accepted
    rw [h, push_run_published { env with accepted := accepted } requestData user template tokens
      hu ht htype hpref htok hch]
    exact fan_out_envelopes env accepted template requestData.vars tokens 0

/-- Witness of C12: the broker accepts the first publish only; both tokens of
`sample_push_user` are published. -/
theorem push_fan_out_continues_witness :
    published_tokens (process_notification_request (sample_env sample_push_user sample_template)
        sample_request).published = ["tok-abcdef-123", "tok-abcdef-456"] ∧
    (process_notification_request (sample_env sample_push_user sample_template)
        sample_request).published.map Prod.snd = [true, false] :=
  ⟨(push_fan_out_continues (sample_env sample_push_user sample_template) sample_request
      sample_push_user sample_template _ rfl rfl rfl (by decide) rfl rfl).1,
   (push_fan_out_continues (sample_env sample_push_user sample_template) sample_request
      sample_push_user sample_template _ rfl rfl rfl (by decide) rfl rfl).2.1⟩


/-- Counterexample to C13: the broker accepts none of the two envelopes of a
PUSH dispatch; each was published once and the function throws. -/
theorem push_all_refused_throws :
    (process_notification_request (rejecting_env sample_push_user sample_template)
        sample_request).published.map Prod.snd = [false, false] ∧
    (process_notification_request (rejecting_env sample_push_user sample_template)
        sample_request).result
      = .thrown "Failed to publish any push notification messages" := by
  decide

theorem published_count_fan_out_eq_zero (env : DispatchEnv) (template : Template)
    (vars : List (String × String)) :
    ∀ (tokens : List PushToken) (k : Nat),
    published_count (fan_out env template vars tokens k) = 0 ↔
      ∀ j, j < tokens.length → env.accepted (k + j) = false := by
  intro tokens
  induction tokens with
  | nil => intro k; simp [fan_out, published_count]
  | cons t ts ih =>
    intro k
    have ih' := ih (k + 1)
    unfold published_count at ih' ⊢
    cases ha : env.accepted k
    · simp only [fan_out, List.filter_cons, ha, Bool.false_eq_true, if_false, ih',
        List.length_cons]
      constructor
      · intro h j hj
        cases j with
        | zero => simpa using ha
        | succ j =>
          have := h j (by omega)
          rw [Nat.add_assoc, Nat.add_comm 1 j] at this
          exact this
      · intro h j hj
        have := h (j + 1) (by omega)
        rw [Nat.add_assoc, Nat.add_comm 1 j]
        exact this
    · simp only [fan_out, List.filter_cons, ha, if_true, List.length_cons]
      constructor
      · intro h; omega
      · intro h
        have := h 0 (by omega)
        rw [Nat.add_zero, ha] at this
        cases this

/-- The end of a run for a PUSH template, push not disabled, at least one token
and the channel available. -/
theorem push_run_result (env : DispatchEnv) (requestData : NotificationRequest) (user : User)
    (template : Template) (t : PushToken) (ts : List PushToken)
    (hu : env.user_response = .returned (some user))
    (ht : env.template_response = .returned (some template)) (htype : template.type = "PUSH")
    (hpref : (match user.notification_preference with
      | some p => p.push_enabled
      | none => JsVal.undefined) ≠ JsVal.bool false)
    (htok : user.push_tokens = some (t :: ts))
    (hch : get_channel env.channel env.connection = none) :
    (process_notification_request env requestData).result
      = if published_count (fan_out env template requestData.vars (t :: ts) 0) > 0 then
          .returned ⟨true, "Push notifications queued successfully (" ++
            toString (published_count (fan_out env template requestData.vars (t :: ts) 0)) ++
            " device(s))."⟩
        else .thrown "Failed to publish any push notification messages" := by
  have hne : ¬ ("PUSH" = "EMAIL") := by decide
  unfold process_notification_request
  simp only [hu, ht, htype, hne, false_and, if_false, JsVal.not_false, hpref, decide_False,
    Bool.not_false, and_self, if_true, htok, hch]
  split <;> rfl

/-- C13, amended. A publish that the broker does not accept (`channel.publish`
returns `false`) is never published again: every envelope is published
exactly once. An EMAIL dispatch does not fail for it: it returns its success
result whatever the answer of the broker. A PUSH dispatch over `n ≥ 1` tokens
returns a success result when at least one of its envelopes was accepted, and
throws `Failed to publish any push notification messages` when none was. -/
theorem publish_refusals (env : DispatchEnv) (requestData : NotificationRequest) (user : User)
    (template : Template) (hu : env.user_response = .returned (some user))
    (ht : env.template_response = .returned (some template))
    (hch : get_channel env.channel env.connection = none) :
    (template.type = "EMAIL" →
      (match user.notification_preference with
        | some p => p.email_enabled
        | none => JsVal.undefined) ≠ JsVal.bool false →
      (process_notification_request env requestData).published
        = [(email_envelope env.correlation_id user template requestData.vars (env.clock 0),
            env.accepted 0)] ∧
      (process_notification_request env requestData).result
        = .returned ⟨true, "Email notification queued successfully."⟩) ∧
    (template.type = "PUSH" →
      (match user.notification_preference with
        | some p => p.push_enabled
        | none => JsVal.undefined) ≠ JsVal.bool false →
      ∀ t ts, user.push_tokens = some (t :: ts) →
        published_tokens (process_notification_request env requestData).published
          = (t :: ts).map (fun x => x.token) ∧
        ((∃ j, j < (t :: ts).length ∧ env.accepted j = true) →
          ∃ result, (process_notification_request env requestData).result = .returned result ∧
            result.success = true) ∧
        ((∀ j, j < (t :: ts).length → env.accepted j = false) →
          (process_notification_request env requestData).result
            = .thrown "Failed to publish any push notification messages")) := by
  constructor
  · intro htype hpref
    rw [email_run_enabled env requestData user template hu ht htype hpref hch]
    exact ⟨rfl, rfl⟩
  · intro htype hpref t ts htok
    have hz := published_count_fan_out_eq_zero env template requestData.vars (t :: ts) 0
    simp only [Nat.zero_add] at hz
    refine ⟨?_, ?_, ?_⟩
    · rw [push_run_published env requestData user template (t :: ts) hu ht htype hpref htok hch]
      exact published_tokens_fan_out env template requestData.vars (t :: ts) 0
    · rintro ⟨j, hj, hacc⟩
      rw [push_run_result env requestData user template t ts hu ht htype hpref htok hch]
      have hpos : published_count (fan_out env template requestData.vars (t :: ts) 0) > 0 := by
        rcases Nat.eq_zero_or_pos
          (published_count (fan_out env template requestData.vars (t :: ts) 0)) with h0 | h0
        · have := hz.mp h0 j hj
          rw [hacc] at this
          cases this
        · exact h0
      rw [if_pos hpos]
      exact ⟨_, rfl, rfl⟩
    · intro hall
      rw [push_run_result env requestData user template t ts hu ht htype hpref htok hch]
      have h0 := hz.mpr hall
      rw [if_neg (by omega)]

/-- Witness of C13 amended: the broker accepts the first of the two envelopes of
`sample_push_user`; the dispatch succeeds. -/
theorem publish_refusals_witness :
    ∃ result, (process_notification_request (sample_env sample_push_user sample_template)
        sample_request).result = .returned result ∧ result.success = true :=
  ((publish_refusals (sample_env sample_push_user sample_template) sample_request
    sample_push_user sample_template rfl rfl rfl).2 rfl (by decide) _ _ rfl).2.1
      ⟨0, by decide, rfl⟩


/-! ## The controller -/

/-- A valid body: the response and the dispatch, then the log of a thrown
error. -/
theorem send_notification_valid (body : RequestBody)
    (dispatch : RequestBody → Completion DispatchResult)
    (hvalid : (js_not body.user_id || js_not body.template_name || js_not body.vars) = false) :
    send_notification body dispatch
      = ⟨[.respond 202 ⟨true, "Notification request accepted and is being processed."⟩,
            .dispatch body] ++
          (match dispatch body with
            | .returned _ => []
            | .thrown message => [.log_error message]),
          .returned ()⟩ := by
  unfold send_notification
  rw [hvalid]
  simp

/-- A body that fails the validation: the 400 response alone. -/
theorem send_notification_invalid (body : RequestBody)
    (dispatch : RequestBody → Completion DispatchResult)
    (hinvalid : (js_not body.user_id || js_not body.template_name || js_not body.vars) = true) :
    send_notification body dispatch
      = ⟨[.respond 400 ⟨false, "user_id, template_name, and variables are required"⟩],
          .returned ()⟩ := by
  unfold send_notification
  rw [hinvalid]
  simp

/-- C14. `send_notification`, for every body that passes the validation and
whatever the dispatch does (it returns a success, it returns a
non-fulfillment, it throws): the first event is the response 202 with the
body `{success: true, message: ...}`, the call of the dispatch comes second,
nothing else is sent; the response is the same for any two behaviours of the
dispatch; and the controller itself ends normally, a thrown error being only
logged. -/
theorem send_notification_response_first (body : RequestBody)
    (dispatch : RequestBody → Completion DispatchResult)
    (hvalid : (js_not body.user_id || js_not body.template_name || js_not body.vars) = false) :
    (send_notification body dispatch).events.head?
      = some (.respond 202 ⟨true, "Notification request accepted and is being processed."⟩) ∧
    (send_notification body dispatch).events[1]? = some (.dispatch body) ∧
    (send_notification body dispatch).response
      = some (202, ⟨true, "Notification request accepted and is being processed."⟩) ∧
    (∀ status b,
      ControllerEvent.respond status b ∉ (send_notification body dispatch).events.drop 1) ∧
    (send_notification body dispatch).completion = .returned () ∧
    (∀ message, dispatch body = .thrown message →
      (send_notification body dispatch).events.drop 2 = [.log_error message]) ∧
    (∀ other : RequestBody → Completion DispatchResult,
      (send_notification body other).response = (send_notification body dispatch).response ∧
      (send_notification body other).events.take 2
        = (send_notification body dispatch).events.take 2) := by
  have h := send_notification_valid body dispatch hvalid
  refine ⟨?_, ?_, ?_, ?_, ?_, ?_, ?_⟩
  · rw [h]; rfl
  · rw [h]; simp
  · rw [h]; rfl
  · intro status b
    rw [h]
    cases dispatch body <;> simp
  · rw [h]
  · intro message hm
    rw [h, hm]; rfl
  · intro other
    rw [h, send_notification_valid body other hvalid]
    exact ⟨rfl, rfl⟩

/-- Witness of C14: the dispatch of `sample_body` throws; the caller gets the
202 response all the same. -/
theorem send_notification_response_first_witness :
    (send_notification sample_body (fun _ => .thrown "User not found in response")).response
      = some (202, ⟨true, "Notification request accepted and is being processed."⟩) ∧
    (send_notification sample_body (fun _ => .thrown "User not found in response")).completion
      = .returned () :=
  ⟨(send_notification_response_first sample_body
      (fun _ => .thrown "User not found in response") (by decide)).2.2.1,
   (send_notification_response_first sample_body
      (fun _ => .thrown "User not found in response") (by decide)).2.2.2.2.1⟩

/-- Counterexample to C15: the body of `sample_body` has an empty `variables`
object; the controller answers 202, not 400, and starts the dispatch. In the
other direction, a body whose three fields are present and not empty, with
the number 0 as `user_id`, is answered 400. -/
theorem empty_variables_accepted :
    sample_body.vars = some (.obj []) ∧
    (send_notification sample_body (fun _ => .returned ⟨true, "queued"⟩)).response
      = some (202, ⟨true, "Notification request accepted and is being processed."⟩) ∧
    (send_notification sample_body (fun _ => .returned ⟨true, "queued"⟩)).dispatched = true ∧
    (send_notification ⟨some (.num 0), some (.str "welcome"), some (.obj [("name", "Ada")])⟩
        (fun _ => .returned ⟨true, "queued"⟩)).response
      = some (400, ⟨false, "user_id, template_name, and variables are required"⟩) := by
  decide

/-- C15, amended. `send_notification` responds 400 exactly when `user_id`,
`template_name` or `variables` is falsy in the body (absent, `null`, `false`,
`0` or the empty string) and responds 202 in every other case; an object or
an array, also an empty one, is not falsy, so a body with `variables: {}` is
accepted. When it responds 400 the dispatch is not started; when it responds
202 it is. -/
theorem send_notification_validation (body : RequestBody)
    (dispatch : RequestBody → Completion DispatchResult) :
    ((send_notification body dispatch).response
        = some (400, ⟨false, "user_id, template_name, and variables are required"⟩) ↔
      (js_not body.user_id = true ∨ js_not body.template_name = true ∨
        js_not body.vars = true)) ∧
    ((send_notification body dispatch).response
        = some (202, ⟨true, "Notification request accepted and is being processed."⟩) ↔
      ¬ (js_not body.user_id = true ∨ js_not body.template_name = true ∨
        js_not body.vars = true)) ∧
    ((send_notification body dispatch).response
        = some (400, ⟨false, "user_id, template_name, and variables are required"⟩) →
      (send_notification body dispatch).dispatched = false) ∧
    ((send_notification body dispatch).response
        = some (202, ⟨true, "Notification request accepted and is being processed."⟩) →
      (send_notification body dispatch).dispatched = true) ∧
    (∀ v : Option JsonVal, js_not v = true ↔
      (v = none ∨ v = some .null ∨ v = some (.bool false) ∨ v = some (.num 0) ∨
        v = some (.str ""))) := by
  have hcases : (js_not body.user_id || js_not body.template_name || js_not body.vars) = true ↔
      (js_not body.user_id = true ∨ js_not body.template_name = true ∨
        js_not body.vars = true) := by
    simp [Bool.or_eq_true, or_assoc]
  have hjs : ∀ v : Option JsonVal, js_not v = true ↔
      (v = none ∨ v = some .null ∨ v = some (.bool false) ∨ v = some (.num 0) ∨
        v = some (.str "")) := by
    intro v
    cases v with
    | none => simp [js_not]
    | some w => cases w <;> simp [js_not]
  cases hv : (js_not body.user_id || js_not body.template_name || js_not body.vars)
  · have hno : ¬ (js_not body.user_id = true ∨ js_not body.template_name = true ∨
        js_not body.vars = true) := by
      rw [← hcases, hv]; simp
    have h := send_notification_valid body dispatch hv
    refine ⟨?_, ?_, ?_, ?_, hjs⟩
    · rw [h]
      constructor
      · intro hr; simp [ControllerRun.response, List.findSome?] at hr
      · intro hyes; exact absurd hyes hno
    · rw [h]
      constructor
      · intro _; exact hno
      · intro _; rfl
    · rw [h]
      intro hr; simp [ControllerRun.response, List.findSome?] at hr
    · rw [h]
      intro _
      simp [ControllerRun.dispatched]
  · have hyes := hcases.mp hv
    have h := send_notification_invalid body dispatch hv
    refine ⟨?_, ?_, ?_, ?_, hjs⟩
    · rw [h]
      constructor
      · intro _; exact hyes
      · intro _; rfl
    · rw [h]
      constructor
      · intro hr; simp [ControllerRun.response, List.findSome?] at hr
      · intro hno; exact absurd hyes hno
    · rw [h]
      intro _; rfl
    · rw [h]
      intro hr; simp [ControllerRun.response, List.findSome?] at hr

/-- Witness of C15 amended: `sample_bad_body` has no `template_name`; the
controller answers 400 and does not start the dispatch. -/
theorem send_notification_validation_witness :
    (send_notification sample_bad_body (fun _ => .returned ⟨true, "queued"⟩)).dispatched
      = false :=
  (send_notification_validation sample_bad_body (fun _ => .returned ⟨true, "queued"⟩)).2.2.1
    ((send_notification_validation sample_bad_body
      (fun _ => .returned ⟨true, "queued"⟩)).1.mpr (by decide))


/-- C16 (code bug). The response to a new request is 202 with
`{success: true, message: "Notification request accepted and is being
processed."}`; once it is cached under the key `k1`, the second request with
that key is answered by the guard with status 200, the message
`Request already processed (idempotent)` and the stored record as `data`. -/
theorem duplicate_reply_is_200 :
    (send_notification sample_body (fun _ => .returned ⟨true, "queued"⟩)).response
      = some (202, ⟨true, "Notification request accepted and is being processed."⟩) ∧
    (idempotency_middleware
        (res_json (fun _ => none) "k1" 5000
          ⟨true, "Notification request accepted and is being processed."⟩ false)
        (some "k1") 6000 IdemFaults.none).2
      = .respond 200
          { success := true
            message := "Request already processed (idempotent)"
            data := ⟨"completed", 5000,
              some ⟨true, "Notification request accepted and is being processed."⟩⟩
            idempotent := true } := by
  decide

/-! ## Store failures -/

/-- The count of a limiter after its purge, for any key. -/
theorem count_after_purge_at (max_requests window_ms : Nat) (store : ZStore) (key : String)
    (now : Nat) :
    zCard (zRemRangeByScore store now key 0 ((now : Int) - (window_ms : Int))) now key
      = (not_expired ⟨max_requests, window_ms⟩ now (window_entries store now key)).length := by
  rw [zCard_eq_length]
  exact congrArg List.length
    (window_entries_zRemRangeByScore ⟨max_requests, window_ms⟩ store now key)

/-- A store operation of `rate_limit_middleware` that is reached and throws
leads to `next()`. -/
theorem rate_limit_fault_next (cfg : RateLimitConfig) (store : ZStore) (client_id : String)
    (now rnd i : Nat)
    (h : fault_reached cfg.max_requests
      (not_expired cfg now (window_entries store now (rate_limit_key client_id))).length
      (some i) = true) :
    (rate_limit_middleware cfg store client_id now rnd (some i)).outcome = .next := by
  have hc := count_after_purge cfg store client_id now
  rcases i with _ | _ | _ | _ | _ | i
  · simp [rate_limit_middleware]
  · simp [rate_limit_middleware]
  · simp [rate_limit_middleware]
  · have hlt : ¬ cfg.max_requests ≤
        (not_expired cfg now (window_entries store now (rate_limit_key client_id))).length := by
      simp only [fault_reached, decide_eq_true_eq] at h; omega
    unfold rate_limit_middleware
    simp [hc, hlt]
  · have hlt : ¬ cfg.max_requests ≤
        (not_expired cfg now (window_entries store now (rate_limit_key client_id))).length := by
      simp only [fault_reached, decide_eq_true_eq] at h; omega
    unfold rate_limit_middleware
    simp [hc, hlt]
  · simp [fault_reached] at h

/-- A store operation of a limiter made by `create_rate_limiter` that is reached
and throws leads to `next()`. -/
theorem custom_limit_fault_next (max_requests window_ms : Nat) (store : ZStore)
    (client_id : String) (now rnd i : Nat)
    (h : fault_reached max_requests
      (not_expired ⟨max_requests, window_ms⟩ now
        (window_entries store now (custom_rate_limit_key client_id))).length
      (some i) = true) :
    (create_rate_limiter max_requests window_ms store client_id now rnd (some i)).outcome
      = .next := by
  have hc := count_after_purge_at max_requests window_ms store
    (custom_rate_limit_key client_id) now
  rcases i with _ | _ | _ | _ | _ | i
  · simp [create_rate_limiter]
  · simp [create_rate_limiter]
  · simp [create_rate_limiter]
  · have hlt : ¬ max_requests ≤ (not_expired ⟨max_requests, window_ms⟩ now
        (window_entries store now (custom_rate_limit_key client_id))).length := by
      simp only [fault_reached, decide_eq_true_eq] at h; omega
    unfold create_rate_limiter
    simp [hc, hlt]
  · have hlt : ¬ max_requests ≤ (not_expired ⟨max_requests, window_ms⟩ now
        (window_entries store now (custom_rate_limit_key client_id))).length := by
      simp only [fault_reached, decide_eq_true_eq] at h; omega
    unfold create_rate_limiter
    simp [hc, hlt]
  · simp [fault_reached] at h

/-- C17. Fail-open. A store operation of `rate_limit_middleware` or of a limiter
made by `create_rate_limiter` that is reached and throws (`get_redis_client`,
`zRemRangeByScore` and `zCard` always are reached, `zAdd` and `expire` when the
request is not denied) leads to `next()`: no 429 is sent. In the idempotency
guard, when the existence check fails, when the read of the record fails, or
when the write of the `processing` record is reached (no live record) and
fails, `next()` is called and no duplicate response is sent. -/
theorem store_failure_fails_open :
    (∀ (cfg : RateLimitConfig) (store : ZStore) (client_id : String) (now rnd i : Nat),
      fault_reached cfg.max_requests
        (not_expired cfg now (window_entries store now (rate_limit_key client_id))).length
        (some i) = true →
      (rate_limit_middleware cfg store client_id now rnd (some i)).outcome = .next ∧
      (rate_limit_middleware cfg store client_id now rnd (some i)).outcome.is_429 = false) ∧
    (∀ (max_requests window_ms : Nat) (store : ZStore) (client_id : String) (now rnd i : Nat),
      fault_reached max_requests
        (not_expired ⟨max_requests, window_ms⟩ now
          (window_entries store now (custom_rate_limit_key client_id))).length
        (some i) = true →
      (create_rate_limiter max_requests window_ms store client_id now rnd (some i)).outcome
        = .next ∧
      (create_rate_limiter max_requests window_ms store client_id now rnd
        (some i)).outcome.is_429 = false) ∧
    (∀ (store : IdemStore) (k : String) (now : Nat) (faults : IdemFaults),
      (faults.check_fails = true ∨ faults.get_fails = true ∨
        (faults.set_fails = true ∧ idem_lookup store now (idempotency_store_key k) = none)) →
      ∃ intercept, (idempotency_middleware store (some k) now faults).2 = .next intercept) := by
  refine ⟨?_, ?_, ?_⟩
  · intro cfg store client_id now rnd i h
    have hn := rate_limit_fault_next cfg store client_id now rnd i h
    exact ⟨hn, by rw [hn]; rfl⟩
  · intro max_requests window_ms store client_id now rnd i h
    have hn := custom_limit_fault_next max_requests window_ms store client_id now rnd i h
    exact ⟨hn, by rw [hn]; rfl⟩
  · intro store k now faults h
    by_cases hk : k = ""
    · exact ⟨none, by simp [idempotency_middleware, hk]⟩
    · refine ⟨some k, ?_⟩
      rcases h with h | h | ⟨_, h⟩
      · simp [idempotency_middleware, hk, check_idempotency_key, h]
      · simp only [idempotency_middleware, hk, if_false, get_idempotency_value, h, if_true]
        split <;> rfl
      · simp only [idempotency_middleware, hk, if_false, check_idempotency_key,
          get_idempotency_value, h]
        cases faults.check_fails <;> cases faults.get_fails <;> simp

/-- Witness of C17: the client of `sample_zstore` asks while `zCard` throws, and
a request with key `k1` comes while the existence check fails; both proceed. -/
theorem store_failure_fails_open_witness :
    (rate_limit_middleware ⟨1, 60000⟩ sample_zstore "ip:10.0.0.1" 62000 5 (some 2)).outcome
      = .next ∧
    ∃ intercept,
      (idempotency_middleware sample_idem_store (some "k1") 2000 ⟨true, false, false⟩).2
        = .next intercept :=
  ⟨(store_failure_fails_open.1 ⟨1, 60000⟩ sample_zstore "ip:10.0.0.1" 62000 5 2 rfl).1,
   store_failure_fails_open.2.2 sample_idem_store "k1" 2000 ⟨true, false, false⟩ (Or.inl rfl)⟩


/-! ## The topology -/

theorem except_bind_ok {α β : Type} (x : Except Nat α) (f : α → Except Nat β) (r : β)
    (h : x.bind f = .ok r) : ∃ a, x = .ok a ∧ f a = .ok r := by
  cases x with
  | error e => simp [Except.bind] at h
  | ok a => exact ⟨a, rfl, h⟩

theorem assertExchange_ok (b b' : Broker) (name type : String)
    (h : assertExchange b name type = .ok b') :
    b'.exchanges = Function.update b.exchanges name (some type) ∧ b'.queues = b.queues ∧
      b'.bindings = b.bindings := by
  unfold assertExchange at h
  cases hx : b.exchanges name with
  | none =>
    rw [hx] at h
    simp only [Except.ok.injEq] at h
    subst h
    exact ⟨rfl, rfl, rfl⟩
  | some t =>
    rw [hx] at h
    by_cases ht : t = type
    · simp only [ht, if_true, Except.ok.injEq] at h
      subst h
      refine ⟨?_, rfl, rfl⟩
      rw [← ht, ← hx, Function.update_eq_self]
    · simp [ht] at h

theorem assertQueue_ok (b b' : Broker) (name : String) (options : QueueOptions)
    (h : assertQueue b name options = .ok b') :
    b'.exchanges = b.exchanges ∧ b'.bindings = b.bindings ∧
      b'.queues = Function.update b.queues name
        (some ⟨options, (b.messages name).getD []⟩) := by
  unfold assertQueue at h
  cases hq : b.queues name with
  | none =>
    rw [hq] at h
    simp only [Except.ok.injEq] at h
    subst h
    refine ⟨rfl, rfl, ?_⟩
    simp [Broker.messages, hq]
  | some q =>
    rw [hq] at h
    by_cases ho : q.options = options
    · simp only [ho, if_true, Except.ok.injEq] at h
      subst h
      refine ⟨rfl, rfl, ?_⟩
      have : (some ⟨options, (b.messages name).getD []⟩ : Option QueueState) = b.queues name := by
        simp [Broker.messages, hq, ← ho]
      rw [this, Function.update_eq_self]
    · simp [ho] at h

theorem bindQueue_ok (b b' : Broker) (queue exchange routing_key : String)
    (h : bindQueue b queue exchange routing_key = .ok b') :
    b'.exchanges = b.exchanges ∧ b'.queues = b.queues ∧
      ∀ x, x ∈ b'.bindings ↔ x ∈ b.bindings ∨ x = ⟨queue, exchange, routing_key⟩ := by
  unfold bindQueue at h
  split at h
  · simp at h
  · split at h
    · rename_i hmem
      simp only [Except.ok.injEq] at h
      subst h
      refine ⟨rfl, rfl, ?_⟩
      intro x
      constructor
      · intro hx; exact Or.inl hx
      · rintro (hx | hx)
        · exact hx
        · rw [hx]; exact hmem
    · simp only [Except.ok.injEq] at h
      subst h
      refine ⟨rfl, rfl, ?_⟩
      intro x
      simp [List.mem_append]


/-- The broker after a run of `connect_rabbitmq` in which both `deleteQueue`
calls go through: its exchanges, its queues and its bindings. -/
theorem connect_rabbitmq_ok (b b' : Broker) (d : String → Bool)
    (h : connect_rabbitmq b d = .ok b') (he : d EMAIL_QUEUE = false)
    (hp : d PUSH_QUEUE = false) :
    b'.exchanges = Function.update (Function.update b.exchanges DLX_NAME (some "direct"))
        EXCHANGE_NAME (some "direct") ∧
    b'.queues = Function.update (Function.update (Function.update (Function.update
        (Function.update b.queues FAILED_QUEUE
          (some ⟨⟨true, none, none⟩, (b.messages FAILED_QUEUE).getD []⟩))
        EMAIL_QUEUE none)
        EMAIL_QUEUE (some ⟨⟨true, some DLX_NAME, some FAILED_QUEUE⟩, []⟩))
        PUSH_QUEUE none)
        PUSH_QUEUE (some ⟨⟨true, some DLX_NAME, some PUSH_QUEUE⟩, []⟩) ∧
    ∀ x, x ∈ b'.bindings ↔
      ((x ∈ b.bindings ∨ x = ⟨FAILED_QUEUE, DLX_NAME, FAILED_QUEUE⟩) ∧
        x.queue ≠ EMAIL_QUEUE ∧ x.queue ≠ PUSH_QUEUE) ∨
      x = ⟨EMAIL_QUEUE, EXCHANGE_NAME, EMAIL_QUEUE⟩ ∨
      x = ⟨PUSH_QUEUE, EXCHANGE_NAME, PUSH_QUEUE⟩ ∨
      x = ⟨FAILED_QUEUE, DLX_NAME, PUSH_QUEUE⟩ := by
  unfold connect_rabbitmq at h
  obtain ⟨b1, h1, h⟩ := except_bind_ok _ _ _ h
  obtain ⟨b2, h2, h⟩ := except_bind_ok _ _ _ h
  obtain ⟨b3, h3, h⟩ := except_bind_ok _ _ _ h
  obtain ⟨b4, h4, h⟩ := except_bind_ok _ _ _ h
  simp only [he, hp, Bool.false_eq_true, if_false] at h
  obtain ⟨b6, h6, h⟩ := except_bind_ok _ _ _ h
  obtain ⟨b8, h8, h⟩ := except_bind_ok _ _ _ h
  obtain ⟨b9, h9, h⟩ := except_bind_ok _ _ _ h
  obtain ⟨b10, h10, h⟩ := except_bind_ok _ _ _ h
  obtain ⟨x1, q1, g1⟩ := assertExchange_ok _ _ _ _ h1
  obtain ⟨x2, q2, g2⟩ := assertExchange_ok _ _ _ _ h2
  obtain ⟨x3, g3, q3⟩ := assertQueue_ok _ _ _ _ h3
  obtain ⟨x4, q4, g4⟩ := bindQueue_ok _ _ _ _ _ h4
  obtain ⟨x6, g6, q6⟩ := assertQueue_ok _ _ _ _ h6
  obtain ⟨x8, g8, q8⟩ := assertQueue_ok _ _ _ _ h8
  obtain ⟨x9, q9, g9⟩ := bindQueue_ok _ _ _ _ _ h9
  obtain ⟨x10, q10, g10⟩ := bindQueue_ok _ _ _ _ _ h10
  obtain ⟨x11, q11, g11⟩ := bindQueue_ok _ _ _ _ _ h
  have m3 : b2.messages FAILED_QUEUE = b.messages FAILED_QUEUE := by
    simp only [Broker.messages, q2, q1]
  have m6 : (deleteQueue b4 EMAIL_QUEUE).messages EMAIL_QUEUE = none := by
    simp [Broker.messages, deleteQueue]
  have m8 : (deleteQueue b6 PUSH_QUEUE).messages PUSH_QUEUE = none := by
    simp [Broker.messages, deleteQueue]
  refine ⟨?_, ?_, ?_⟩
  · rw [x11, x10, x9, x8]
    show b6.exchanges = _
    rw [x6]
    show b4.exchanges = _
    rw [x4, x3, x2, x1]
  · rw [q11, q10, q9, q8, m8]
    show Function.update (Function.update b6.queues PUSH_QUEUE none) PUSH_QUEUE _ = _
    rw [q6, m6]
    show Function.update (Function.update (Function.update
      (Function.update b4.queues EMAIL_QUEUE none) EMAIL_QUEUE _) PUSH_QUEUE none) PUSH_QUEUE _ = _
    rw [q4, q3, m3, q2, q1]
    rfl
  · intro x
    have d8 : (deleteQueue b6 PUSH_QUEUE).bindings
        = b6.bindings.filter (fun y => decide (y.queue ≠ PUSH_QUEUE)) := rfl
    have d6 : (deleteQueue b4 EMAIL_QUEUE).bindings
        = b4.bindings.filter (fun y => decide (y.queue ≠ EMAIL_QUEUE)) := rfl
    rw [g11, g10, g9, g8, d8, g6, d6]
    simp only [List.mem_filter, decide_eq_true_eq, g4, g3, g2, g1]
    tauto


theorem mem_route (b : Broker) (exchange routing_key t : String) :
    t ∈ route b exchange routing_key ↔
      b.exchanges exchange = some "direct" ∧
      ∃ x ∈ b.bindings, x.exchange = exchange ∧ x.routing_key = routing_key ∧ x.queue = t := by
  unfold route
  by_cases h : b.exchanges exchange = some "direct"
  · simp only [h, if_true, List.mem_map, List.mem_filter, Bool.and_eq_true, decide_eq_true_eq,
      true_and]
    constructor
    · rintro ⟨x, ⟨hx, he, hk⟩, hq⟩; exact ⟨x, hx, he, hk, hq⟩
    · rintro ⟨x, hx, he, hk, hq⟩; exact ⟨x, ⟨hx, he, hk⟩, hq⟩
  · simp [h]

/-- The exchanges and queues of the broker after a run of `connect_rabbitmq` in
which both `deleteQueue` calls go through. -/
theorem connect_rabbitmq_declared (b b' : Broker) (d : String → Bool)
    (h : connect_rabbitmq b d = .ok b') (he : d EMAIL_QUEUE = false)
    (hp : d PUSH_QUEUE = false) :
    b'.exchanges DLX_NAME = some "direct" ∧ b'.exchanges EXCHANGE_NAME = some "direct" ∧
    b'.queues EMAIL_QUEUE = some ⟨⟨true, some DLX_NAME, some FAILED_QUEUE⟩, []⟩ ∧
    b'.queues PUSH_QUEUE = some ⟨⟨true, some DLX_NAME, some PUSH_QUEUE⟩, []⟩ ∧
    b'.queues FAILED_QUEUE = some ⟨⟨true, none, none⟩, (b.messages FAILED_QUEUE).getD []⟩ := by
  obtain ⟨hx, hq, _⟩ := connect_rabbitmq_ok b b' d h he hp
  have n1 : DLX_NAME ≠ EXCHANGE_NAME := by decide
  have n2 : EMAIL_QUEUE ≠ PUSH_QUEUE := by decide
  have n3 : FAILED_QUEUE ≠ PUSH_QUEUE := by decide
  have n4 : FAILED_QUEUE ≠ EMAIL_QUEUE := by decide
  refine ⟨?_, ?_, ?_, ?_, ?_⟩
  · rw [hx, Function.update_noteq n1, Function.update_same]
  · rw [hx, Function.update_same]
  · rw [hq, Function.update_noteq n2, Function.update_noteq n2, Function.update_same]
  · rw [hq, Function.update_same]
  · rw [hq, Function.update_noteq n3, Function.update_noteq n3, Function.update_noteq n4,
      Function.update_noteq n4, Function.update_same]

/-- C18. In the topology declared by `connect_rabbitmq`, each content queue
(`email.queue`, `push.queue`) has the dead-letter exchange `notifications.dlx`
and `failed.queue` is bound to that exchange with the dead-letter routing key
of the content queue (`failed.queue` for `email.queue`, `push.queue` for
`push.queue`); a message rejected without requeue from a content queue is
routed to `failed.queue` and to no content queue. On a new broker the run
succeeds and `failed.queue` is the only destination. -/
theorem dead_letter_topology :
    ((connect_rabbitmq Broker.empty (fun _ => false)).toOption.map
        (fun b => (dead_letter_route b "email.queue" "email.queue",
          dead_letter_route b "push.queue" "push.queue"))
      = some (["failed.queue"], ["failed.queue"])) ∧
    (∀ (b b' : Broker) (d : String → Bool), connect_rabbitmq b d = .ok b' →
      d EMAIL_QUEUE = false → d PUSH_QUEUE = false →
      ∀ q, q = "email.queue" ∨ q = "push.queue" →
        (∃ k, b'.options q = some ⟨true, some "notifications.dlx", some k⟩ ∧
          (⟨"failed.queue", "notifications.dlx", k⟩ : Binding) ∈ b'.bindings) ∧
        ∀ routing_key,
          "failed.queue" ∈ dead_letter_route b' q routing_key ∧
          "email.queue" ∉ dead_letter_route b' q routing_key ∧
          "push.queue" ∉ dead_letter_route b' q routing_key) := by
  constructor
  · decide
  · intro b b' d h he hp q hq
    obtain ⟨_, _, hb⟩ := connect_rabbitmq_ok b b' d h he hp
    obtain ⟨hdlx, _, hqe, hqp, _⟩ := connect_rabbitmq_declared b b' d h he hp
    have bff : (⟨"failed.queue", "notifications.dlx", "failed.queue"⟩ : Binding) ∈ b'.bindings :=
      (hb _).mpr (Or.inl ⟨Or.inr rfl, by decide, by decide⟩)
    have bfp : (⟨"failed.queue", "notifications.dlx", "push.queue"⟩ : Binding) ∈ b'.bindings :=
      (hb _).mpr (Or.inr (Or.inr (Or.inr rfl)))
    have hnone : ∀ x ∈ b'.bindings, x.exchange = "notifications.dlx" →
        x.queue ≠ "email.queue" ∧ x.queue ≠ "push.queue" := by
      intro x hx hex
      rcases (hb x).mp hx with ⟨_, h1, h2⟩ | h1 | h1 | h1
      · exact ⟨h1, h2⟩
      · rw [h1] at hex; exact absurd hex (by decide)
      · rw [h1] at hex; exact absurd hex (by decide)
      · rw [h1]; exact ⟨by decide, by decide⟩
    have hroute : ∀ k, (⟨"failed.queue", "notifications.dlx", k⟩ : Binding) ∈ b'.bindings →
        "failed.queue" ∈ route b' "notifications.dlx" k ∧
        "email.queue" ∉ route b' "notifications.dlx" k ∧
        "push.queue" ∉ route b' "notifications.dlx" k := by
      intro k hk
      refine ⟨(mem_route _ _ _ _).mpr ⟨hdlx, _, hk, rfl, rfl, rfl⟩, ?_, ?_⟩
      · intro hm
        obtain ⟨_, x, hx, hex, _, hxq⟩ := (mem_route _ _ _ _).mp hm
        exact (hnone x hx hex).1 hxq
      · intro hm
        obtain ⟨_, x, hx, hex, _, hxq⟩ := (mem_route _ _ _ _).mp hm
        exact (hnone x hx hex).2 hxq
    rcases hq with rfl | rfl
    · refine ⟨⟨"failed.queue", ?_, bff⟩, ?_⟩
      · show (b'.queues EMAIL_QUEUE).map _ = _
        rw [hqe]; rfl
      · intro routing_key
        have : dead_letter_route b' "email.queue" routing_key
            = route b' "notifications.dlx" "failed.queue" := by
          show dead_letter_route b' EMAIL_QUEUE routing_key = _
          unfold dead_letter_route
          rw [hqe]; rfl
        rw [this]
        exact hroute _ bff
    · refine ⟨⟨"push.queue", ?_, bfp⟩, ?_⟩
      · show (b'.queues PUSH_QUEUE).map _ = _
        rw [hqp]; rfl
      · intro routing_key
        have : dead_letter_route b' "push.queue" routing_key
            = route b' "notifications.dlx" "push.queue" := by
          show dead_letter_route b' PUSH_QUEUE routing_key = _
          unfold dead_letter_route
          rw [hqp]; rfl
        rw [this]
        exact hroute _ bfp

/-- Witness of C18: the run on `sample_broker` succeeds; a message rejected from
`push.queue` goes to `failed.queue`. -/
theorem dead_letter_topology_witness :
    ∃ b', connect_rabbitmq sample_broker (fun _ => false) = .ok b' ∧
      "failed.queue" ∈ dead_letter_route b' "push.queue" "push.queue" ∧
      "push.queue" ∉ dead_letter_route b' "push.queue" "push.queue" :=
  ⟨_, rfl,
    ((dead_letter_topology.2 sample_broker _ (fun _ => false) rfl rfl rfl "push.queue"
      (Or.inr rfl)).2 "push.queue").1,
    ((dead_letter_topology.2 sample_broker _ (fun _ => false) rfl rfl rfl "push.queue"
      (Or.inr rfl)).2 "push.queue").2.2⟩


theorem fan_out_shape (env : DispatchEnv) (template : Template) (vars : List (String × String)) :
    ∀ (tokens : List PushToken) (k : Nat), ∀ c ∈ fan_out env template vars tokens k,
    c.1.exchange = EXCHANGE_NAME ∧ c.1.routingKey = PUSH_QUEUE ∧ ∃ m, c.1.content = .push m := by
  intro tokens
  induction tokens with
  | nil => intro k c hc; simp [fan_out] at hc
  | cons t ts ih =>
    intro k c hc
    simp only [fan_out, List.mem_cons] at hc
    rcases hc with h | h
    · rw [h]; exact ⟨rfl, rfl, _, rfl⟩
    · exact ih (k + 1) c h

/-- The publish calls of a run of `process_notification_request`: none, the one
email envelope, or the calls of the loop over the tokens. -/
theorem published_cases (env : DispatchEnv) (requestData : NotificationRequest) :
    (process_notification_request env requestData).published = [] ∨
    (∃ user template, (process_notification_request env requestData).published
      = [(email_envelope env.correlation_id user template requestData.vars (env.clock 0),
          env.accepted 0)]) ∨
    (∃ template tokens, (process_notification_request env requestData).published
      = fan_out env template requestData.vars tokens 0) := by
  unfold process_notification_request
  cases env.user_response with
  | thrown e => exact Or.inl rfl
  | returned u =>
    cases u with
    | none => exact Or.inl rfl
    | some user =>
      cases env.template_response with
      | thrown e => exact Or.inl rfl
      | returned t =>
        cases t with
        | none => exact Or.inl rfl
        | some template =>
          dsimp only
          split
          · split
            · exact Or.inl rfl
            · exact Or.inr (Or.inl ⟨_, _, rfl⟩)
          · split
            · split
              · exact Or.inl rfl
              · exact Or.inl rfl
              · split
                · exact Or.inl rfl
                · split
                  · exact Or.inr (Or.inr ⟨_, _, rfl⟩)
                  · exact Or.inr (Or.inr ⟨_, _, rfl⟩)
            · exact Or.inl rfl

/-- Every envelope published by `process_notification_request` goes to the main
exchange, an email payload with the routing key `email.queue` and a push
payload with the routing key `push.queue`. -/
theorem published_shape (env : DispatchEnv) (requestData : NotificationRequest) :
    ∀ c ∈ (process_notification_request env requestData).published,
    c.1.exchange = EXCHANGE_NAME ∧
    (((∃ m, c.1.content = .email m) ∧ c.1.routingKey = EMAIL_QUEUE) ∨
      ((∃ m, c.1.content = .push m) ∧ c.1.routingKey = PUSH_QUEUE)) := by
  intro c hc
  rcases published_cases env requestData with h | ⟨user, template, h⟩ | ⟨template, tokens, h⟩
  · rw [h] at hc; simp at hc
  · rw [h] at hc
    simp only [List.mem_singleton] at hc
    rw [hc]
    exact ⟨rfl, Or.inl ⟨⟨_, rfl⟩, rfl⟩⟩
  · rw [h] at hc
    obtain ⟨h1, h2, h3⟩ := fan_out_shape _ _ _ _ _ c hc
    exact ⟨h1, Or.inr ⟨h3, h2⟩⟩

/-- What the worker does with a message whose handling succeeds. -/
theorem consume_success (env : WorkerEnv) (msg : Message) (r : Nat)
    (hr : read_retry_count msg = some r)
    (hfine : (if msg.content.parses then env.delivery else some env.parse_error) = none) :
    consume env msg = some [.ack] := by
  unfold consume
  simp only [hr, hfine]

/-- Every envelope published by the push worker goes to the main exchange with
the routing key `push.queue`. -/
theorem consume_publishes_shape (env : WorkerEnv) (msg : Message) (actions : List Action)
    (h : consume env msg = some actions) :
    ∀ p ∈ publishes actions, p.exchange = EXCHANGE_NAME ∧ p.routingKey = PUSH_QUEUE := by
  intro p hp
  cases hr : read_retry_count msg with
  | none => simp [consume, hr] at h
  | some r =>
    cases hf : (if msg.content.parses then env.delivery else some env.parse_error) with
    | none =>
      rw [consume_success env msg r hr hf] at h
      simp only [Option.some.injEq] at h
      subst h
      simp [publishes] at hp
    | some err =>
      obtain ⟨pcid, hc⟩ := consume_failure env msg r err hr hf
      rw [hc] at h
      split at h
      · simp only [Option.some.injEq] at h
        subst h
        simp only [publishes, List.mem_singleton] at hp
        rw [hp]
        exact ⟨rfl, rfl⟩
      · simp only [Option.some.injEq] at h
        subst h
        simp [publishes] at hp

/-- The routes of the main exchange after a run of `connect_rabbitmq` in which
both `deleteQueue` calls go through. -/
theorem main_routes (b b' : Broker) (d : String → Bool)
    (h : connect_rabbitmq b d = .ok b') (he : d EMAIL_QUEUE = false)
    (hp : d PUSH_QUEUE = false) :
    (∀ x ∈ b'.bindings, x.queue = EMAIL_QUEUE ∨ x.queue = PUSH_QUEUE →
      x.exchange = EXCHANGE_NAME ∧ x.routing_key = x.queue) ∧
    EMAIL_QUEUE ∈ route b' EXCHANGE_NAME EMAIL_QUEUE ∧
    PUSH_QUEUE ∉ route b' EXCHANGE_NAME EMAIL_QUEUE ∧
    PUSH_QUEUE ∈ route b' EXCHANGE_NAME PUSH_QUEUE ∧
    EMAIL_QUEUE ∉ route b' EXCHANGE_NAME PUSH_QUEUE := by
  obtain ⟨_, _, hb⟩ := connect_rabbitmq_ok b b' d h he hp
  obtain ⟨_, hmain, _, _, _⟩ := connect_rabbitmq_declared b b' d h he hp
  have hcontent : ∀ x ∈ b'.bindings, x.queue = EMAIL_QUEUE ∨ x.queue = PUSH_QUEUE →
      x.exchange = EXCHANGE_NAME ∧ x.routing_key = x.queue := by
    intro x hx hq
    rcases (hb x).mp hx with ⟨_, h1, h2⟩ | h1 | h1 | h1
    · rcases hq with hq | hq
      · exact absurd hq h1
      · exact absurd hq h2
    · rw [h1]; exact ⟨rfl, rfl⟩
    · rw [h1]; exact ⟨rfl, rfl⟩
    · rw [h1] at hq
      rcases hq with hq | hq
      · exact absurd hq (by decide)
      · exact absurd hq (by decide)
  refine ⟨hcontent, ?_, ?_, ?_, ?_⟩
  · exact (mem_route _ _ _ _).mpr ⟨hmain, _, (hb _).mpr (Or.inr (Or.inl rfl)), rfl, rfl, rfl⟩
  · intro hm
    obtain ⟨_, x, hx, _, hk, hq⟩ := (mem_route _ _ _ _).mp hm
    have := (hcontent x hx (Or.inr hq)).2
    rw [hk, hq] at this
    exact absurd this (by decide)
  · exact (mem_route _ _ _ _).mpr
      ⟨hmain, _, (hb _).mpr (Or.inr (Or.inr (Or.inl rfl))), rfl, rfl, rfl⟩
  · intro hm
    obtain ⟨_, x, hx, _, hk, hq⟩ := (mem_route _ _ _ _).mp hm
    have := (hcontent x hx (Or.inl hq)).2
    rw [hk, hq] at this
    exact absurd this (by decide)

/-- C19. After `connect_rabbitmq` each content queue is bound to the main
exchange `notifications.direct` with its own name as routing key, and a
content queue has no other binding. Every envelope published by the gateway
goes to that exchange, an email payload with routing key `email.queue` and a
push payload with routing key `push.queue`, and every envelope republished
by the push worker goes there with routing key `push.queue`. So an EMAIL
envelope reaches `email.queue` and not `push.queue`, and a PUSH envelope
reaches `push.queue` and not `email.queue`; on a new broker these are the only
destinations. -/
theorem main_exchange_routing :
    ((connect_rabbitmq Broker.empty (fun _ => false)).toOption.map
        (fun b => (route b "notifications.direct" "email.queue",
          route b "notifications.direct" "push.queue"))
      = some (["email.queue"], ["push.queue"])) ∧
    (∀ (b b' : Broker) (d : String → Bool), connect_rabbitmq b d = .ok b' →
      d EMAIL_QUEUE = false → d PUSH_QUEUE = false →
      (⟨"email.queue", "notifications.direct", "email.queue"⟩ : Binding) ∈ b'.bindings ∧
      (⟨"push.queue", "notifications.direct", "push.queue"⟩ : Binding) ∈ b'.bindings ∧
      (∀ x ∈ b'.bindings, x.queue = "email.queue" ∨ x.queue = "push.queue" →
        x.exchange = "notifications.direct" ∧ x.routing_key = x.queue) ∧
      (∀ (env : DispatchEnv) (requestData : NotificationRequest),
        ∀ c ∈ (process_notification_request env requestData).published,
          ((∃ m, c.1.content = .email m) ∧
            "email.queue" ∈ route b' c.1.exchange c.1.routingKey ∧
            "push.queue" ∉ route b' c.1.exchange c.1.routingKey) ∨
          ((∃ m, c.1.content = .push m) ∧
            "push.queue" ∈ route b' c.1.exchange c.1.routingKey ∧
            "email.queue" ∉ route b' c.1.exchange c.1.routingKey)) ∧
      (∀ (env : WorkerEnv) (msg : Message) (actions : List Action),
        consume env msg = some actions → ∀ p ∈ publishes actions,
          "push.queue" ∈ route b' p.exchange p.routingKey ∧
          "email.queue" ∉ route b' p.exchange p.routingKey)) ∧
    (∀ (env : DispatchEnv) (requestData : NotificationRequest),
      ∀ c ∈ (process_notification_request env requestData).published,
        c.1.exchange = "notifications.direct" ∧
        (((∃ m, c.1.content = .email m) ∧ c.1.routingKey = "email.queue") ∨
          ((∃ m, c.1.content = .push m) ∧ c.1.routingKey = "push.queue"))) ∧
    (∀ (env : WorkerEnv) (msg : Message) (actions : List Action),
      consume env msg = some actions → ∀ p ∈ publishes actions,
        p.exchange = "notifications.direct" ∧ p.routingKey = "push.queue") := by
  refine ⟨by decide, ?_, published_shape, consume_publishes_shape⟩
  intro b b' d h he hp
  obtain ⟨_, _, hb⟩ := connect_rabbitmq_ok b b' d h he hp
  obtain ⟨hcontent, r1, r2, r3, r4⟩ := main_routes b b' d h he hp
  refine ⟨(hb _).mpr (Or.inr (Or.inl rfl)), (hb _).mpr (Or.inr (Or.inr (Or.inl rfl))),
    hcontent, ?_, ?_⟩
  · intro env requestData c hc
    obtain ⟨hex, hkind⟩ := published_shape env requestData c hc
    rcases hkind with ⟨hm, hk⟩ | ⟨hm, hk⟩
    · left
      rw [hex, hk]
      exact ⟨hm, r1, r2⟩
    · right
      rw [hex, hk]
      exact ⟨hm, r3, r4⟩
  · intro env msg actions hcons p hpub
    obtain ⟨hex, hk⟩ := consume_publishes_shape env msg actions hcons p hpub
    rw [hex, hk]
    exact ⟨r3, r4⟩

/-- Witness of C19: on the broker set up from `sample_broker`, the envelope
republished for `sample_retried_message` reaches `push.queue` and not
`email.queue`. -/
theorem main_exchange_routing_witness :
    ∃ b' actions, connect_rabbitmq sample_broker (fun _ => false) = .ok b' ∧
      consume failing_env sample_retried_message = some actions ∧
      ∀ p ∈ publishes actions,
        "push.queue" ∈ route b' p.exchange p.routingKey ∧
        "email.queue" ∉ route b' p.exchange p.routingKey :=
  ⟨_, _, rfl, rfl,
    (main_exchange_routing.2.1 sample_broker _ (fun _ => false) rfl rfl rfl).2.2.2.2
      failing_env sample_retried_message _ rfl⟩

/-- Counterexample to C20: in `sample_broker` the queue `email.queue` exists with
exactly the options that `connect_rabbitmq` declares and holds one message;
after the run the queue has the same options and no message. -/
theorem compatible_queue_is_emptied :
    sample_broker.options "email.queue"
      = some ⟨true, some "notifications.dlx", some "failed.queue"⟩ ∧
    sample_broker.messages "email.queue" = some [sample_push_message] ∧
    (connect_rabbitmq sample_broker (fun _ => false)).toOption.bind
        (fun b => b.options "email.queue")
      = some ⟨true, some "notifications.dlx", some "failed.queue"⟩ ∧
    (connect_rabbitmq sample_broker (fun _ => false)).toOption.bind
        (fun b => b.messages "email.queue")
      = some [] := by
  decide

/-- C20, amended. `connect_rabbitmq` calls `deleteQueue` on each content queue
before it declares it, without looking at the arguments of the existing
queue: when the two delete calls go through, after the run `email.queue` and
`push.queue` exist with the declared dead-letter arguments and hold no
message, whatever they held and whatever their arguments were before;
`failed.queue`, which is never deleted, keeps its messages. -/
theorem connect_rabbitmq_recreates (b b' : Broker) (d : String → Bool)
    (h : connect_rabbitmq b d = .ok b') (he : d EMAIL_QUEUE = false)
    (hp : d PUSH_QUEUE = false) :
    b'.messages "email.queue" = some [] ∧ b'.messages "push.queue" = some [] ∧
    b'.options "email.queue" = some ⟨true, some "notifications.dlx", some "failed.queue"⟩ ∧
    b'.options "push.queue" = some ⟨true, some "notifications.dlx", some "push.queue"⟩ ∧
    b'.messages "failed.queue" = some ((b.messages "failed.queue").getD []) := by
  obtain ⟨_, _, hqe, hqp, hqf⟩ := connect_rabbitmq_declared b b' d h he hp
  have e1 : b'.queues "email.queue" = _ := hqe
  have e2 : b'.queues "push.queue" = _ := hqp
  have e3 : b'.queues "failed.queue" = _ := hqf
  simp only [Broker.messages, Broker.options] at e3 ⊢
  rw [e1, e2, e3]
  exact ⟨rfl, rfl, rfl, rfl, rfl⟩

/-- Witness of C20 amended: the run on `sample_broker`. -/
theorem connect_rabbitmq_recreates_witness :
    ∃ b', connect_rabbitmq sample_broker (fun _ => false) = .ok b' ∧
      b'.messages "email.queue" = some [] ∧
      b'.messages "failed.queue" = some [sample_retried_message] :=
  ⟨_, rfl,
    (connect_rabbitmq_recreates sample_broker _ (fun _ => false) rfl rfl rfl).1,
    (connect_rabbitmq_recreates sample_broker _ (fun _ => false) rfl rfl rfl).2.2.2.2⟩


/-! ## The circuit breaker -/

/-- While the breaker is open and the reset timeout has not elapsed, no call is
attempted and the state does not change. -/
theorem breaker_fires_open (o : BreakerOptions) (s : BreakerState) (h : s.mode = .OPEN) :
    ∀ times : List Nat, (∀ t ∈ times, t < s.opened_at + o.resetTimeout) →
    breaker_fires o s times = List.replicate times.length false := by
  intro times
  induction times with
  | nil => intro _; rfl
  | cons t rest ih =>
    intro hlt
    have ht := hlt t (List.mem_cons_self _ _)
    have hf : breaker_fire o s t = (s, false) := by
      unfold breaker_fire
      rw [h]
      simp only
      rw [if_neg (by omega)]
    simp only [breaker_fires, hf, List.length_cons, List.replicate_succ,
      ih (fun u hu => hlt u (List.mem_cons_of_mem _ hu))]

/-- While the probe of a half-open breaker is under way no other call is
attempted. -/
theorem breaker_fires_probing (o : BreakerOptions) (s : BreakerState) (h : s.mode = .HALF_OPEN)
    (hp : s.probe_in_flight = true) :
    ∀ times : List Nat, breaker_fires o s times = List.replicate times.length false := by
  intro times
  induction times with
  | nil => rfl
  | cons t rest ih =>
    have hf : breaker_fire o s t = (s, false) := by
      unfold breaker_fire
      rw [h]
      simp only [hp, if_true]
    simp only [breaker_fires, hf, List.length_cons, List.replicate_succ, ih]

/-- C21. For a breaker with the options of `createHttpCircuitBreaker` (error
threshold 50 %, rolling window 10 s in 10 buckets, call timeout 5 s, reset
timeout 30 s), in the state machine modelled from the spec: a completion
that brings the failure percentage of the rolling window above the threshold
opens the breaker and stamps the time; while it is open, every call started
less than 30000 ms after the opening fails at once, the wrapped call not
being attempted; the first call started 30000 ms or more after the opening
is attempted as the probe of the half-open mode, and no other call is
attempted while the probe is under way; a successful probe closes the breaker
and empties the window; a failed probe opens the breaker again, with a new
opening time. -/
theorem breaker_cycle (serviceName : String) :
    (createHttpCircuitBreaker serviceName).errorThresholdPercentage = 50 ∧
    (createHttpCircuitBreaker serviceName).rollingCountTimeout = 10000 ∧
    (createHttpCircuitBreaker serviceName).timeout = 5000 ∧
    (createHttpCircuitBreaker serviceName).resetTimeout = 30000 ∧
    (∀ (s : BreakerState) (now : Nat) (failed : Bool), s.mode = .CLOSED →
      exceeds_threshold (createHttpCircuitBreaker serviceName)
        (trailing_window (createHttpCircuitBreaker serviceName) ((now, failed) :: s.window) now)
        = true →
      (breaker_settle (createHttpCircuitBreaker serviceName) s now failed).mode = .OPEN ∧
      (breaker_settle (createHttpCircuitBreaker serviceName) s now failed).opened_at = now) ∧
    (∀ (s : BreakerState) (times : List Nat), s.mode = .OPEN →
      (∀ t ∈ times, t < s.opened_at + 30000) →
      breaker_fires (createHttpCircuitBreaker serviceName) s times
        = List.replicate times.length false) ∧
    (∀ (s : BreakerState) (now : Nat) (later : List Nat), s.mode = .OPEN →
      s.opened_at + 30000 ≤ now →
      (breaker_fire (createHttpCircuitBreaker serviceName) s now).2 = true ∧
      (breaker_fire (createHttpCircuitBreaker serviceName) s now).1.mode = .HALF_OPEN ∧
      breaker_fires (createHttpCircuitBreaker serviceName)
          (breaker_fire (createHttpCircuitBreaker serviceName) s now).1 later
        = List.replicate later.length false) ∧
    (∀ (s : BreakerState) (now : Nat), s.mode = .HALF_OPEN →
      (breaker_settle (createHttpCircuitBreaker serviceName) s now false).mode = .CLOSED ∧
      (breaker_settle (createHttpCircuitBreaker serviceName) s now false).window = [] ∧
      (breaker_fire (createHttpCircuitBreaker serviceName)
        (breaker_settle (createHttpCircuitBreaker serviceName) s now false) now).2 = true) ∧
    (∀ (s : BreakerState) (now : Nat) (times : List Nat), s.mode = .HALF_OPEN →
      (breaker_settle (createHttpCircuitBreaker serviceName) s now true).mode = .OPEN ∧
      (breaker_settle (createHttpCircuitBreaker serviceName) s now true).opened_at = now ∧
      ((∀ t ∈ times, t < now + 30000) →
        breaker_fires (createHttpCircuitBreaker serviceName)
            (breaker_settle (createHttpCircuitBreaker serviceName) s now true) times
          = List.replicate times.length false)) := by
  refine ⟨rfl, rfl, rfl, rfl, ?_, ?_, ?_, ?_, ?_⟩
  · intro s now failed hm hex
    unfold breaker_settle
    rw [hm]
    simp only [hex, if_true, and_self]
  · intro s times hm hlt
    exact breaker_fires_open _ s hm times hlt
  · intro s now later hm hnow
    have hf : breaker_fire (createHttpCircuitBreaker serviceName) s now
        = ({ s with mode := .HALF_OPEN, probe_in_flight := true }, true) := by
      have hnow2 : s.opened_at + (createHttpCircuitBreaker serviceName).resetTimeout ≤ now :=
        hnow
      unfold breaker_fire
      rw [hm]
      simp only
      rw [if_pos hnow2]
    rw [hf]
    exact ⟨rfl, rfl, breaker_fires_probing _ _ rfl rfl later⟩
  · intro s now hm
    unfold breaker_settle
    rw [hm]
    exact ⟨rfl, rfl, rfl⟩
  · intro s now times hm
    have hs : breaker_settle (createHttpCircuitBreaker serviceName) s now true
        = { s with mode := .OPEN, opened_at := now, probe_in_flight := false } := by
      unfold breaker_settle
      rw [hm]
      rfl
    rw [hs]
    exact ⟨rfl, rfl, fun hlt => breaker_fires_open _ _ rfl times hlt⟩

/-- Witness of C21: the third failure recorded by `sample_breaker` at 20000 ms
brings the failure percentage to 75 %: the breaker opens, and calls at 20001,
35000 and 49999 ms are not attempted. -/
theorem breaker_cycle_witness :
    (breaker_settle (createHttpCircuitBreaker "UserService") sample_breaker 20000 true).mode
      = .OPEN ∧
    breaker_fires (createHttpCircuitBreaker "UserService")
        (breaker_settle (createHttpCircuitBreaker "UserService") sample_breaker 20000 true)
        [20001, 35000, 49999]
      = List.replicate 3 false :=
  ⟨((breaker_cycle "UserService").2.2.2.2.1 sample_breaker 20000 true rfl (by decide)).1,
   (breaker_cycle "UserService").2.2.2.2.2.1
      (breaker_settle (createHttpCircuitBreaker "UserService") sample_breaker 20000 true)
      [20001, 35000, 49999] (by decide) (by decide)⟩


/-! ## The two limiters, key by key -/

theorem zRemRangeByScore_at (store1 store2 : ZStore) (now : Nat) (key1 key2 : String)
    (min max : Int) (h : store1 key1 = store2 key2) :
    (zRemRangeByScore store1 now key1 min max) key1
      = (zRemRangeByScore store2 now key2 min max) key2 := by
  simp only [zRemRangeByScore, Function.update_same, h]

theorem zCard_at (store1 store2 : ZStore) (now : Nat) (key1 key2 : String)
    (h : store1 key1 = store2 key2) : zCard store1 now key1 = zCard store2 now key2 := by
  simp only [zCard, h]

theorem zAdd_at (store1 store2 : ZStore) (now : Nat) (key1 key2 : String) (score : Nat)
    (value : RequestId) (h : store1 key1 = store2 key2) :
    (zAdd store1 now key1 score value) key1 = (zAdd store2 now key2 score value) key2 := by
  simp only [zAdd, Function.update_same, h]

theorem expire_at_key (store1 store2 : ZStore) (now : Nat) (key1 key2 : String) (seconds : Nat)
    (h : store1 key1 = store2 key2) :
    (expire store1 now key1 seconds) key1 = (expire store2 now key2 seconds) key2 := by
  simp only [expire, Function.update_same, h]

theorem zRemRangeByScore_frame (store : ZStore) (now : Nat) (key k : String) (min max : Int)
    (h : k ≠ key) : (zRemRangeByScore store now key min max) k = store k := by
  simp only [zRemRangeByScore, Function.update_noteq h]

theorem zAdd_frame (store : ZStore) (now : Nat) (key k : String) (score : Nat)
    (value : RequestId) (h : k ≠ key) : (zAdd store now key score value) k = store k := by
  simp only [zAdd, Function.update_noteq h]

theorem expire_frame (store : ZStore) (now : Nat) (key k : String) (seconds : Nat)
    (h : k ≠ key) : (expire store now key seconds) k = store k := by
  simp only [expire, Function.update_noteq h]

/-- A limiter made by `create_rate_limiter` and `rate_limit_middleware` with the
same two settings, run on stores that hold the same set under their
respective keys: same outcome, same headers, same set afterwards. -/
theorem limiters_agree (max_requests window_ms : Nat) (store1 store2 : ZStore)
    (c1 c2 : String) (now rnd : Nat) (fail_at : Option Nat)
    (h : store1 (custom_rate_limit_key c1) = store2 (rate_limit_key c2)) :
    (create_rate_limiter max_requests window_ms store1 c1 now rnd fail_at).outcome
      = (rate_limit_middleware ⟨max_requests, window_ms⟩ store2 c2 now rnd fail_at).outcome ∧
    (create_rate_limiter max_requests window_ms store1 c1 now rnd fail_at).headers
      = (rate_limit_middleware ⟨max_requests, window_ms⟩ store2 c2 now rnd fail_at).headers ∧
    (create_rate_limiter max_requests window_ms store1 c1 now rnd fail_at).store
        (custom_rate_limit_key c1)
      = (rate_limit_middleware ⟨max_requests, window_ms⟩ store2 c2 now rnd fail_at).store
        (rate_limit_key c2) := by
  have e1 := zRemRangeByScore_at store1 store2 now (custom_rate_limit_key c1) (rate_limit_key c2)
    0 ((now : Int) - (window_ms : Int)) h
  have ec := zCard_at _ _ now _ _ e1
  have e2 := zAdd_at _ _ now _ _ now ⟨now, rnd⟩ e1
  have e3 := expire_at_key _ _ now _ _ (ceil_div_1000 window_ms + 1) e2
  unfold create_rate_limiter rate_limit_middleware
  simp only [ec]
  split_ifs <;> exact ⟨rfl, rfl, by first | exact h | exact e1 | exact e2 | exact e3⟩

/-- A run of `rate_limit_middleware` leaves every other key as it is. -/
theorem rate_limit_frame (cfg : RateLimitConfig) (store : ZStore) (client_id : String)
    (now rnd : Nat) (fail_at : Option Nat) (k : String) (h : k ≠ rate_limit_key client_id) :
    (rate_limit_middleware cfg store client_id now rnd fail_at).store k = store k := by
  have f1 := zRemRangeByScore_frame store now (rate_limit_key client_id) k 0
    ((now : Int) - (cfg.window_ms : Int)) h
  have f2 := zAdd_frame (zRemRangeByScore store now (rate_limit_key client_id) 0
    ((now : Int) - (cfg.window_ms : Int))) now (rate_limit_key client_id) k now ⟨now, rnd⟩ h
  have f3 := expire_frame (zAdd (zRemRangeByScore store now (rate_limit_key client_id) 0
    ((now : Int) - (cfg.window_ms : Int))) now (rate_limit_key client_id) now ⟨now, rnd⟩) now
    (rate_limit_key client_id) k (ceil_div_1000 cfg.window_ms + 1) h
  unfold rate_limit_middleware
  dsimp only
  split_ifs <;> first | rfl | exact f1 | exact f2.trans f1 | exact f3.trans (f2.trans f1)

/-- A run of a limiter made by `create_rate_limiter` leaves every other key as it
is. -/
theorem custom_limit_frame (max_requests window_ms : Nat) (store : ZStore) (client_id : String)
    (now rnd : Nat) (fail_at : Option Nat) (k : String)
    (h : k ≠ custom_rate_limit_key client_id) :
    (create_rate_limiter max_requests window_ms store client_id now rnd fail_at).store k
      = store k := by
  have f1 := zRemRangeByScore_frame store now (custom_rate_limit_key client_id) k 0
    ((now : Int) - (window_ms : Int)) h
  have f2 := zAdd_frame (zRemRangeByScore store now (custom_rate_limit_key client_id) 0
    ((now : Int) - (window_ms : Int))) now (custom_rate_limit_key client_id) k now ⟨now, rnd⟩ h
  have f3 := expire_frame (zAdd (zRemRangeByScore store now (custom_rate_limit_key client_id) 0
    ((now : Int) - (window_ms : Int))) now (custom_rate_limit_key client_id) now ⟨now, rnd⟩) now
    (custom_rate_limit_key client_id) k (ceil_div_1000 window_ms + 1) h
  unfold create_rate_limiter
  dsimp only
  split_ifs <;> first | rfl | exact f1 | exact f2.trans f1 | exact f3.trans (f2.trans f1)

/-- Two runs of `rate_limit_middleware` for one client on stores that hold the
same set under the key of the client: same outcome, same headers, same set
afterwards. -/
theorem rate_limit_local (cfg : RateLimitConfig) (store1 store2 : ZStore) (client_id : String)
    (now rnd : Nat) (fail_at : Option Nat)
    (h : store1 (rate_limit_key client_id) = store2 (rate_limit_key client_id)) :
    (rate_limit_middleware cfg store1 client_id now rnd fail_at).outcome
      = (rate_limit_middleware cfg store2 client_id now rnd fail_at).outcome ∧
    (rate_limit_middleware cfg store1 client_id now rnd fail_at).headers
      = (rate_limit_middleware cfg store2 client_id now rnd fail_at).headers ∧
    (rate_limit_middleware cfg store1 client_id now rnd fail_at).store (rate_limit_key client_id)
      = (rate_limit_middleware cfg store2 client_id now rnd fail_at).store
        (rate_limit_key client_id) := by
  have a1 := limiters_agree cfg.max_requests cfg.window_ms
    (fun _ => store1 (rate_limit_key client_id)) store1 client_id client_id now rnd fail_at rfl
  have a2 := limiters_agree cfg.max_requests cfg.window_ms
    (fun _ => store1 (rate_limit_key client_id)) store2 client_id client_id now rnd fail_at h
  exact ⟨a1.1.symm.trans a2.1, a1.2.1.symm.trans a2.2.1, a1.2.2.symm.trans a2.2.2⟩


/-! ## The headers of the limiters -/

/-- The headers of a run of `rate_limit_middleware` that finds the window full. -/
theorem rate_limit_full_headers (cfg : RateLimitConfig) (store : ZStore) (client_id : String)
    (now rnd : Nat)
    (h : cfg.max_requests ≤
      (not_expired cfg now (window_entries store now (rate_limit_key client_id))).length) :
    (rate_limit_middleware cfg store client_id now rnd none).headers
      = [("X-RateLimit-Limit", (cfg.max_requests : Int)),
         ("X-RateLimit-Remaining", max 0 ((cfg.max_requests : Int) -
           ((not_expired cfg now
             (window_entries store now (rate_limit_key client_id))).length : Int))),
         ("X-RateLimit-Reset", (ceil_div_1000 (now + cfg.window_ms) : Int)),
         ("Retry-After", (ceil_div_1000 cfg.window_ms : Int))] := by
  have hc := count_after_purge cfg store client_id now
  unfold rate_limit_middleware
  simp only [reduceCtorEq, if_false, hc, ge_iff_le, h, if_true]
  rfl

/-- The headers of a run of `rate_limit_middleware` that finds room. -/
theorem rate_limit_room_headers (cfg : RateLimitConfig) (store : ZStore) (client_id : String)
    (now rnd : Nat)
    (h : (not_expired cfg now (window_entries store now (rate_limit_key client_id))).length
      < cfg.max_requests) :
    (rate_limit_middleware cfg store client_id now rnd none).headers
      = [("X-RateLimit-Limit", (cfg.max_requests : Int)),
         ("X-RateLimit-Remaining", max 0 ((cfg.max_requests : Int) -
           ((not_expired cfg now
             (window_entries store now (rate_limit_key client_id))).length : Int))),
         ("X-RateLimit-Reset", (ceil_div_1000 (now + cfg.window_ms) : Int))] := by
  have hc := count_after_purge cfg store client_id now
  have h2 : ¬ cfg.max_requests ≤
      (not_expired cfg now (window_entries store now (rate_limit_key client_id))).length := by
    omega
  unfold rate_limit_middleware
  simp only [reduceCtorEq, if_false, hc, ge_iff_le, h2]

/-- The arithmetic of `Math.ceil(x / 1000)`. -/
theorem ceil_div_1000_spec (w : Nat) :
    w ≤ ceil_div_1000 w * 1000 ∧ ceil_div_1000 w * 1000 < w + 1000 ∧
      (w % 1000 = 0 → ceil_div_1000 w * 1000 = w) := by
  unfold ceil_div_1000
  omega

/-- Counterexample to C22: with a window of 1500 ms the denied request of the
client of `sample_zstore` is told to retry after 2 s, which is not 1.5 s
(2 * 1000 is not 1500), in both limiters. -/
theorem retry_after_rounds_up :
    (rate_limit_middleware ⟨1, 1500⟩ sample_zstore "ip:10.0.0.1" 62000 5 none).outcome.is_429
      = true ∧
    header_value (rate_limit_middleware ⟨1, 1500⟩ sample_zstore "ip:10.0.0.1" 62000 5
      none).headers "Retry-After" = some 2 ∧
    (rate_limit_middleware ⟨1, 1500⟩ sample_zstore "ip:10.0.0.1" 62000 5
      none).outcome.retry_after_seconds = some 2 ∧
    (create_rate_limiter 0 1500 sample_zstore "ip:10.0.0.1" 62000 5
      none).outcome.retry_after_seconds = some 2 ∧
    2 * 1000 ≠ 1500 := by
  decide

/-- C22, amended. When a limiter denies a request, the retry-after value it
reports, in the header `Retry-After` and in `retry_after_seconds` of the body,
is `Math.ceil(window_ms / 1000)`: the number of whole seconds that covers the
window (`window_ms <= 1000 * value < window_ms + 1000`), equal to
`window_ms / 1000` exactly when `window_ms` is a multiple of 1000; in
`rate_limit_middleware` and in `create_rate_limiter`. -/
theorem retry_after_is_ceiling :
    (∀ (cfg : RateLimitConfig) (store : ZStore) (client_id : String) (now rnd : Nat),
      cfg.max_requests ≤
        (not_expired cfg now (window_entries store now (rate_limit_key client_id))).length →
      header_value (rate_limit_middleware cfg store client_id now rnd none).headers "Retry-After"
        = some (ceil_div_1000 cfg.window_ms : Int) ∧
      (rate_limit_middleware cfg store client_id now rnd none).outcome.retry_after_seconds
        = some (ceil_div_1000 cfg.window_ms)) ∧
    (∀ (max_requests window_ms : Nat) (store : ZStore) (client_id : String) (now rnd : Nat),
      max_requests ≤
        (not_expired ⟨max_requests, window_ms⟩ now
          (window_entries store now (custom_rate_limit_key client_id))).length →
      header_value (create_rate_limiter max_requests window_ms store client_id now rnd
        none).headers "Retry-After" = some (ceil_div_1000 window_ms : Int) ∧
      (create_rate_limiter max_requests window_ms store client_id now rnd
        none).outcome.retry_after_seconds = some (ceil_div_1000 window_ms)) ∧
    (∀ w : Nat, w ≤ ceil_div_1000 w * 1000 ∧ ceil_div_1000 w * 1000 < w + 1000 ∧
      (w % 1000 = 0 → ceil_div_1000 w * 1000 = w)) := by
  refine ⟨?_, ?_, ceil_div_1000_spec⟩
  · intro cfg store client_id now rnd h
    rw [rate_limit_full_headers cfg store client_id now rnd h,
      rate_limit_full_outcome cfg store client_id now rnd h]
    exact ⟨rfl, rfl⟩
  · intro max_requests window_ms store client_id now rnd h
    have ha := limiters_agree max_requests window_ms store
      (fun _ => store (custom_rate_limit_key client_id)) client_id client_id now rnd none rfl
    have h2 : (⟨max_requests, window_ms⟩ : RateLimitConfig).max_requests ≤
        (not_expired ⟨max_requests, window_ms⟩ now
          (window_entries (fun _ => store (custom_rate_limit_key client_id)) now
            (rate_limit_key client_id))).length := h
    rw [ha.1, ha.2.1, rate_limit_full_headers _ _ client_id now rnd h2,
      rate_limit_full_outcome _ _ client_id now rnd h2]
    exact ⟨rfl, rfl⟩

/-- Witness of C22 amended: the default window of 60000 ms gives 60 s. -/
theorem retry_after_is_ceiling_witness :
    header_value (rate_limit_middleware ⟨1, 60000⟩ sample_zstore "ip:10.0.0.1" 62000 5
      none).headers "Retry-After" = some 60 :=
  (retry_after_is_ceiling.1 ⟨1, 60000⟩ sample_zstore "ip:10.0.0.1" 62000 5 (by decide)).1


/-- A key whose time to live was set at `now` by a limiter is alive at every time
at which one of its entries, stamped `now` at the latest, lies inside the
window. -/
theorem alive_while_in_window (w now : Nat) (es : List ZEntry) (e : ZEntry) (t : Nat)
    (hscore : e.score ≤ now) (hin : t < e.score + w) :
    (ZKey.mk es (some (now + (ceil_div_1000 w + 1) * 1000))).expired t = false := by
  have := window_le_expiry w
  simp only [ZKey.expired, decide_eq_false_iff_not, not_le]
  omega

/-- A store whose key holds a time to live set at `now` by a limiter: the expiry,
and the entries that the key still shows while they lie inside the window. -/
theorem key_alive (store : ZStore) (key : String) (w now : Nat) (es : List ZEntry)
    (hk : store key = ⟨es, some (now + (ceil_div_1000 w + 1) * 1000)⟩) :
    (store key).expire_at = some (now + (ceil_div_1000 w + 1) * 1000) ∧
    ∀ e ∈ (store key).entries, e.score ≤ now → ∀ t, t < e.score + w →
      (store key).expired t = false ∧ e ∈ window_entries store t key := by
  refine ⟨by rw [hk], ?_⟩
  intro e he hscore t hin
  have halive := alive_while_in_window w now es e t hscore hin
  rw [← hk] at halive
  refine ⟨halive, ?_⟩
  unfold window_entries
  rw [ZKey.at_of_not_expired _ _ halive]
  exact he

/-- C23. The expiry that a limiter sets on the key of the client at a request it
lets through, `(ceil(window_ms / 1000) + 1) * 1000` ms, is at least
`window_ms + 1000` and so longer than the window, for every `window_ms`;
after such a request at `now` the key expires at
`now + (ceil(window_ms / 1000) + 1) * 1000`, and at every time `t` at which an
entry of the key (stamped `now` at the latest) lies inside the window
(`t < score + window_ms`) the key has not expired and still shows the entry;
in `rate_limit_middleware` and in `create_rate_limiter`. -/
theorem expiry_outlasts_window :
    (∀ w : Nat, w + 1000 ≤ (ceil_div_1000 w + 1) * 1000 ∧ w < (ceil_div_1000 w + 1) * 1000) ∧
    (∀ (cfg : RateLimitConfig) (store : ZStore) (client_id : String) (now rnd : Nat),
      (not_expired cfg now (window_entries store now (rate_limit_key client_id))).length
        < cfg.max_requests →
      ((rate_limit_middleware cfg store client_id now rnd none).store
          (rate_limit_key client_id)).expire_at
        = some (now + (ceil_div_1000 cfg.window_ms + 1) * 1000) ∧
      ∀ e ∈ ((rate_limit_middleware cfg store client_id now rnd none).store
          (rate_limit_key client_id)).entries,
        e.score ≤ now → ∀ t, t < e.score + cfg.window_ms →
          ((rate_limit_middleware cfg store client_id now rnd none).store
            (rate_limit_key client_id)).expired t = false ∧
          e ∈ window_entries (rate_limit_middleware cfg store client_id now rnd none).store t
            (rate_limit_key client_id)) ∧
    (∀ (max_requests window_ms : Nat) (store : ZStore) (client_id : String) (now rnd : Nat),
      (not_expired ⟨max_requests, window_ms⟩ now
          (window_entries store now (custom_rate_limit_key client_id))).length
        < max_requests →
      ((create_rate_limiter max_requests window_ms store client_id now rnd none).store
          (custom_rate_limit_key client_id)).expire_at
        = some (now + (ceil_div_1000 window_ms + 1) * 1000) ∧
      ∀ e ∈ ((create_rate_limiter max_requests window_ms store client_id now rnd none).store
          (custom_rate_limit_key client_id)).entries,
        e.score ≤ now → ∀ t, t < e.score + window_ms →
          ((create_rate_limiter max_requests window_ms store client_id now rnd none).store
            (custom_rate_limit_key client_id)).expired t = false ∧
          e ∈ window_entries
            (create_rate_limiter max_requests window_ms store client_id now rnd none).store t
            (custom_rate_limit_key client_id)) := by
  refine ⟨?_, ?_, ?_⟩
  · intro w
    have := window_le_expiry w
    omega
  · intro cfg store client_id now rnd h
    exact key_alive _ _ cfg.window_ms now _ (key_after_room cfg store client_id now rnd h)
  · intro max_requests window_ms store client_id now rnd h
    have ha := (limiters_agree max_requests window_ms store
      (fun _ => store (custom_rate_limit_key client_id)) client_id client_id now rnd none rfl).2.2
    have h2 : (not_expired ⟨max_requests, window_ms⟩ now
        (window_entries (fun _ => store (custom_rate_limit_key client_id)) now
          (rate_limit_key client_id))).length
        < (⟨max_requests, window_ms⟩ : RateLimitConfig).max_requests := h
    exact key_alive _ _ window_ms now _
      (ha.trans (key_after_room ⟨max_requests, window_ms⟩ _ client_id now rnd h2))

/-- Witness of C23: after the request of 62000 ms the key of the client of
`sample_zstore` expires at 123000 ms. -/
theorem expiry_outlasts_window_witness :
    ((rate_limit_middleware ⟨2, 60000⟩ sample_zstore "ip:10.0.0.1" 62000 5 none).store
        (rate_limit_key "ip:10.0.0.1")).expire_at = some (62000 + (60 + 1) * 1000) :=
  (expiry_outlasts_window.2.1 ⟨2, 60000⟩ sample_zstore "ip:10.0.0.1" 62000 5 (by decide)).1


/-! ## The identity of the client -/

/-- Counterexample to C24: the header `x-forwarded-for` of `sample_client_request`
is present, with an empty value, and there is no `x-client-id`; the identity
is the transport address `req.ip`, not the first element of the header (the
empty string). -/
theorem empty_forwarded_for_falls_back :
    sample_client_request.x_forwarded_for = some "" ∧
    first_hop "" = "" ∧
    get_client_identifier sample_client_request = "ip:10.0.0.9" ∧
    get_client_identifier sample_client_request ≠ "ip:" ++ first_hop "" := by
  decide

/-- C24, amended. `get_client_identifier` resolves the identity in this order:
`client:` and the value of `x-client-id` when that header is present and not
empty; otherwise `ip:` and the first comma-separated element, trimmed, of
`x-forwarded-for` when that header is present and not empty; otherwise `ip:`
and the transport address, `req.ip` when it is defined and not empty, else
the remote address of the connection. -/
theorem get_client_identifier_order (req : ClientRequest)  :
    (∀ c, req.x_client_id = some c → c ≠ "" → get_client_identifier req = "client:" ++ c) ∧
    ((req.x_client_id = none ∨ req.x_client_id = some "") →
      (∀ f, req.x_forwarded_for = some f → f ≠ "" →
        get_client_identifier req = "ip:" ++ first_hop f) ∧
      ((req.x_forwarded_for = none ∨ req.x_forwarded_for = some "") →
        (∀ a, req.ip = some a → a ≠ "" → get_client_identifier req = "ip:" ++ a) ∧
        ((req.ip = none ∨ req.ip = some "") →
          get_client_identifier req = "ip:" ++ req.remote_address.getD "undefined"))) := by
  refine ⟨?_, ?_⟩
  · intro c hc hne
    simp [get_client_identifier, hc, hne]
  · intro hclient
    have hby : get_client_identifier req = "ip:" ++
        (match req.x_forwarded_for with
          | some forwarded_for =>
            if forwarded_for ≠ "" then first_hop forwarded_for
            else
              (match req.ip with
                | some a => if a ≠ "" then a else req.remote_address.getD "undefined"
                | none => req.remote_address.getD "undefined")
          | none =>
            (match req.ip with
              | some a => if a ≠ "" then a else req.remote_address.getD "undefined"
              | none => req.remote_address.getD "undefined")) := by
      rcases hclient with h | h <;> simp [get_client_identifier, h]
    refine ⟨?_, ?_⟩
    · intro f hf hne
      rw [hby, hf]
      simp [hne]
    · intro hfwd
      have hip : get_client_identifier req = "ip:" ++
          (match req.ip with
            | some a => if a ≠ "" then a else req.remote_address.getD "undefined"
            | none => req.remote_address.getD "undefined") := by
        rw [hby]
        rcases hfwd with h | h <;> simp [h]
      refine ⟨?_, ?_⟩
      · intro a ha hne
        rw [hip, ha]
        simp [hne]
      · intro hno
        rw [hip]
        rcases hno with h | h <;> simp [h]

/-- Witness of C24 amended: `sample_forwarded_request` has an empty `x-client-id`
and went through two proxies; the identity is the first hop, trimmed. -/
theorem get_client_identifier_order_witness :
    get_client_identifier sample_forwarded_request = "ip:203.0.113.7" :=
  ((get_client_identifier_order sample_forwarded_request).2 (Or.inr rfl)).1
    " 203.0.113.7 , 10.0.0.1" rfl (by decide) |>.trans (by decide)


/-! ## The route-specific limiter against the global one -/

/-- C26. For every `max_requests`, `window_ms`, client, time, random value and
store fault, and for all stores that hold the same set under the key
`rate_limit:custom:` + client of the one and `rate_limit:` + client of the
other, the middleware made by `create_rate_limiter(max_requests, window_ms)` and
`rate_limit_middleware` with these two settings end the same way (`next()` or
the same 429 body), set the same headers, and leave the same set under their
respective keys; each leaves every other key as it was. The keys differ by
their prefix only. -/
theorem custom_limiter_refines (max_requests window_ms : Nat) (store1 store2 : ZStore)
    (client_id : String) (now rnd : Nat) (fail_at : Option Nat)
    (h : store1 (custom_rate_limit_key client_id) = store2 (rate_limit_key client_id)) :
    (create_rate_limiter max_requests window_ms store1 client_id now rnd fail_at).outcome
      = (rate_limit_middleware ⟨max_requests, window_ms⟩ store2 client_id now rnd
          fail_at).outcome ∧
    (create_rate_limiter max_requests window_ms store1 client_id now rnd fail_at).headers
      = (rate_limit_middleware ⟨max_requests, window_ms⟩ store2 client_id now rnd
          fail_at).headers ∧
    (create_rate_limiter max_requests window_ms store1 client_id now rnd fail_at).store
        (custom_rate_limit_key client_id)
      = (rate_limit_middleware ⟨max_requests, window_ms⟩ store2 client_id now rnd
          fail_at).store (rate_limit_key client_id) ∧
    (∀ k, k ≠ custom_rate_limit_key client_id →
      (create_rate_limiter max_requests window_ms store1 client_id now rnd fail_at).store k
        = store1 k) ∧
    (∀ k, k ≠ rate_limit_key client_id →
      (rate_limit_middleware ⟨max_requests, window_ms⟩ store2 client_id now rnd
          fail_at).store k = store2 k) ∧
    custom_rate_limit_key client_id = "rate_limit:custom:" ++ client_id ∧
    rate_limit_key client_id = "rate_limit:" ++ client_id := by
  have ha := limiters_agree max_requests window_ms store1 store2 client_id client_id now rnd
    fail_at h
  exact ⟨ha.1, ha.2.1, ha.2.2,
    fun k hk => custom_limit_frame max_requests window_ms store1 client_id now rnd fail_at k hk,
    fun k hk => rate_limit_frame ⟨max_requests, window_ms⟩ store2 client_id now rnd fail_at k hk,
    rfl, rfl⟩

/-- Witness of C26: the client `ip:10.0.0.1` has the same two entries under its
key in `sample_custom_zstore` and in `sample_zstore`; with a limit of 1 per
minute both limiters deny the request made at 62000 ms, with the same body. -/
theorem custom_limiter_refines_witness :
    (create_rate_limiter 1 60000 sample_custom_zstore "ip:10.0.0.1" 62000 5 none).outcome
      = (rate_limit_middleware ⟨1, 60000⟩ sample_zstore "ip:10.0.0.1" 62000 5 none).outcome ∧
    (rate_limit_middleware ⟨1, 60000⟩ sample_zstore "ip:10.0.0.1" 62000 5 none).outcome.is_429
      = true :=
  ⟨(custom_limiter_refines 1 60000 sample_custom_zstore sample_zstore "ip:10.0.0.1" 62000 5
      none (by decide)).1, by decide⟩

/-! ## The partition of the limiter by client -/

theorem append_left_cancel_str (p a b : String) (h : p ++ a = p ++ b) : a = b := by
  have h2 := congrArg String.data h
  simp only [String.data_append] at h2
  exact String.ext (List.append_cancel_left h2)

theorem client_ne_ip (a b : String) : "client:" ++ a ≠ "ip:" ++ b := by
  intro h
  have h2 := congrArg String.data h
  simp only [String.data_append] at h2
  have h3 := congrArg List.head? h2
  simp at h3

/-- Every identity starts with `client:` or with `ip:`. -/
theorem get_client_identifier_shape (req : ClientRequest) :
    (∃ x, get_client_identifier req = "client:" ++ x) ∨
    (∃ x, get_client_identifier req = "ip:" ++ x) := by
  unfold get_client_identifier
  dsimp only
  split
  · split
    · exact Or.inl ⟨_, rfl⟩
    · exact Or.inr ⟨_, rfl⟩
  · exact Or.inr ⟨_, rfl⟩

/-- The key of an identity under the global limiter is not a key of the
route-specific limiters. -/
theorem global_key_ne_custom_key (a b : String)
    (h : (∃ x, a = "client:" ++ x) ∨ (∃ x, a = "ip:" ++ x)) :
    rate_limit_key a ≠ custom_rate_limit_key b := by
  intro he
  have h2 := congrArg String.data he
  unfold rate_limit_key custom_rate_limit_key at h2
  rcases h with ⟨x, rfl⟩ | ⟨x, rfl⟩
  · simp only [String.data_append] at h2
    have h3 := congrArg (fun l => l.get? 12) h2
    simp at h3
  · simp only [String.data_append] at h2
    have h3 := congrArg (fun l => l.get? 11) h2
    simp at h3

theorem rate_limit_store_after_frame (cfg : RateLimitConfig) (client_id : String)
    (reqs : List (Nat × Nat × Option Nat)) (store : ZStore) (k : String)
    (h : k ≠ rate_limit_key client_id) :
    rate_limit_store_after cfg client_id store reqs k = store k := by
  induction reqs generalizing store with
  | nil => rfl
  | cons r rest ih =>
    obtain ⟨now, rnd, fail_at⟩ := r
    show rate_limit_store_after cfg client_id
      (rate_limit_middleware cfg store client_id now rnd fail_at).store rest k = store k
    rw [ih]
    exact rate_limit_frame cfg store client_id now rnd fail_at k h

theorem custom_limit_store_after_frame (max_requests window_ms : Nat) (client_id : String)
    (reqs : List (Nat × Nat × Option Nat)) (store : ZStore) (k : String)
    (h : k ≠ custom_rate_limit_key client_id) :
    custom_limit_store_after max_requests window_ms client_id store reqs k = store k := by
  induction reqs generalizing store with
  | nil => rfl
  | cons r rest ih =>
    obtain ⟨now, rnd, fail_at⟩ := r
    show custom_limit_store_after max_requests window_ms client_id
      (create_rate_limiter max_requests window_ms store client_id now rnd fail_at).store rest k
        = store k
    rw [ih]
    exact custom_limit_frame max_requests window_ms store client_id now rnd fail_at k h

/-- Two runs of a limiter made by `create_rate_limiter` for one client on stores
that hold the same set under the key of the client: same outcome, same
headers, same set afterwards. -/
theorem custom_limit_local (max_requests window_ms : Nat) (store1 store2 : ZStore)
    (client_id : String) (now rnd : Nat) (fail_at : Option Nat)
    (h : store1 (custom_rate_limit_key client_id) = store2 (custom_rate_limit_key client_id)) :
    (create_rate_limiter max_requests window_ms store1 client_id now rnd fail_at).outcome
      = (create_rate_limiter max_requests window_ms store2 client_id now rnd fail_at).outcome ∧
    (create_rate_limiter max_requests window_ms store1 client_id now rnd fail_at).headers
      = (create_rate_limiter max_requests window_ms store2 client_id now rnd fail_at).headers ∧
    (create_rate_limiter max_requests window_ms store1 client_id now rnd fail_at).store
        (custom_rate_limit_key client_id)
      = (create_rate_limiter max_requests window_ms store2 client_id now rnd fail_at).store
        (custom_rate_limit_key client_id) := by
  have a1 := limiters_agree max_requests window_ms store1
    (fun _ => store1 (custom_rate_limit_key client_id)) client_id client_id now rnd fail_at rfl
  have a2 := limiters_agree max_requests window_ms store2
    (fun _ => store1 (custom_rate_limit_key client_id)) client_id client_id now rnd fail_at
    h.symm
  exact ⟨a1.1.trans a2.1.symm, a1.2.1.trans a2.2.1.symm, a1.2.2.trans a2.2.2.symm⟩

/-- C25. The store key of each limiter is an injective function of the client
identity; an identity taken from `x-client-id` is never an identity taken from
an address, every identity is of one of the two kinds, and no key of the
global limiter for an identity is a key of a route-specific limiter. Hence,
for two different identities `c1` and `c2` and any requests made under `c1`
(store faults included), the count found for `c2`, and the outcome, the
headers and the set of a request made under `c2`, are the same as without those
requests, for the global limiter and for a route-specific one; and the
requests that go through one of the two kinds of limiter never change what a
request finds at the other kind, whoever the clients are. -/
theorem rate_limit_partition :
    (∀ a b, rate_limit_key a = rate_limit_key b → a = b) ∧
    (∀ a b, custom_rate_limit_key a = custom_rate_limit_key b → a = b) ∧
    (∀ a b : String, "client:" ++ a ≠ "ip:" ++ b ∧
      rate_limit_key ("client:" ++ a) ≠ rate_limit_key ("ip:" ++ b) ∧
      custom_rate_limit_key ("client:" ++ a) ≠ custom_rate_limit_key ("ip:" ++ b)) ∧
    (∀ req, (∃ x, get_client_identifier req = "client:" ++ x) ∨
      (∃ x, get_client_identifier req = "ip:" ++ x)) ∧
    (∀ r1 r2, rate_limit_key (get_client_identifier r1)
      ≠ custom_rate_limit_key (get_client_identifier r2)) ∧
    (∀ (cfg : RateLimitConfig) (store : ZStore) (c1 c2 : String)
        (reqs : List (Nat × Nat × Option Nat)) (now rnd : Nat) (fail_at : Option Nat),
      c1 ≠ c2 →
      zCard (rate_limit_store_after cfg c1 store reqs) now (rate_limit_key c2)
        = zCard store now (rate_limit_key c2) ∧
      (rate_limit_middleware cfg (rate_limit_store_after cfg c1 store reqs) c2 now rnd
          fail_at).outcome
        = (rate_limit_middleware cfg store c2 now rnd fail_at).outcome ∧
      (rate_limit_middleware cfg (rate_limit_store_after cfg c1 store reqs) c2 now rnd
          fail_at).headers
        = (rate_limit_middleware cfg store c2 now rnd fail_at).headers ∧
      (rate_limit_middleware cfg (rate_limit_store_after cfg c1 store reqs) c2 now rnd
          fail_at).store (rate_limit_key c2)
        = (rate_limit_middleware cfg store c2 now rnd fail_at).store (rate_limit_key c2)) ∧
    (∀ (max_requests window_ms : Nat) (store : ZStore) (c1 c2 : String)
        (reqs : List (Nat × Nat × Option Nat)) (now rnd : Nat) (fail_at : Option Nat),
      c1 ≠ c2 →
      zCard (custom_limit_store_after max_requests window_ms c1 store reqs) now
          (custom_rate_limit_key c2)
        = zCard store now (custom_rate_limit_key c2) ∧
      (create_rate_limiter max_requests window_ms
          (custom_limit_store_after max_requests window_ms c1 store reqs) c2 now rnd
          fail_at).outcome
        = (create_rate_limiter max_requests window_ms store c2 now rnd fail_at).outcome ∧
      (create_rate_limiter max_requests window_ms
          (custom_limit_store_after max_requests window_ms c1 store reqs) c2 now rnd
          fail_at).headers
        = (create_rate_limiter max_requests window_ms store c2 now rnd fail_at).headers ∧
      (create_rate_limiter max_requests window_ms
          (custom_limit_store_after max_requests window_ms c1 store reqs) c2 now rnd
          fail_at).store (custom_rate_limit_key c2)
        = (create_rate_limiter max_requests window_ms store c2 now rnd fail_at).store
          (custom_rate_limit_key c2)) ∧
    (∀ (cfg : RateLimitConfig) (max_requests window_ms : Nat) (store : ZStore)
        (r1 r2 : ClientRequest) (reqs : List (Nat × Nat × Option Nat)) (now rnd : Nat)
        (fail_at : Option Nat),
      ((rate_limit_middleware cfg (custom_limit_store_after max_requests window_ms
            (get_client_identifier r1) store reqs) (get_client_identifier r2) now rnd
            fail_at).outcome
          = (rate_limit_middleware cfg store (get_client_identifier r2) now rnd
            fail_at).outcome ∧
        (rate_limit_middleware cfg (custom_limit_store_after max_requests window_ms
            (get_client_identifier r1) store reqs) (get_client_identifier r2) now rnd
            fail_at).headers
          = (rate_limit_middleware cfg store (get_client_identifier r2) now rnd
            fail_at).headers) ∧
      ((create_rate_limiter max_requests window_ms (rate_limit_store_after cfg
            (get_client_identifier r1) store reqs) (get_client_identifier r2) now rnd
            fail_at).outcome
          = (create_rate_limiter max_requests window_ms store (get_client_identifier r2) now
            rnd fail_at).outcome ∧
        (create_rate_limiter max_requests window_ms (rate_limit_store_after cfg
            (get_client_identifier r1) store reqs) (get_client_identifier r2) now rnd
            fail_at).headers
          = (create_rate_limiter max_requests window_ms store (get_client_identifier r2) now
            rnd fail_at).headers)) := by
  have inj1 : ∀ a b, rate_limit_key a = rate_limit_key b → a = b :=
    fun a b h => append_left_cancel_str "rate_limit:" a b h
  have inj2 : ∀ a b, custom_rate_limit_key a = custom_rate_limit_key b → a = b :=
    fun a b h => append_left_cancel_str "rate_limit:custom:" a b h
  have cross : ∀ r1 r2, rate_limit_key (get_client_identifier r1)
      ≠ custom_rate_limit_key (get_client_identifier r2) :=
    fun r1 r2 => global_key_ne_custom_key _ _ (get_client_identifier_shape r1)
  refine ⟨inj1, inj2, ?_, get_client_identifier_shape, cross, ?_, ?_, ?_⟩
  · intro a b
    exact ⟨client_ne_ip a b, fun h => client_ne_ip a b (inj1 _ _ h),
      fun h => client_ne_ip a b (inj2 _ _ h)⟩
  · intro cfg store c1 c2 reqs now rnd fail_at hne
    have hk : rate_limit_key c2 ≠ rate_limit_key c1 := fun h => hne (inj1 _ _ h).symm
    have hf := rate_limit_store_after_frame cfg c1 reqs store (rate_limit_key c2) hk
    have hl := rate_limit_local cfg (rate_limit_store_after cfg c1 store reqs) store c2 now rnd
      fail_at hf
    exact ⟨zCard_at _ _ now _ _ hf, hl.1, hl.2.1, hl.2.2⟩
  · intro max_requests window_ms store c1 c2 reqs now rnd fail_at hne
    have hk : custom_rate_limit_key c2 ≠ custom_rate_limit_key c1 :=
      fun h => hne (inj2 _ _ h).symm
    have hf := custom_limit_store_after_frame max_requests window_ms c1 reqs store
      (custom_rate_limit_key c2) hk
    have hl := custom_limit_local max_requests window_ms
      (custom_limit_store_after max_requests window_ms c1 store reqs) store c2 now rnd
      fail_at hf
    exact ⟨zCard_at _ _ now _ _ hf, hl.1, hl.2.1, hl.2.2⟩
  · intro cfg max_requests window_ms store r1 r2 reqs now rnd fail_at
    have hf1 := custom_limit_store_after_frame max_requests window_ms
      (get_client_identifier r1) reqs store (rate_limit_key (get_client_identifier r2))
      (cross r2 r1)
    have hf2 := rate_limit_store_after_frame cfg (get_client_identifier r1) reqs store
      (custom_rate_limit_key (get_client_identifier r2)) (fun h => cross r1 r2 h.symm)
    have hl1 := rate_limit_local cfg _ store (get_client_identifier r2) now rnd fail_at hf1
    have hl2 := custom_limit_local max_requests window_ms _ store (get_client_identifier r2)
      now rnd fail_at hf2
    exact ⟨⟨hl1.1, hl1.2.1⟩, ⟨hl2.1, hl2.2.1⟩⟩

/-- Witness of C25: two requests of the client `client:a`, let through at 62000
and 62001 ms, leave the request of the client `ip:10.0.0.1` of `sample_zstore`
denied as it would be without them. -/
theorem rate_limit_partition_witness :
    "client:a" ≠ "ip:10.0.0.1" ∧
    (rate_limit_middleware ⟨1, 60000⟩
        (rate_limit_store_after ⟨1, 60000⟩ "client:a" sample_zstore
          [(62000, 1, none), (62001, 2, none)])
        "ip:10.0.0.1" 62002 5 none).outcome
      = (rate_limit_middleware ⟨1, 60000⟩ sample_zstore "ip:10.0.0.1" 62002 5 none).outcome :=
  ⟨by decide,
    (rate_limit_partition.2.2.2.2.2.1 ⟨1, 60000⟩ sample_zstore "client:a" "ip:10.0.0.1"
      [(62000, 1, none), (62001, 2, none)] 62002 5 none (by decide)).2.1⟩


/-! ## The header X-RateLimit-Remaining -/

/-- The number of `next()` outcomes among some `next()` outcomes followed by
denials. -/
theorem count_next_replicate (cfg : RateLimitConfig) (a b : Nat) :
    count_next (List.replicate a RateLimitOutcome.next
      ++ List.replicate b (too_many_requests cfg)) = a := by
  simp [count_next, too_many_requests, List.filter_replicate]

/-- C27, as the code behaves. `X-RateLimit-Limit` is `max_requests` and
`X-RateLimit-Remaining` is `max_requests` minus the number `n` of requests
found in the window before the present request is added, never below 0. On a
denied request this is 0. On a request that is let through (window longer
than 0 ms, new request id) it is `max_requests - n`, while of the requests of
the client that follow at once only `max_requests - n - 1` can be let
through: the header counts the present request as still to come. -/
theorem remaining_header_precedes_insert (cfg : RateLimitConfig) (store : ZStore)
    (client_id : String) (now rnd : Nat) (reqs : List (Nat × Nat))
    (hw : 0 < cfg.window_ms)
    (hnow : ∀ p ∈ reqs, p.1 = now)
    (hnd : ((now, rnd) :: reqs).Nodup)
    (hfresh : ∀ e ∈ not_expired cfg now (window_entries store now (rate_limit_key client_id)),
      ∀ p ∈ (now, rnd) :: reqs, e.value ≠ ⟨p.1, p.2⟩) :
    header_value (rate_limit_middleware cfg store client_id now rnd none).headers
      "X-RateLimit-Limit" = some (cfg.max_requests : Int) ∧
    header_value (rate_limit_middleware cfg store client_id now rnd none).headers
      "X-RateLimit-Remaining"
      = some (((cfg.max_requests - (not_expired cfg now
          (window_entries store now (rate_limit_key client_id))).length : Nat)) : Int) ∧
    ((rate_limit_middleware cfg store client_id now rnd none).outcome.is_429 = true →
      header_value (rate_limit_middleware cfg store client_id now rnd none).headers
        "X-RateLimit-Remaining" = some 0) ∧
    ((rate_limit_middleware cfg store client_id now rnd none).outcome = .next →
      count_next (rate_limit_runs cfg client_id
          (rate_limit_middleware cfg store client_id now rnd none).store reqs)
        = min reqs.length (cfg.max_requests - (not_expired cfg now
            (window_entries store now (rate_limit_key client_id))).length - 1) ∧
      ((count_next (rate_limit_runs cfg client_id
          (rate_limit_middleware cfg store client_id now rnd none).store reqs) : Nat) : Int) <
        ((cfg.max_requests - (not_expired cfg now
            (window_entries store now (rate_limit_key client_id))).length : Nat) : Int)) := by
  have hmax : ∀ (m n : Nat), max (0 : Int) ((m : Int) - (n : Int)) = ((m - n : Nat) : Int) := by
    intro m n
    omega
  have hheaders : header_value (rate_limit_middleware cfg store client_id now rnd none).headers
        "X-RateLimit-Limit" = some (cfg.max_requests : Int) ∧
      header_value (rate_limit_middleware cfg store client_id now rnd none).headers
        "X-RateLimit-Remaining"
        = some (((cfg.max_requests - (not_expired cfg now
            (window_entries store now (rate_limit_key client_id))).length : Nat)) : Int) := by
    rcases Nat.lt_or_ge (not_expired cfg now
        (window_entries store now (rate_limit_key client_id))).length cfg.max_requests
      with h | h
    · rw [rate_limit_room_headers cfg store client_id now rnd h, hmax]
      exact ⟨by simp [header_value], by simp [header_value]⟩
    · rw [rate_limit_full_headers cfg store client_id now rnd h, hmax]
      exact ⟨by simp [header_value], by simp [header_value]⟩
  refine ⟨hheaders.1, hheaders.2, ?_, ?_⟩
  · intro h429
    rcases Nat.lt_or_ge (not_expired cfg now
        (window_entries store now (rate_limit_key client_id))).length cfg.max_requests
      with h | h
    · rw [(rate_limit_room cfg store client_id now rnd h).1] at h429
      simp [RateLimitOutcome.is_429] at h429
    · rw [hheaders.2]
      congr 1
      have : cfg.max_requests - (not_expired cfg now
        (window_entries store now (rate_limit_key client_id))).length = 0 := by omega
      rw [this]
      rfl
  · intro hnext
    have hroom : (not_expired cfg now
        (window_entries store now (rate_limit_key client_id))).length < cfg.max_requests := by
      by_contra hge
      exact (rate_limit_full cfg store client_id now rnd (not_lt.mp hge)).2.1 hnext
    have hkey := key_after_room cfg store client_id now rnd hroom
    have hfil : (not_expired cfg now (window_entries store now (rate_limit_key client_id))).filter
        (fun e => decide (e.value ≠ ⟨now, rnd⟩))
        = not_expired cfg now (window_entries store now (rate_limit_key client_id)) := by
      apply List.filter_eq_self.mpr
      intro e he
      simpa using hfresh e he (now, rnd) (List.mem_cons_self _ _)
    rw [hfil] at hkey
    have hlive : ((rate_limit_middleware cfg store client_id now rnd none).store
        (rate_limit_key client_id)).at (now + 1 - cfg.window_ms)
        = ⟨not_expired cfg now (window_entries store now (rate_limit_key client_id))
            ++ [⟨now, ⟨now, rnd⟩⟩],
            some (now + (ceil_div_1000 cfg.window_ms + 1) * 1000)⟩ := by
      rw [hkey]
      apply ZKey.at_of_not_expired
      simp only [ZKey.expired, decide_eq_false_iff_not, not_le]
      omega
    have hb := burst_outcomes cfg client_id (now + 1 - cfg.window_ms) reqs
      (rate_limit_middleware cfg store client_id now rnd none).store
      (by
        intro p hp
        have := hnow p hp
        omega)
      (List.nodup_cons.mp hnd).2
      (by
        rw [hlive]
        intro e he
        rcases List.mem_append.mp he with h | h
        · have h2 := (List.mem_filter.mp h).2
          simp only [decide_eq_true_eq] at h2
          omega
        · rw [List.mem_singleton.mp h]
          show now + 1 - cfg.window_ms ≤ now
          omega)
      (by
        rw [hlive]
        intro x hx
        have := window_le_expiry cfg.window_ms
        simp only [Option.some.injEq] at hx
        omega)
      (by
        rw [hlive]
        intro e he p hp
        rcases List.mem_append.mp he with h | h
        · exact hfresh e h p (List.mem_cons_of_mem _ hp)
        · rw [List.mem_singleton.mp h]
          intro heq
          apply (List.nodup_cons.mp hnd).1
          have h1 : now = p.1 := congrArg RequestId.stamp heq
          have h2 : rnd = p.2 := congrArg RequestId.rnd heq
          have : (now, rnd) = p := Prod.ext h1 h2
          rw [this]; exact hp)
    rw [hb, hlive, count_next_replicate]
    simp only [List.length_append, List.length_singleton]
    refine ⟨by omega, ?_⟩
    have : min reqs.length (cfg.max_requests - ((not_expired cfg now
        (window_entries store now (rate_limit_key client_id))).length + 1))
        < cfg.max_requests - (not_expired cfg now
        (window_entries store now (rate_limit_key client_id))).length := by omega
    exact_mod_cast this

/-- Witness of C27: two requests per minute, a client without entries. The
response to the first request, at 1000 ms, carries `X-RateLimit-Remaining: 2`;
of the three requests that follow at once one is let through. -/
theorem remaining_header_precedes_insert_witness :
    header_value (rate_limit_middleware ⟨2, 60000⟩ sample_zstore "ip:10.0.0.2" 1000 1
      none).headers "X-RateLimit-Remaining" = some 2 ∧
    (rate_limit_middleware ⟨2, 60000⟩ sample_zstore "ip:10.0.0.2" 1000 1 none).outcome
      = .next ∧
    count_next (rate_limit_runs ⟨2, 60000⟩ "ip:10.0.0.2"
      (rate_limit_middleware ⟨2, 60000⟩ sample_zstore "ip:10.0.0.2" 1000 1 none).store
      [(1000, 2), (1000, 3), (1000, 4)]) = 1 :=
  ⟨(remaining_header_precedes_insert ⟨2, 60000⟩ sample_zstore "ip:10.0.0.2" 1000 1
      [(1000, 2), (1000, 3), (1000, 4)] (by decide) (by decide) (by decide)
      (by decide)).2.1.trans (by decide),
    by decide,
    ((remaining_header_precedes_insert ⟨2, 60000⟩ sample_zstore "ip:10.0.0.2" 1000 1
      [(1000, 2), (1000, 3), (1000, 4)] (by decide) (by decide) (by decide)
      (by decide)).2.2.2 (by decide)).1.trans (by decide)⟩


/-! ## The settlement of a message by the push worker -/

/-- C28. The push worker, for a message whose header `x-retry-count` is absent
or a number `r`: the handling ends, and its acknowledgements and rejections are
exactly one `ack` or exactly one `nack` with `requeue = false`. When the
delivery succeeds the only action is the `ack`, and nothing is published; when
the handling fails and `r + 1 < 4` there is one `ack`, no `nack`, and one
republish; when it fails and `r + 1 ≥ 4` the only action is the `nack`, with
`allUpTo` and `requeue` both false. -/
theorem push_settles_once (env : WorkerEnv) (msg : Message) (r : Nat)
    (hr : read_retry_count msg = some r) :
    ∃ actions, consume env msg = some actions ∧
      (settlements actions = [.ack] ∨ settlements actions = [.nack false false]) ∧
      ((if msg.content.parses then env.delivery else some env.parse_error) = none →
        actions = [.ack] ∧ settlements actions = [.ack] ∧ publishes actions = []) ∧
      (∀ err, (if msg.content.parses then env.delivery else some env.parse_error) = some err →
        r + 1 < MAX_RETRIES →
        settlements actions = [.ack] ∧ (publishes actions).length = 1) ∧
      (∀ err, (if msg.content.parses then env.delivery else some env.parse_error) = some err →
        MAX_RETRIES ≤ r + 1 →
        actions = [.nack false false] ∧ settlements actions = [.nack false false] ∧
          publishes actions = []) := by
  cases hf : (if msg.content.parses then env.delivery else some env.parse_error) with
  | none =>
    refine ⟨_, consume_success env msg r hr hf, Or.inl rfl, fun _ => ⟨rfl, rfl, rfl⟩, ?_, ?_⟩
    · intro err herr
      exact absurd herr (by simp)
    · intro err herr
      exact absurd herr (by simp)
  | some e =>
    obtain ⟨pcid, hc⟩ := consume_failure env msg r e hr hf
    by_cases hlt : r + 1 < MAX_RETRIES
    · rw [if_pos hlt] at hc
      refine ⟨_, hc, Or.inl rfl, ?_, fun _ _ _ => ⟨rfl, rfl⟩, ?_⟩
      · intro h
        exact absurd h (by simp)
      · intro _ _ hge
        omega
    · rw [if_neg hlt] at hc
      refine ⟨_, hc, Or.inr rfl, ?_, ?_, fun _ _ _ => ⟨rfl, rfl, rfl⟩⟩
      · intro h
        exact absurd h (by simp)
      · intro _ _ h
        exact absurd h hlt

/-- Witness of C28: the first handling of `sample_push_message` fails; the worker
acknowledges it once, does not reject it, and republishes it once. -/
theorem push_settles_once_witness :
    read_retry_count sample_push_message = some 0 ∧
    (consume failing_env sample_push_message).map settlements = some [.ack] ∧
    (consume failing_env sample_push_message).map (fun a => (publishes a).length) = some 1 := by
  obtain ⟨actions, hc, _, _, h3, _⟩ :=
    push_settles_once failing_env sample_push_message 0 (by decide)
  have h := h3 "FCM unavailable" (by decide) (by decide)
  rw [hc]
  exact ⟨by decide, congrArg some h.1, congrArg some h.2⟩


/-! ## The reply to a duplicate of a failed request -/

/-- The route, for a request whose key has a live record: the reply of the
guard, and no run of the controller. -/
theorem notify_route_hit (store : IdemStore) (k : String) (body : RequestBody)
    (dispatch : RequestBody → Completion DispatchResult) (now : Nat) (e : IdemEntry)
    (hk : k ≠ "") (hfound : idem_lookup store now (idempotency_store_key k) = some e) :
    notify_route store (some k) body dispatch now IdemFaults.none
      = (store, .duplicate 200
          { success := true
            message := "Request already processed (idempotent)"
            data := e.value
            idempotent := true }) := by
  unfold notify_route
  rw [idempotency_hit store k now e hk hfound]

/-- The route, for a request with a new key and a body that fails the
validation: the 400 reply, cached as a completed record. -/
theorem notify_route_invalid (store : IdemStore) (k : String) (body : RequestBody)
    (dispatch : RequestBody → Completion DispatchResult) (now : Nat)
    (hk : k ≠ "") (hnew : idem_lookup store now (idempotency_store_key k) = none)
    (hinvalid : (js_not body.user_id || js_not body.template_name || js_not body.vars) = true) :
    (notify_route store (some k) body dispatch now IdemFaults.none).2
      = .handled ⟨[.respond 400 ⟨false, "user_id, template_name, and variables are required"⟩],
          .returned ()⟩ ∧
    (notify_route store (some k) body dispatch now IdemFaults.none).1 (idempotency_store_key k)
      = some ⟨⟨"completed", now,
          some ⟨false, "user_id, template_name, and variables are required"⟩⟩,
          now + 86400 * 1000⟩ := by
  unfold notify_route
  rw [idempotency_miss store k now hk hnew]
  simp only [send_notification_invalid body dispatch hinvalid]
  constructor
  · trivial
  · simp [cache_responses, res_json, set_idempotency_key, IdemFaults.none]

/-- C29. The route `POST /notify`, store operations succeeding. A request whose
key has a live record, whatever the record and whatever the body of the
request, is answered by the guard with status 200, `success: true`,
`idempotent: true` and `data` the whole stored record; the store is left as
it is and the dispatch is not started. In particular, when the first request
with a key fails the validation, its 400 body (`success: false`) is what is
stored, and every request with that key that comes before the record expires,
valid or not, is answered 200 with `success: true` and is not dispatched. -/
theorem duplicate_reply_masks_failure (store : IdemStore) (k : String) (hk : k ≠ "") :
    (∀ (body : RequestBody) (dispatch : RequestBody → Completion DispatchResult) (now : Nat)
        (e : IdemEntry), idem_lookup store now (idempotency_store_key k) = some e →
      notify_route store (some k) body dispatch now IdemFaults.none
        = (store, .duplicate 200
            { success := true
              message := "Request already processed (idempotent)"
              data := e.value
              idempotent := true }) ∧
      (notify_route store (some k) body dispatch now IdemFaults.none).2.dispatched = false) ∧
    (∀ (body1 body2 : RequestBody) (dispatch1 dispatch2 : RequestBody → Completion DispatchResult)
        (t1 t2 : Nat),
      idem_lookup store t1 (idempotency_store_key k) = none →
      (js_not body1.user_id || js_not body1.template_name || js_not body1.vars) = true →
      t2 < t1 + 86400 * 1000 →
      (notify_route store (some k) body1 dispatch1 t1 IdemFaults.none).2
        = .handled
            ⟨[.respond 400 ⟨false, "user_id, template_name, and variables are required"⟩],
              .returned ()⟩ ∧
      notify_route (notify_route store (some k) body1 dispatch1 t1 IdemFaults.none).1 (some k)
          body2 dispatch2 t2 IdemFaults.none
        = ((notify_route store (some k) body1 dispatch1 t1 IdemFaults.none).1,
            .duplicate 200
              { success := true
                message := "Request already processed (idempotent)"
                data := ⟨"completed", t1,
                  some ⟨false, "user_id, template_name, and variables are required"⟩⟩
                idempotent := true }) ∧
      (notify_route (notify_route store (some k) body1 dispatch1 t1 IdemFaults.none).1 (some k)
          body2 dispatch2 t2 IdemFaults.none).2.dispatched = false) := by
  constructor
  · intro body dispatch now e hfound
    have h := notify_route_hit store k body dispatch now e hk hfound
    rw [h]
    exact ⟨rfl, rfl⟩
  · intro body1 body2 dispatch1 dispatch2 t1 t2 hnew hinvalid hlive
    have h1 := notify_route_invalid store k body1 dispatch1 t1 hk hnew hinvalid
    have hfound : idem_lookup (notify_route store (some k) body1 dispatch1 t1 IdemFaults.none).1
        t2 (idempotency_store_key k)
        = some ⟨⟨"completed", t1,
            some ⟨false, "user_id, template_name, and variables are required"⟩⟩,
            t1 + 86400 * 1000⟩ := by
      unfold idem_lookup
      rw [h1.2]
      simp only [ite_eq_right_iff, reduceCtorEq, imp_false, not_le]
      exact hlive
    have h2 := notify_route_hit _ k body2 dispatch2 t2 _ hk hfound
    rw [h2]
    exact ⟨h1.1, rfl, rfl⟩

/-- Witness of C29: the request with the key `k2` and `sample_bad_body` at 5000 ms
is answered 400; the request with the same key and the valid `sample_body` at
6000 ms is answered 200 with `success: true` and is not dispatched. -/
theorem duplicate_reply_masks_failure_witness :
    (notify_route sample_idem_store (some "k2") sample_bad_body
        (fun _ => .returned ⟨true, "queued"⟩) 5000 IdemFaults.none).2
      = .handled
          ⟨[.respond 400 ⟨false, "user_id, template_name, and variables are required"⟩],
            .returned ()⟩ ∧
    (notify_route (notify_route sample_idem_store (some "k2") sample_bad_body
          (fun _ => .returned ⟨true, "queued"⟩) 5000 IdemFaults.none).1 (some "k2")
        sample_body (fun _ => .returned ⟨true, "queued"⟩) 6000 IdemFaults.none).2
      = .duplicate 200
          { success := true
            message := "Request already processed (idempotent)"
            data := ⟨"completed", 5000,
              some ⟨false, "user_id, template_name, and variables are required"⟩⟩
            idempotent := true } ∧
    (notify_route (notify_route sample_idem_store (some "k2") sample_bad_body
          (fun _ => .returned ⟨true, "queued"⟩) 5000 IdemFaults.none).1 (some "k2")
        sample_body (fun _ => .returned ⟨true, "queued"⟩) 6000 IdemFaults.none).2.dispatched
      = false :=
  have h := (duplicate_reply_masks_failure sample_idem_store "k2" (by decide)).2
    sample_bad_body sample_body (fun _ => .returned ⟨true, "queued"⟩)
    (fun _ => .returned ⟨true, "queued"⟩) 5000 6000 (by decide) (by decide) (by decide)
  ⟨h.1, congrArg Prod.snd h.2.1, h.2.2⟩


/-! ## What the push worker delivers -/

/-- The notifications delivered for the calls of a fan-out: the subject and the
body of the template, for each token. -/
theorem fan_out_notifications (env : DispatchEnv) (template : Template)
    (vars : List (String × String)) :
    ∀ (tokens : List PushToken) (k : Nat),
    (fan_out env template vars tokens k).map (fun c => delivered_notification c.1.delivered)
      = tokens.map (fun t => some ⟨template.subject, template.body, t.token⟩) := by
  intro tokens
  induction tokens with
  | nil => intro k; rfl
  | cons t ts ih =>
    intro k
    simp only [fan_out, List.map_cons, ih]
    rfl

/-- The number of accepted publishes of a fan-out does not depend on the
variables. -/
theorem published_count_fan_out_vars (env : DispatchEnv) (template : Template)
    (vars1 vars2 : List (String × String)) :
    ∀ (tokens : List PushToken) (k : Nat),
    published_count (fan_out env template vars1 tokens k)
      = published_count (fan_out env template vars2 tokens k) := by
  intro tokens
  induction tokens with
  | nil => intro k; rfl
  | cons t ts ih =>
    intro k
    have h := ih (k + 1)
    unfold published_count at h ⊢
    cases ha : env.accepted k <;> simp [fan_out, List.filter_cons, ha, h]

/-- The last binding of a name in the variables is its only binding in the
object handed to the renderer. -/
theorem email_view_last (m : EmailMessage) (rest : List (String × String)) (k v : String)
    (h : m.vars = rest ++ [(k, v)]) : ∀ w, (k, w) ∈ email_view m ↔ w = v := by
  intro w
  unfold email_view
  rw [h, List.foldl_append]
  simp only [List.foldl_cons, List.foldl_nil, List.mem_append, List.mem_filter,
    List.mem_singleton, Prod.mk.injEq, true_and, ne_eq, not_true_eq_false, decide_False,
    Bool.false_eq_true, and_false, false_or]

/-- A binding of the object handed to the renderer comes from the variables, or
from the user fields when the variables do not bind the name. -/
theorem email_view_mem (vars init : List (String × String)) (k v : String)
    (h : (k, v) ∈ vars.foldl
      (fun view kv => (view.filter (fun p => decide (p.1 ≠ kv.1))) ++ [kv]) init) :
    (k, v) ∈ vars ∨ ((k, v) ∈ init ∧ ∀ w, (k, w) ∉ vars) := by
  induction vars generalizing init with
  | nil => exact Or.inr ⟨h, fun w hw => by simp at hw⟩
  | cons kv rest ih =>
    rw [List.foldl_cons] at h
    rcases ih _ h with h1 | ⟨h1, h2⟩
    · exact Or.inl (List.mem_cons_of_mem _ h1)
    · rcases List.mem_append.mp h1 with h3 | h3
      · have h4 := List.mem_filter.mp h3
        right
        refine ⟨h4.1, ?_⟩
        intro w hw
        rcases List.mem_cons.mp hw with h5 | h5
        · have h6 : k ≠ kv.1 := by simpa using h4.2
          exact h6 (by rw [← h5])
        · exact h2 w h5
      · left
        rw [List.mem_singleton.mp h3]
        exact List.mem_cons_self _ _

/-- C30. The push worker hands to Firebase the title, the body and the token of
the payload, as they are; for an envelope built by the gateway these are the
subject and the body of the template and the device token. The notification
does not depend on the variables of the request: two envelopes that differ
in their variables (and in their correlation id and time) deliver the same
notification, and two runs of `process_notification_request` that differ only in
the variables of the request lead to the same notifications. On the email path
the subject and the body are what the renderer makes of the subject and the
body of the template and of the object `{ ...user, ...variables }`, in which
a name bound by the variables has the value that the variables give it, and
the other names are the fields of the user. -/
theorem push_ignores_variables :
    (∀ m : PushMessage, handle_message m = ⟨m.title, m.body, m.token⟩) ∧
    (∀ (correlation_id : String) (template : Template) (vars : List (String × String))
        (pushToken : PushToken) (timestamp : Nat),
      delivered_notification
          (push_envelope correlation_id template vars pushToken timestamp).delivered
        = some ⟨template.subject, template.body, pushToken.token⟩) ∧
    (∀ (c1 c2 : String) (template : Template) (vars1 vars2 : List (String × String))
        (pushToken : PushToken) (t1 t2 : Nat),
      delivered_notification (push_envelope c1 template vars1 pushToken t1).delivered
        = delivered_notification (push_envelope c2 template vars2 pushToken t2).delivered) ∧
    (∀ (env : DispatchEnv) (requestData : NotificationRequest) (vars2 : List (String × String)),
      (process_notification_request env requestData).published.map
          (fun c => delivered_notification c.1.delivered)
        = (process_notification_request env
            ⟨requestData.user_id, requestData.template_name, vars2⟩).published.map
          (fun c => delivered_notification c.1.delivered)) ∧
    (∀ (render : String → List (String × String) → String) (m : EmailMessage),
      handle_email_message render m
        = ⟨m.user_email, render m.template_subject (email_view m),
            render m.template_body (email_view m)⟩) ∧
    (∀ (m : EmailMessage) (k v : String), (k, v) ∈ email_view m →
      (k, v) ∈ m.vars ∨
      ((k, v) ∈ [("email", m.user_email), ("first_name", m.user_first_name)] ∧
        ∀ w, (k, w) ∉ m.vars)) ∧
    (∀ (m : EmailMessage) (rest : List (String × String)) (k v : String),
      m.vars = rest ++ [(k, v)] → ∀ w, (k, w) ∈ email_view m ↔ w = v) := by
  refine ⟨fun _ => rfl, fun _ _ _ _ _ => rfl, fun _ _ _ _ _ _ _ _ => rfl, ?_, fun _ _ => rfl,
    fun m k v h => email_view_mem m.vars _ k v h, email_view_last⟩
  intro env requestData vars2
  unfold process_notification_request
  cases env.user_response with
  | thrown e => rfl
  | returned u =>
    cases u with
    | none => rfl
    | some user =>
      cases env.template_response with
      | thrown e => rfl
      | returned t =>
        cases t with
        | none => rfl
        | some template =>
          dsimp only
          split_ifs with h1 h2
          · cases get_channel env.channel env.connection <;> rfl
          · cases user.push_tokens with
            | none => rfl
            | some tokens =>
              cases tokens with
              | nil => rfl
              | cons t ts =>
                cases get_channel env.channel env.connection with
                | some e => rfl
                | none =>
                  dsimp only
                  rw [published_count_fan_out_vars env template requestData.vars vars2]
                  split_ifs <;> simp only [fan_out_notifications]
          · rfl


/-- Witness of C30: `sample_push_message` delivers the subject and the body of
`sample_template`; in the object rendered for `sample_email_message` the name
`first_name` has the value given by the variables. -/
theorem push_ignores_variables_witness :
    delivered_notification sample_push_message
      = some ⟨"Hello", "You have a new message", "tok-abcdef-123"⟩ ∧
    ("first_name", "Countess") ∈ email_view sample_email_message ∧
    ("first_name", "Ada") ∉ email_view sample_email_message :=
  ⟨push_ignores_variables.2.1 "c-1" sample_template [("name", "Ada")] ⟨"tok-abcdef-123"⟩
      1700000000000,
    (push_ignores_variables.2.2.2.2.2.2 sample_email_message [] "first_name" "Countess" rfl
      "Countess").mpr rfl,
    fun h => absurd ((push_ignores_variables.2.2.2.2.2.2 sample_email_message [] "first_name"
      "Countess" rfl "Ada").mp h) (by decide)⟩

end NotificationSystem
